import Mathlib

/-!
# Volume-rendering panel and scene model of 3D Slicer

A shallow embedding of `qSlicerVolumeRenderingModuleWidget.cxx`, followed by a model
of the scene model declared in `qMRMLSceneModel.h`.

* MRML nodes live in a store indexed by `NodeID` (pointer identity); a null
  pointer is `none`.
* The panel (`qSlicerVolumeRenderingModuleWidgetPrivate` and the widgets of its
  form) is a record; every slot is a function on `World`.
* A slot that dereferences a null pointer has no result (`none`).
* `double` values are the rationals their literals denote.
* Signals: a node selector (`setCurrentNode`) runs the slots connected to its
  `currentNodeChanged` in `setupUi` when its current node changes. In the slots of
  the first part the value widgets (check boxes, index selectors, slider) hold the
  value they are given. The section "The refresh with the signals of the widgets
  delivered" gives the refresh and the selection of a volume once more, with the
  `toggled`, `currentIndexChanged` and `valueChanged` signals of these widgets and
  the `ModifiedEvent` of the selected display node delivered to the slots connected
  to them; there a null dereference or a refresh nested deeper than the fuel is a
  `Fault`.
* `World.steps` logs the additions to and removals from the scene and the
  assignments of the handle `d->DisplayNode`, in the order the code makes them.
* The transfer-function widget runs `onChartsExtentChanged` when its chart extent is
  set, unless its signals are blocked. The modified events a volume-property node
  invokes for a write of its effective range are counted on the node.
* `Q_ASSERT` is a debug-only check and does not stop a slot; the condition of the
  one assertion of the file is `memorySizeAssertion`.
-/

namespace Slicer

/-- Identity of a MRML node (the pointer value). -/
abbrev NodeID := Nat

/-- Attributes held by the base class `vtkMRMLVolumeRenderingDisplayNode`. -/
structure DisplayAttrs where
  Visibility : Bool := true
  CroppingEnabled : Bool := false
  GPUMemorySize : Int := 0
  PerformanceControl : Int := 0
  ExpectedFPS : ℚ := 8
  FollowVolumeDisplayNode : Int := 0
  IgnoreVolumeDisplayNodeThreshold : Int := 0
  VolumePropertyNodeID : Option NodeID := none
  ROINodeID : Option NodeID := none
  ViewNodeIDs : List (Option NodeID) := []
deriving DecidableEq

/-- State of a `vtkMRMLVolumePropertyNode` read or written by the panel. -/
structure VolumePropertyData where
  EffectiveRange : ℚ × ℚ := (0, -1)
  DisableModifiedEvent : Int := 0
  /-- result of `CalculateEffectiveRange()`: the recomputed range, when there is one -/
  CalculatedRange : Option (ℚ × ℚ) := none
  /-- number of `CalculateEffectiveRange()` requests the node received -/
  CalculateEffectiveRangeCalls : Nat := 0
  /-- number of modified events the node invoked for a write of its effective range -/
  ModifiedEvents : Nat := 0
deriving DecidableEq

namespace VolumePropertyData

/-- Modelled from the spec: `SetEffectiveRange(lo, hi)` of the volume-property node
(not under src): the range is stored; the node invokes its modified event for a
changed range unless the event is disabled. -/
def SetEffectiveRange (d : VolumePropertyData) (lo hi : ℚ) : VolumePropertyData :=
  { d with
    EffectiveRange := (lo, hi)
    ModifiedEvents := if d.DisableModifiedEvent = 0 ∧ d.EffectiveRange ≠ (lo, hi) then d.ModifiedEvents + 1 else d.ModifiedEvents }

/-- Modelled from the spec: `CalculateEffectiveRange()` of the volume-property node
(not under src): the node is asked to recompute its range; it answers whether it
could, and stores the range when it could. -/
def CalculateEffectiveRange (d : VolumePropertyData) : Bool × VolumePropertyData :=
  match d.CalculatedRange with
  | none => (false, { d with CalculateEffectiveRangeCalls := d.CalculateEffectiveRangeCalls + 1 })
  | some r => (true, { d with EffectiveRange := r, CalculateEffectiveRangeCalls := d.CalculateEffectiveRangeCalls + 1 })

end VolumePropertyData

/-- State of a `vtkMRMLAnnotationROINode` read or written by the panel. -/
structure ROIData where
  DisplayVisibility : Bool := true
  DisplayNodeIDs : List NodeID := []
  XYZ : ℚ × ℚ × ℚ := (0, 0, 0)
  RadiusXYZ : ℚ × ℚ × ℚ := (0, 0, 0)
deriving DecidableEq

/-- MRML node classes the panel distinguishes with `SafeDownCast`. -/
inductive Node where
  /-- a subclass of `vtkMRMLVolumeRenderingDisplayNode`, named by `GetClassName()` -/
  | renderDisplay (className : String) (attrs : DisplayAttrs)
  | volumeProperty (data : VolumePropertyData)
  | annotationROI (data : ROIData)
  /-- `vtkMRMLScalarVolumeNode` with its display-node references -/
  | scalarVolume (DisplayNodeIDs : List NodeID)
  /-- a `vtkMRMLVolumeNode` that is not a scalar volume -/
  | volume (DisplayNodeIDs : List NodeID)
  | other (className : String)
deriving DecidableEq

namespace Node

def isVolumeRenderingDisplayNode : Node → Bool
  | renderDisplay _ _ => true
  | _ => false

def isVolumePropertyNode : Node → Bool
  | volumeProperty _ => true
  | _ => false

def isAnnotationROINode : Node → Bool
  | annotationROI _ => true
  | _ => false

def isScalarVolumeNode : Node → Bool
  | scalarVolume _ => true
  | _ => false

def isVolumeNode : Node → Bool
  | scalarVolume _ => true
  | volume _ => true
  | _ => false

/-- Display-node references of a displayable node. -/
def DisplayNodeIDs : Node → List NodeID
  | scalarVolume ds => ds
  | volume ds => ds
  | annotationROI r => r.DisplayNodeIDs
  | _ => []

/-- Attributes of a render-display node (`none` for any other class). -/
def displayAttrs : Node → Option DisplayAttrs
  | renderDisplay _ a => some a
  | _ => none

/-- Apply a setter to a render-display node; any other node is left as it is. -/
def mapDisplayAttrs (f : DisplayAttrs → DisplayAttrs) : Node → Node
  | renderDisplay c a => renderDisplay c (f a)
  | x => x

/-- `AddAndObserveDisplayNodeID(id)` on a displayable node. -/
def AddAndObserveDisplayNodeID (id : NodeID) : Node → Node
  | scalarVolume ds => scalarVolume (ds ++ [id])
  | volume ds => volume (ds ++ [id])
  | annotationROI r => annotationROI { r with DisplayNodeIDs := r.DisplayNodeIDs ++ [id] }
  | x => x

/-- The part of a node that the refresh of the widgets never writes: everything but
the volume-property and ROI references of a render-display node and the state of
a volume-property node. -/
def skeleton : Node → Node
  | renderDisplay c a => renderDisplay c { a with VolumePropertyNodeID := none, ROINodeID := none }
  | volumeProperty _ => volumeProperty {}
  | x => x

/-- The class of a node alone, all of its state erased. -/
def classOnly : Node → Node
  | renderDisplay c _ => renderDisplay c {}
  | volumeProperty _ => volumeProperty {}
  | annotationROI _ => annotationROI {}
  | scalarVolume _ => scalarVolume []
  | volume _ => volume []
  | other c => other c

/-- Result of `GetClassName()`. -/
def GetClassName : Node → String
  | renderDisplay c _ => c
  | volumeProperty _ => "vtkMRMLVolumePropertyNode"
  | annotationROI _ => "vtkMRMLAnnotationROINode"
  | scalarVolume _ => "vtkMRMLScalarVolumeNode"
  | volume _ => "vtkMRMLVolumeNode"
  | other c => c

end Node

/-- The node store: what each pointer designates. -/
abbrev Nodes := NodeID → Node

/-- `vtkMRMLScene`: the ordered node collection and the closing flag. -/
structure Scene where
  Nodes : List NodeID := []
  IsClosing : Bool := false
deriving DecidableEq

/-- `T::SafeDownCast(p)`: `p` when it is non-null and designates a `T`, else null. -/
def SafeDownCast (isT : Node → Bool) (nodes : Nodes) (p : Option NodeID) : Option NodeID :=
  p.filter (fun i => isT (nodes i))

/-- Parameters of `vtkSlicerVolumeRenderingLogic` that the panel relies on. -/
structure Logic where
  /-- class created by `CreateVolumeRenderingDisplayNode()` when no name is given -/
  DefaultRenderingMethod : String := "vtkMRMLCPURayCastVolumeRenderingDisplayNode"
  /-- attributes of a freshly created display node -/
  DefaultAttrs : DisplayAttrs := {}
  /-- `GetRenderingMethods()`: method name and display-node class name, in map order -/
  RenderingMethods : List (String × String) := []
  UseLinearRamp : Bool := true
  /-- `UpdateDisplayNodeFromVolumeNode(displayNode, volumeNode)` on the display node -/
  UpdateDisplayNodeFromVolumeNode : DisplayAttrs → Option NodeID → DisplayAttrs :=
    fun a _ => a
  /-- `FitROIToVolume(displayNode)` -/
  FitROIToVolume : Nodes → NodeID → Nodes := fun ns _ => ns
  /-- `CopyDisplayToVolumeRenderingDisplayNode(displayNode)` -/
  CopyDisplayToVolumeRenderingDisplayNode : Nodes → Option NodeID → Nodes := fun ns _ => ns

/-- Modelled from the spec: `firstDisplayNodeForROI(roi)` of the rendering logic
(`GetFirstVolumeRenderingDisplayNodeByROINode`, not under src): the first
render-display node of the scene that references `roi` as its ROI. -/
def GetFirstVolumeRenderingDisplayNodeByROINode (nodes : Nodes) (scene : Option Scene)
    (roi : NodeID) : Option NodeID :=
  match scene with
  | none => none
  | some sc =>
    sc.Nodes.find? (fun d =>
      match nodes d with
      | .renderDisplay _ a => a.ROINodeID == some roi
      | _ => false)

/-- Modelled from the spec: `firstDisplayNodeForVolume(volume)` of the rendering
logic (`GetFirstVolumeRenderingDisplayNode`, not under src): the first of the
volume's display nodes that is a render-display node. -/
def GetFirstVolumeRenderingDisplayNode (nodes : Nodes) (volume : NodeID) : Option NodeID :=
  (nodes volume).DisplayNodeIDs.find? (fun d => (nodes d).isVolumeRenderingDisplayNode)

/-- Modelled from the spec: `GetVolumeRenderingDisplayNodeByID(volume, id)` of the
rendering logic (not under src): the volume's render-display node with that
identifier, if it references one. -/
def GetVolumeRenderingDisplayNodeByID (nodes : Nodes) (volume : NodeID) (id : NodeID) :
    Option NodeID :=
  (nodes volume).DisplayNodeIDs.find?
    (fun d => d == id && (nodes d).isVolumeRenderingDisplayNode)

/-- Modelled from the spec: `GetDisplayableNode()` of a display node (not under
src): the first node of the scene that references it as a display node. -/
def GetDisplayableNode (nodes : Nodes) (scene : Option Scene) (d : NodeID) : Option NodeID :=
  match scene with
  | none => none
  | some sc => sc.Nodes.find? (fun n => decide (d ∈ (nodes n).DisplayNodeIDs))

/-- Signals the panel emits. -/
inductive Signal where
  | currentVolumeNodeChanged (node : Option NodeID)
  | currentVolumeRenderingDisplayNodeChanged (node : Option NodeID)
deriving DecidableEq

/-- An item selector (`QComboBox`): its entries (text, user data) and current index. -/
structure ComboBox (α : Type) where
  items : List (String × α) := []
  currentIndex : Int := -1

namespace ComboBox

variable {α : Type}

/-- `findData(v)`: index of the first entry whose data is `v`, or -1. -/
def findData [DecidableEq α] (c : ComboBox α) (v : α) : Int :=
  if c.items.findIdx (fun it => decide (it.2 = v)) < c.items.length then
    (c.items.findIdx (fun it => decide (it.2 = v)) : Int)
  else -1

/-- `itemData(index)`: the data of the entry, or an invalid variant (`none`). -/
def itemData (c : ComboBox α) (index : Int) : Option α :=
  if index < 0 then none else (c.items.get? index.toNat).map (fun it => it.2)

/-- `setCurrentIndex(index)`. -/
def setCurrentIndex (c : ComboBox α) (index : Int) : ComboBox α :=
  { c with currentIndex := index }

/-- `addItem(text, userData)`: the entry is appended; the first entry of an empty
selector becomes the current one. -/
def addItem (c : ComboBox α) (text : String) (userData : α) : ComboBox α :=
  { items := c.items ++ [(text, userData)]
    currentIndex := if c.items.isEmpty then 0 else c.currentIndex }

/-- `insertSeparator(index)`: an entry without text or data is inserted at `index`;
the current entry stays the current one. -/
def insertSeparator {β : Type} (c : ComboBox (Option β)) (index : Nat) : ComboBox (Option β) :=
  { items := c.items.take index ++ [("", none)] ++ c.items.drop index
    currentIndex := if (index : Int) ≤ c.currentIndex then c.currentIndex + 1 else c.currentIndex }

end ComboBox

/-- The private part of the panel (`qSlicerVolumeRenderingModuleWidgetPrivate`)
and the state of the widgets of its form. -/
structure Panel where
  DisplayNode : Option NodeID := none
  OldPresetPosition : ℚ := 0
  /-- `QMap<QString, QWidget*>`; a widget is named by its page in the stacked widget -/
  RenderingMethodWidgets : List (String × Option Nat) := []
  VolumeNodeComboBox : Option NodeID := none
  DisplayNodeComboBox : Option NodeID := none
  ROINodeComboBox : Option NodeID := none
  VolumePropertyNodeComboBox : Option NodeID := none
  VisibilityCheckBox : Bool := false
  ROICropCheckBox : Bool := false
  ROICropDisplayCheckBox : Bool := false
  IgnoreVolumesThresholdCheckBox : Bool := false
  SynchronizeScalarDisplayNodeButton : Bool := false
  /-- whether the check box of the synchronize button shows `Qt::Checked` -/
  SynchronizeScalarDisplayNodeCheckState : Bool := false
  RenderingMethodComboBox : ComboBox String := {}
  MemorySizeComboBox : ComboBox (Option Int) := {}
  QualityControlComboBox : Int := -1
  FramerateSliderWidget : ℚ := 0
  FramerateSliderWidgetEnabled : Bool := false
  /-- pages of the stacked widget, and its current page -/
  RenderingMethodStackedWidgetCount : Nat := 0
  RenderingMethodStackedWidget : Int := -1
  /-- `checkedViewNodes()` of the view selector -/
  ViewCheckableNodeComboBox : List (Option NodeID) := []
  /-- `mrmlROINode()` of the ROI widget and the extent it was last given -/
  ROIWidget : Option NodeID := none
  ROIWidgetExtent : Option (ℚ × ℚ × ℚ × ℚ × ℚ × ℚ) := none
  /-- transfer-function widget: chart extent (x, then y), `signalsBlocked()`, and the
  number of `chartsExtentChanged()` signals it emitted -/
  VolumePropertyNodeWidgetChartsExtent : ℚ × ℚ := (0, 0)
  VolumePropertyNodeWidgetChartsExtentY : ℚ × ℚ := (0, 1)
  VolumePropertyNodeWidgetSignalsBlocked : Bool := false
  ChartsExtentChangedSignals : Nat := 0
  /-- threshold mode of the transfer-function widget -/
  VolumePropertyNodeWidgetThreshold : Bool := false
  /-- preset selector: its volume-property node, number of `updatePresetSliderRange()` calls -/
  PresetComboBoxNode : Option NodeID := none
  PresetSliderRangeUpdates : Nat := 0
  /-- objects connected by `qvtkReconnect`, per (event, slot) pair -/
  ModifiedConnections : List NodeID := []
  EffectiveRangeConnections : List NodeID := []
  DisplayModifiedConnections : List NodeID := []

/-- What a slot does to the scene and to the handle `d->DisplayNode`; the world keeps
these steps in the order in which they are made. -/
inductive Step where
  /-- `mrmlScene()->AddNode(n)` -/
  | AddNode (n : NodeID)
  /-- `mrmlScene()->RemoveNode(n)` -/
  | RemoveNode (n : NodeID)
  /-- `d->DisplayNode = n`, line 364 -/
  | DisplayNode (n : Option NodeID)
deriving DecidableEq

/-- Everything a slot of the panel can read or write. -/
structure World where
  nodes : Nodes := fun _ => Node.other ""
  /-- next unused node identity -/
  nextID : NodeID := 0
  /-- `mrmlScene()` -/
  scene : Option Scene := some {}
  /-- `SafeDownCast(logic())` -/
  logic : Option Logic := some {}
  /-- stored value of `VolumeRendering/RenderingMethod`, if any -/
  RenderingMethodSetting : Option String := none
  /-- stored value of `VolumeRendering/GPUMemorySize`, if any -/
  GPUMemorySizeSetting : Option Int := none
  /-- value of `vtkMRMLVolumeRenderingDisplayNode::Adaptative` (declared outside src) -/
  Adaptative : Int := 0
  panel : Panel := {}
  /-- nodes on which the panel invoked `Modified()` itself, in order -/
  ModifiedCalls : List NodeID := []
  emitted : List Signal := []
  /-- additions to and removals from the scene and assignments of the handle, in order -/
  steps : List Step := []

/-- `qvtkReconnect(old, new, ...)`: drop the connection to `old`, connect `new`. -/
def qvtkReconnect (cs : List NodeID) (old new : Option NodeID) : List NodeID :=
  let cs1 := match old with
    | some o => cs.erase o
    | none => cs
  match new with
  | some n => cs1 ++ [n]
  | none => cs1

namespace World

/-- Write the attributes of render-display node `n` (a setter of the node). -/
def modifyDisplay (w : World) (n : NodeID) (f : DisplayAttrs → DisplayAttrs) : World :=
  { w with nodes := Function.update w.nodes n ((w.nodes n).mapDisplayAttrs f) }

/-- The world in which pointer `n` designates `node`, all else as in `w`. -/
def withNode (w : World) (n : NodeID) (node : Node) : World :=
  { w with nodes := Function.update w.nodes n node }

/-- The world whose panel is `p`, all else as in `w`. -/
def withPanel (w : World) (p : Panel) : World :=
  { w with panel := p }

/-- `AddAndObserveDisplayNodeID(id)` on displayable node `v`. -/
def addDisplayNodeID (w : World) (v : NodeID) (id : NodeID) : World :=
  { w with nodes := Function.update w.nodes v ((w.nodes v).AddAndObserveDisplayNodeID id) }

/-- Attributes of the node behind `d->DisplayNode`, when the handle is set. -/
def displayNodeAttrs (w : World) : Option DisplayAttrs :=
  w.panel.DisplayNode.bind (fun n => (w.nodes n).displayAttrs)

/-- `GetVolumePropertyNode()` of display node `d`: the referenced node, as a
`vtkMRMLVolumePropertyNode*`. -/
def GetVolumePropertyNode (w : World) (d : NodeID) : Option NodeID :=
  SafeDownCast Node.isVolumePropertyNode w.nodes
    ((w.nodes d).displayAttrs.bind (fun a => a.VolumePropertyNodeID))

/-- `GetROINode()` of display node `d`: the referenced node, as a
`vtkMRMLAnnotationROINode*`. -/
def GetROINode (w : World) (d : NodeID) : Option NodeID :=
  SafeDownCast Node.isAnnotationROINode w.nodes
    ((w.nodes d).displayAttrs.bind (fun a => a.ROINodeID))

/-- `mrmlVolumeNode()`, lines 261-266. -/
def mrmlVolumeNode (w : World) : Option NodeID :=
  SafeDownCast Node.isScalarVolumeNode w.nodes w.panel.VolumeNodeComboBox

/-- `mrmlDisplayNode()`, lines 325-329. -/
def mrmlDisplayNode (w : World) : Option NodeID :=
  SafeDownCast Node.isVolumeRenderingDisplayNode w.nodes w.panel.DisplayNodeComboBox

/-- `mrmlVolumePropertyNode()`, lines 499-503. -/
def mrmlVolumePropertyNode (w : World) : Option NodeID :=
  SafeDownCast Node.isVolumePropertyNode w.nodes w.panel.VolumePropertyNodeComboBox

/-- `mrmlROINode()`, lines 536-540. -/
def mrmlROINode (w : World) : Option NodeID :=
  SafeDownCast Node.isAnnotationROINode w.nodes w.panel.ROINodeComboBox

/-- `mrmlScene()->AddNode(n)`; no result when there is no scene. -/
def AddNode (w : World) (n : NodeID) : Option World :=
  match w.scene with
  | none => none
  | some sc => some { w with scene := some { sc with Nodes := sc.Nodes ++ [n] }, steps := w.steps ++ [Step.AddNode n] }

/-- `mrmlScene()->RemoveNode(n)`; no result when there is no scene. -/
def RemoveNode (w : World) (n : NodeID) : Option World :=
  match w.scene with
  | none => none
  | some sc => some { w with scene := some { sc with Nodes := sc.Nodes.filter (fun m => m != n) }, steps := w.steps ++ [Step.RemoveNode n] }

/-- Modelled from the spec: `createDisplayNode(subclassName?)` of the rendering
logic (`CreateVolumeRenderingDisplayNode`, not under src): a new render-display
node of the named class, or of the logic's default class when no name is given. -/
def CreateVolumeRenderingDisplayNode (w : World) (logic : Logic) (className : Option String) :
    NodeID × World :=
  (w.nextID,
   { w with
     nodes := Function.update w.nodes w.nextID (Node.renderDisplay (className.getD logic.DefaultRenderingMethod) logic.DefaultAttrs)
     nextID := w.nextID + 1 })

end World

/-- `QMap::operator[]` on `RenderingMethodWidgets`: the stored widget, and the map,
which gains the key with a null widget when the key was absent. -/
def RenderingMethodWidgets_index (m : List (String × Option Nat)) (key : String) :
    Option Nat × List (String × Option Nat) :=
  match m.lookup key with
  | some v => (v, m)
  | none => (none, m ++ [(key, none)])

/-- `chartsExtent(double[4])` of the transfer-function widget. -/
def chartsExtent (p : Panel) : ℚ × ℚ × ℚ × ℚ :=
  (p.VolumePropertyNodeWidgetChartsExtent.1, p.VolumePropertyNodeWidgetChartsExtent.2,
    p.VolumePropertyNodeWidgetChartsExtentY.1, p.VolumePropertyNodeWidgetChartsExtentY.2)

/-- `onChartsExtentChanged`, lines 807-823. -/
def onChartsExtentChanged (w : World) : World :=
  match w.mrmlVolumePropertyNode with
  | none => w
  | some volumePropertyNode =>
    match w.nodes volumePropertyNode with
    | .volumeProperty data =>
      let effectiveRange := chartsExtent w.panel
      let wasDisabled := data.DisableModifiedEvent
      let d1 := { data with DisableModifiedEvent := 1 }
      let d2 := d1.SetEffectiveRange effectiveRange.1 effectiveRange.2.1
      let d3 := { d2 with DisableModifiedEvent := wasDisabled }
      w.withNode volumePropertyNode (Node.volumeProperty d3)
    | _ => w

/-- `setChartsExtent(lo, hi)` of the transfer-function widget: unless its signals are
blocked, it emits `chartsExtentChanged()` and the slot connected in `setupUi`
(line 172) runs. -/
def setChartsExtent (w : World) (lo hi : ℚ) : World :=
  let w1 := { w with panel.VolumePropertyNodeWidgetChartsExtent := (lo, hi) }
  if w1.panel.VolumePropertyNodeWidgetSignalsBlocked then w1
  else onChartsExtentChanged { w1 with panel.ChartsExtentChangedSignals := w1.panel.ChartsExtentChangedSignals + 1 }

/-- Lines 848-853 of `onEffectiveRangeModified`: set the chart extent with the
signals of the transfer-function widget blocked, restore the blocking state, and
update the slider range of the presets. -/
def setChartsExtentBlocked (w : World) (effectiveRange : ℚ × ℚ) : World :=
  let wasBlocking := w.panel.VolumePropertyNodeWidgetSignalsBlocked
  let w2 := { w with panel.VolumePropertyNodeWidgetSignalsBlocked := true }
  let w3 := setChartsExtent w2 effectiveRange.1 effectiveRange.2
  let w4 := { w3 with panel.VolumePropertyNodeWidgetSignalsBlocked := wasBlocking }
  { w4 with panel.PresetSliderRangeUpdates := w4.panel.PresetSliderRangeUpdates + 1 }

/-- `onEffectiveRangeModified`, lines 826-854. -/
def onEffectiveRangeModified (w : World) : World :=
  match w.mrmlVolumePropertyNode with
  | none => w
  | some volumePropertyNode =>
    match w.nodes volumePropertyNode with
    | .volumeProperty data =>
      if data.EffectiveRange.1 > data.EffectiveRange.2 then
        let calculated := data.CalculateEffectiveRange
        let w1 := w.withNode volumePropertyNode (Node.volumeProperty calculated.2)
        if !calculated.1 then w1
        else setChartsExtentBlocked w1 calculated.2.EffectiveRange
      else setChartsExtentBlocked w data.EffectiveRange
    | _ => w

/-- `onCurrentMRMLVolumePropertyNodeChanged`, lines 514-533. -/
def onCurrentMRMLVolumePropertyNodeChanged (w : World) (node : Option NodeID) : World :=
  match w.panel.DisplayNode, SafeDownCast Node.isVolumePropertyNode w.nodes node with
  | some d, some volumePropertyNode =>
    let old := w.GetVolumePropertyNode d
    let w1 := { w with panel.EffectiveRangeConnections := qvtkReconnect w.panel.EffectiveRangeConnections old (some volumePropertyNode) }
    let w2 := w1.modifyDisplay d (fun a => { a with VolumePropertyNodeID := some volumePropertyNode })
    onEffectiveRangeModified w2
  | _, _ => w

/-- `setMRMLVolumePropertyNode`, lines 506-511: the selector takes `node`; when its
current node changes, the slots connected in `setupUi` (lines 111 and 178) run. -/
def setMRMLVolumePropertyNode (w : World) (node : Option NodeID) : World :=
  if w.panel.VolumePropertyNodeComboBox = node then w
  else
    let w1 := { w with panel.VolumePropertyNodeComboBox := node }
    let w2 := onCurrentMRMLVolumePropertyNodeChanged w1 node
    { w2 with panel.PresetComboBoxNode := node }

/-- `updateFromMRMLDisplayROINode`, lines 435-444. -/
def updateFromMRMLDisplayROINode (w : World) : World :=
  match w.panel.ROIWidget with
  | none => w
  | some roi =>
    match w.nodes roi with
    | .annotationROI r => { w with panel.ROICropDisplayCheckBox := r.DisplayVisibility }
    | _ => w

/-- `onCurrentMRMLROINodeChanged`, lines 550-564. -/
def onCurrentMRMLROINodeChanged (w : World) (node : Option NodeID) : World :=
  match w.panel.DisplayNode with
  | none => w
  | some d =>
    let roiNode := SafeDownCast Node.isAnnotationROINode w.nodes node
    let old := w.GetROINode d
    let w1 := { w with panel.DisplayModifiedConnections := qvtkReconnect w.panel.DisplayModifiedConnections old roiNode }
    let w2 := w1.modifyDisplay d (fun a => { a with ROINodeID := roiNode })
    updateFromMRMLDisplayROINode w2

/-- `setMRMLROINode`, lines 543-547: the selector takes `node`; when its current node
changes, the slot connected in `setupUi` (line 109) runs. -/
def setMRMLROINode (w : World) (node : Option NodeID) : World :=
  if w.panel.ROINodeComboBox = node then w
  else onCurrentMRMLROINodeChanged { w with panel.ROINodeComboBox := node } node

/-- The built-in fallback of line 398 for the rendering-method setting. -/
def defaultRenderingMethodFallback : String := "vtkMRMLCPURayCastVolumeRenderinDisplayNode"

/-- Lines 391-430 of `updateFromMRMLDisplayNode`: the values the widgets take from
the selected display node (or their defaults when none is selected). The widgets are
written as values here; `writeValueWidgets` writes them with their signals delivered. -/
def refreshedPanel (w : World) : Panel :=
  let p := w.panel
  let p := { p with VisibilityCheckBox :=
    (match w.displayNodeAttrs with | some a => a.Visibility | none => false) }
  let p := { p with ROICropCheckBox :=
    (match w.displayNodeAttrs with | some a => a.CroppingEnabled | none => false) }
  let defaultRenderingMethod := w.RenderingMethodSetting.getD defaultRenderingMethodFallback
  let currentVolumeMapper :=
    match w.panel.DisplayNode with
    | some d => (w.nodes d).GetClassName
    | none => defaultRenderingMethod
  let p := { p with RenderingMethodComboBox :=
    p.RenderingMethodComboBox.setCurrentIndex (p.RenderingMethodComboBox.findData currentVolumeMapper) }
  let index : Int :=
    match w.displayNodeAttrs with
    | some a => p.MemorySizeComboBox.findData (some a.GPUMemorySize)
    | none => -1
  let p := { p with MemorySizeComboBox := p.MemorySizeComboBox.setCurrentIndex index }
  let p := { p with QualityControlComboBox :=
    (match w.displayNodeAttrs with | some a => a.PerformanceControl | none => -1) }
  let p := { p with FramerateSliderWidget :=
    (match w.displayNodeAttrs with | some a => a.ExpectedFPS | none => p.FramerateSliderWidget) }
  let p := { p with FramerateSliderWidgetEnabled :=
    (match w.displayNodeAttrs with | some a => decide (a.PerformanceControl = w.Adaptative) | none => false) }
  let follow : Bool :=
    match w.displayNodeAttrs with
    | some a => decide (a.FollowVolumeDisplayNode ≠ 0)
    | none => false
  let p := { p with SynchronizeScalarDisplayNodeCheckState :=
    if follow then true else p.SynchronizeScalarDisplayNodeCheckState }
  let p := { p with SynchronizeScalarDisplayNodeButton := follow }
  let p := { p with IgnoreVolumesThresholdCheckBox :=
    (match w.displayNodeAttrs with | some a => decide (a.IgnoreVolumeDisplayNodeThreshold ≠ 0) | none => false) }
  let looked := RenderingMethodWidgets_index p.RenderingMethodWidgets currentVolumeMapper
  let p := { p with RenderingMethodWidgets := looked.2 }
  { p with RenderingMethodStackedWidget :=
    (match looked.1 with | some page => (page : Int) | none => 0) }

/-- `updateFromMRMLDisplayNode`, lines 384-431: the refresh of the widgets from the
selected display node, the value widgets written as values;
`updateFromMRMLDisplayNodeWithSignals` is the refresh with their signals delivered. -/
def updateFromMRMLDisplayNode (w : World) : World :=
  let w1 := setMRMLVolumePropertyNode w
    (match w.panel.DisplayNode with | some d => w.GetVolumePropertyNode d | none => none)
  let w2 := setMRMLROINode w1
    (match w1.panel.DisplayNode with | some d => w1.GetROINode d | none => none)
  w2.withPanel (refreshedPanel w2)

/-- Lines 346-359 of `onCurrentMRMLDisplayNodeChanged`: when a volume is selected
and does not reference `displayNode` yet, the reference is added. -/
def addDisplayNodeReference (w : World) (displayNode : Option NodeID) : Option World :=
  match w.mrmlVolumeNode, displayNode with
  | some volumeNode, some dn =>
    match w.logic with
    | none => none
    | some _ =>
      if GetVolumeRenderingDisplayNodeByID w.nodes volumeNode dn ≠ some dn then
        some (w.addDisplayNodeID volumeNode dn)
      else some w
  | _, _ => some w

/-- Lines 361-364 of `onCurrentMRMLDisplayNodeChanged`: observe the node instead of
the previous one, and keep it in the handle. -/
def observeDisplayNode (w : World) (displayNode : Option NodeID) : World :=
  let w2 := { w with panel.ModifiedConnections := qvtkReconnect w.panel.ModifiedConnections w.panel.DisplayNode displayNode }
  { w2 with panel.DisplayNode := displayNode, steps := w2.steps ++ [Step.DisplayNode displayNode] }

/-- Lines 361-368 of `onCurrentMRMLDisplayNodeChanged`: observe the node, keep it in
the handle, refresh the widgets, emit the signal. -/
def bindDisplayNode (w : World) (displayNode : Option NodeID) : World :=
  let w4 := updateFromMRMLDisplayNode (observeDisplayNode w displayNode)
  { w4 with emitted := w4.emitted ++ [Signal.currentVolumeRenderingDisplayNodeChanged displayNode] }

/-- `onCurrentMRMLDisplayNodeChanged`, lines 339-369. -/
def onCurrentMRMLDisplayNodeChanged (w : World) (node : Option NodeID) : Option World :=
  let displayNode := SafeDownCast Node.isVolumeRenderingDisplayNode w.nodes node
  match addDisplayNodeReference w displayNode with
  | none => none
  | some w1 => some (bindDisplayNode w1 displayNode)

/-- `setMRMLDisplayNode`, lines 332-336: the selector takes `displayNode`; when its
current node changes, the slot connected in `setupUi` (line 107) runs. -/
def setMRMLDisplayNode (w : World) (displayNode : Option NodeID) : Option World :=
  if w.panel.DisplayNodeComboBox = displayNode then some w
  else onCurrentMRMLDisplayNodeChanged { w with panel.DisplayNodeComboBox := displayNode } displayNode

/-- `createVolumeRenderingDisplayNode`, lines 204-234. -/
def createVolumeRenderingDisplayNode (w : World) (volumeNode : Option NodeID) :
    Option (NodeID × World) :=
  match w.logic with
  | none => none
  | some logic =>
    let created := w.CreateVolumeRenderingDisplayNode logic none
    let displayNode := created.1
    match created.2.AddNode displayNode with
    | none => none
    | some w1 =>
      let w2 := w1.modifyDisplay displayNode (fun a => { a with IgnoreVolumeDisplayNodeThreshold := 1 })
      let w3 := w2.modifyDisplay displayNode (fun a => logic.UpdateDisplayNodeFromVolumeNode a volumeNode)
      let w4 := w3.modifyDisplay displayNode (fun a =>
        { a with IgnoreVolumeDisplayNodeThreshold := if w3.panel.IgnoreVolumesThresholdCheckBox then 1 else 0 })
      let wasLastVolumeVisible := w4.panel.VisibilityCheckBox
      let w5 := w4.modifyDisplay displayNode (fun a => { a with Visibility := wasLastVolumeVisible })
      let w6 := w5.modifyDisplay displayNode (fun a =>
        { a with ViewNodeIDs := a.ViewNodeIDs ++ w5.panel.ViewCheckableNodeComboBox })
      let w7 :=
        match volumeNode with
        | some v => w6.addDisplayNodeID v displayNode
        | none => w6
      some (displayNode, w7)

/-- Lines 290-306 of `onCurrentMRMLVolumeNodeChanged`: the display node to select
for `volumeNode`, created when the volume has none and the scene is not closing. -/
def chooseDisplayNode (w : World) (sc : Scene) (volumeNode : NodeID) :
    Option (Option NodeID × World) :=
  let dnode := GetFirstVolumeRenderingDisplayNode w.nodes volumeNode
  if !sc.IsClosing then
    match dnode with
    | none =>
      match createVolumeRenderingDisplayNode w (some volumeNode) with
      | none => none
      | some r => some (some r.1, r.2)
    | some dn => some (some dn, { w with ModifiedCalls := w.ModifiedCalls ++ [dn] })
  else some (dnode, w)

/-- `onCurrentMRMLVolumeNodeChanged`, lines 276-311. -/
def onCurrentMRMLVolumeNodeChanged (w : World) (node : Option NodeID) : Option World :=
  match SafeDownCast Node.isScalarVolumeNode w.nodes node with
  | none => setMRMLDisplayNode w none
  | some volumeNode =>
    match w.logic, w.scene with
    | some _, some sc =>
      match chooseDisplayNode w sc volumeNode with
      | none => none
      | some (dnode, w1) =>
        match setMRMLDisplayNode w1 dnode with
        | none => none
        | some w2 => some { w2 with emitted := w2.emitted ++ [Signal.currentVolumeNodeChanged (some volumeNode)] }
    | _, _ => none

/-- `setMRMLVolumeNode`, lines 269-273: the selector takes `volumeNode`; when its
current node changes, the slot connected in `setupUi` (line 102) runs. -/
def setMRMLVolumeNode (w : World) (volumeNode : Option NodeID) : Option World :=
  if w.panel.VolumeNodeComboBox = volumeNode then some w
  else onCurrentMRMLVolumeNodeChanged { w with panel.VolumeNodeComboBox := volumeNode } volumeNode

/-- The displayable volume of a display node, as `setEditedNode` computes it:
`vtkMRMLVolumeNode::SafeDownCast(displayNode->GetDisplayableNode())`. -/
def displayableVolume (w : World) (displayNode : NodeID) : Option NodeID :=
  SafeDownCast Node.isVolumeNode w.nodes (GetDisplayableNode w.nodes w.scene displayNode)

/-- The tail shared by the three branches of `setEditedNode` (lines 710-716,
741-747, 765-771): select the displayable volume of `displayNode`, if it has one. -/
def selectDisplayableVolume (w : World) (displayNode : NodeID) : Option (Bool × World) :=
  match displayableVolume w displayNode with
  | none => some (false, w)
  | some displayableNode =>
    match setMRMLVolumeNode w (some displayableNode) with
    | none => none
    | some w1 => some (true, w1)

/-- The loop of lines 730-748: the first render-display node of the scene whose
volume-property node is `node`. -/
def firstDisplayNodeOfVolumeProperty (w : World) (sc : Scene) (node : NodeID) : Option NodeID :=
  sc.Nodes.find? (fun it =>
    (w.nodes it).isVolumeRenderingDisplayNode && w.GetVolumePropertyNode it == some node)

/-- Lines 751-774 of `setEditedNode`: the ROI branch and the final `return false`. -/
def setEditedNodeROI (w : World) (node : Option NodeID) : Option (Bool × World) :=
  match SafeDownCast Node.isAnnotationROINode w.nodes node with
  | some roi =>
    match w.logic with
    | none => some (false, w)
    | some _ =>
      match GetFirstVolumeRenderingDisplayNodeByROINode w.nodes w.scene roi with
      | none => some (false, w)
      | some displayNode => selectDisplayableVolume w displayNode
  | none => some (false, w)

/-- `setEditedNode`, lines 698-775. The result is the returned flag and the new
state; `role` and `context` are unused by the code. -/
def setEditedNode (w : World) (node : Option NodeID) : Option (Bool × World) :=
  match SafeDownCast Node.isVolumeRenderingDisplayNode w.nodes node with
  | some displayNode => selectDisplayableVolume w displayNode
  | none =>
    match SafeDownCast Node.isVolumePropertyNode w.nodes node with
    | some propertyNode =>
      match w.scene with
      | none => some (false, w)
      | some sc =>
        match firstDisplayNodeOfVolumeProperty w sc propertyNode with
        | some displayNode => selectDisplayableVolume w displayNode
        | none => setEditedNodeROI w node
    | none => setEditedNodeROI w node

/-- `addWidget(widget)` of the stacked widget: the page is appended and its index
returned; the first page of an empty stack becomes the current one. -/
def addStackedWidget (p : Panel) : Nat × Panel :=
  (p.RenderingMethodStackedWidgetCount,
   { p with
     RenderingMethodStackedWidgetCount := p.RenderingMethodStackedWidgetCount + 1
     RenderingMethodStackedWidget := if p.RenderingMethodStackedWidgetCount = 0 then 0 else p.RenderingMethodStackedWidget })

/-- `RenderingMethodWidgets[key] = widget`: the value of an existing key is replaced,
a new key is added. -/
def RenderingMethodWidgets_assign (m : List (String × Option Nat)) (key : String)
    (widget : Option Nat) : List (String × Option Nat) :=
  match m with
  | [] => [(key, widget)]
  | (k, v) :: rest =>
    if k = key then (k, widget) :: rest else (k, v) :: RenderingMethodWidgets_assign rest key widget

/-- `addRenderingMethodWidget`, lines 372-381. The properties widget itself, and its
connection to the display-node selector, are outside this file; the widget is named
by the page it gets in the stacked widget. -/
def addRenderingMethodWidget (w : World) (methodClassName : String) : World :=
  let added := addStackedWidget w.panel
  let w1 := w.withPanel added.2
  { w1 with panel.RenderingMethodWidgets := RenderingMethodWidgets_assign w1.panel.RenderingMethodWidgets methodClassName (some added.1) }

/-- The entries `setupUi` gives the memory-size selector, lines 138-152. -/
def setupMemorySizeComboBox (c : ComboBox (Option Int)) (defaultGPUMemorySize : Int) :
    ComboBox (Option Int) :=
  let c := c.addItem ("Default (" ++ toString defaultGPUMemorySize ++ " MB)") (some 0)
  let c := c.insertSeparator 1
  let c := c.addItem "128 MB" (some 128)
  let c := c.addItem "256 MB" (some 256)
  let c := c.addItem "512 MB" (some 512)
  let c := c.addItem "1024 MB" (some 1024)
  let c := c.addItem "1.5 GB" (some 1536)
  let c := c.addItem "2 GB" (some 2048)
  let c := c.addItem "3 GB" (some 3072)
  let c := c.addItem "4 GB" (some 4096)
  let c := c.addItem "6 GB" (some 6144)
  let c := c.addItem "8 GB" (some 8192)
  let c := c.addItem "12 GB" (some 12288)
  c.addItem "16 GB" (some 16384)

/-- `setupUi`, lines 98-201, on the state of the panel: the method selector is filled
from the logic (which is dereferenced), the placeholder page and the two ray-cast
property widgets are added, the memory-size selector is filled, the preset selector
is cleared and the threshold mode follows the logic. The connections made here are
what the setters of this file deliver; collapsible buttons and tabs hold no state
of the panel. -/
def setupUi (w : World) : Option World :=
  match w.logic with
  | none => none
  | some volumeRenderingLogic =>
    let w1 := { w with panel.RenderingMethodComboBox := volumeRenderingLogic.RenderingMethods.foldl (fun (c : ComboBox String) (it : String × String) => c.addItem it.1 it.2) w.panel.RenderingMethodComboBox }
    let w2 := w1.withPanel (addStackedWidget w1.panel).2
    let w3 := addRenderingMethodWidget w2 "vtkMRMLCPURayCastVolumeRenderingDisplayNode"
    let w4 := addRenderingMethodWidget w3 "vtkMRMLGPURayCastVolumeRenderingDisplayNode"
    let defaultGPUMemorySize := w4.GPUMemorySizeSetting.getD 0
    let w5 := { w4 with panel.MemorySizeComboBox := setupMemorySizeComboBox w4.panel.MemorySizeComboBox defaultGPUMemorySize }
    let w6 := { w5 with panel.PresetComboBoxNode := none }
    some { w6 with panel.VolumePropertyNodeWidgetThreshold := !volumeRenderingLogic.UseLinearRamp }

/-- `GetPointer()` of a `vtkWeakPointer<vtkMRMLVolumeRenderingDisplayNode>` set to
`p`, read in world `w`: the node, or null when the identity designates no
render-display node (any more). -/
def weakPointer (w : World) (p : Option NodeID) : Option NodeID :=
  SafeDownCast Node.isVolumeRenderingDisplayNode w.nodes p

/-- Lines 591-594 of `onCurrentRenderingMethodChanged`: the old node is removed from
the scene unless the weak pointer to it has become null. -/
def removeOldDisplayNode (w : World) (oldDisplayNode : Option NodeID) : Option World :=
  match weakPointer w oldDisplayNode with
  | some o => w.RemoveNode o
  | none => some w

/-- `onCurrentRenderingMethodChanged`, lines 567-597. -/
def onCurrentRenderingMethodChanged (w : World) (index : Int) : Option World :=
  match w.panel.DisplayNode with
  | none => some w
  | some old =>
    let renderingClassName := (w.panel.RenderingMethodComboBox.itemData index).getD ""
    if renderingClassName.isEmpty || renderingClassName == (w.nodes old).GetClassName then some w
    else
      match w.logic with
      | none => none
      | some logic =>
        let created := w.CreateVolumeRenderingDisplayNode logic (some renderingClassName)
        let displayNode := created.1
        match created.2.AddNode displayNode with
        | none => none
        | some w1 =>
          let oldDisplayNode := w1.panel.DisplayNode
          let w2 := w1.modifyDisplay displayNode (fun a => ((w1.nodes old).displayAttrs).getD a)
          match setMRMLDisplayNode w2 (some displayNode) with
          | none => none
          | some w3 =>
            match removeOldDisplayNode w3 oldDisplayNode with
            | none => none
            | some w4 =>
              some { w4 with emitted := w4.emitted ++ [Signal.currentVolumeRenderingDisplayNodeChanged (some displayNode)] }

/-- `onVisibilityChanged`, lines 314-322. -/
def onVisibilityChanged (w : World) (visible : Bool) : World :=
  match w.panel.DisplayNode with
  | none => w
  | some d => w.modifyDisplay d (fun a => { a with Visibility := visible })

/-- `onCropToggled`, lines 455-463. -/
def onCropToggled (w : World) (crop : Bool) : World :=
  match w.panel.DisplayNode with
  | none => w
  | some d => w.modifyDisplay d (fun a => { a with CroppingEnabled := crop })

/-- The condition of the `Q_ASSERT` of line 608 (checked in debug builds only). -/
def memorySizeAssertion (gpuMemorySize : Int) : Bool :=
  decide (gpuMemorySize ≥ 0 ∧ gpuMemorySize < 10000)

/-- `onCurrentMemorySizeChanged`, lines 600-610, as compiled without the debug
assertion; `toInt()` of an invalid variant is 0. -/
def onCurrentMemorySizeChanged (w : World) (index : Int) : World :=
  match w.panel.DisplayNode with
  | none => w
  | some d =>
    let gpuMemorySize : Int := ((w.panel.MemorySizeComboBox.itemData index).join).getD 0
    w.modifyDisplay d (fun a => { a with GPUMemorySize := gpuMemorySize })

/-- `onCurrentQualityControlChanged`, lines 613-622. -/
def onCurrentQualityControlChanged (w : World) (index : Int) : World :=
  match w.mrmlDisplayNode with
  | none => w
  | some displayNode => w.modifyDisplay displayNode (fun a => { a with PerformanceControl := index })

/-- `onCurrentFramerateChanged`, lines 625-634. -/
def onCurrentFramerateChanged (w : World) (fps : ℚ) : World :=
  match w.panel.DisplayNode with
  | none => w
  | some d => w.modifyDisplay d (fun a => { a with ExpectedFPS := fps })

/-- `synchronizeScalarDisplayNode`, lines 637-642. -/
def synchronizeScalarDisplayNode (w : World) : Option World :=
  match w.logic with
  | none => none
  | some volumeRenderingLogic =>
    some { w with nodes := volumeRenderingLogic.CopyDisplayToVolumeRenderingDisplayNode w.nodes w.panel.DisplayNode }

/-- `setFollowVolumeDisplayNode`, lines 645-653. -/
def setFollowVolumeDisplayNode (w : World) (follow : Bool) : World :=
  match w.panel.DisplayNode with
  | none => w
  | some d => w.modifyDisplay d (fun a => { a with FollowVolumeDisplayNode := if follow then 1 else 0 })

/-- `setIgnoreVolumesThreshold`, lines 656-660: the handle is dereferenced as it is. -/
def setIgnoreVolumesThreshold (w : World) (ignore : Bool) : Option World :=
  match w.panel.DisplayNode with
  | none => none
  | some d =>
    some (w.modifyDisplay d (fun a => { a with IgnoreVolumeDisplayNodeThreshold := if ignore then 1 else 0 }))

/-- `onThresholdChanged`, lines 663-667. -/
def onThresholdChanged (w : World) (threshold : Bool) : Option World :=
  match w.logic with
  | none => none
  | some volumeRenderingLogic =>
    some { w with logic := some { volumeRenderingLogic with UseLinearRamp := !threshold } }

/-- `onROICropDisplayCheckBoxToggled`, lines 670-695: both the display-node handle
(when `toggle` holds) and the ROI node of the ROI widget are dereferenced as they are. -/
def onROICropDisplayCheckBoxToggled (w : World) (toggle : Bool) : Option World :=
  let cropped : Option World :=
    if toggle then
      match w.panel.DisplayNode with
      | none => none
      | some d => some (w.modifyDisplay d (fun a => { a with CroppingEnabled := toggle }))
    else some w
  match cropped with
  | none => none
  | some w1 =>
    match w1.panel.ROIWidget with
    | none => none
    | some roi =>
      match w1.nodes roi with
      | .annotationROI r =>
        some { w1 with nodes := Function.update w1.nodes roi (Node.annotationROI { r with DisplayVisibility := toggle }) }
      | _ => none

/-- `fitROIToVolume`, lines 466-496 (the two `Q_ASSERT`s are debug-only checks). -/
def fitROIToVolume (w : World) : Option World :=
  match w.panel.DisplayNode with
  | none => some w
  | some d =>
    match w.logic with
    | none => none
    | some logic =>
      let w1 := { w with nodes := logic.FitROIToVolume w.nodes d }
      match w1.panel.ROIWidget with
      | none => some w1
      | some roi =>
        match w1.nodes roi with
        | .annotationROI r =>
          let xyz := r.XYZ
          let rxyz := r.RadiusXYZ
          let boundsLow := (xyz.1 - rxyz.1, xyz.2.1 - rxyz.2.1, xyz.2.2 - rxyz.2.2)
          let boundsHigh := (xyz.1 + rxyz.1, xyz.2.1 + rxyz.2.1, xyz.2.2 + rxyz.2.2)
          some { w1 with panel.ROIWidgetExtent := some (boundsLow.1, boundsHigh.1, boundsLow.2.1, boundsHigh.2.1, boundsLow.2.2, boundsHigh.2.2) }
        | _ => some w1

/-- The body of `nodeEditable`, lines 778-804: the confidence with which the panel
claims `node`. -/
def nodeEditable (w : World) (node : Option NodeID) : ℚ :=
  if (SafeDownCast Node.isVolumePropertyNode w.nodes node).isSome
      || (SafeDownCast Node.isVolumeRenderingDisplayNode w.nodes node).isSome then
    0.5
  else
    match SafeDownCast Node.isAnnotationROINode w.nodes node with
    | some roi =>
      match w.logic with
      | none => 0.0
      | some _ =>
        if (GetFirstVolumeRenderingDisplayNodeByROINode w.nodes w.scene roi).isSome then
          0.6
        else
          0.0
    | none => 0.0

/-- A small scene used to evaluate the slots: scalar volume 1 shown by render-display
node 2, which uses volume-property node 3 and ROI node 4; ROI node 5 is unused. -/
def exampleNodes : Nodes := fun i =>
  match i with
  | 1 => Node.scalarVolume [2]
  | 2 => Node.renderDisplay "vtkMRMLCPURayCastVolumeRenderingDisplayNode"
      { VolumePropertyNodeID := some 3, ROINodeID := some 4, GPUMemorySize := 512 }
  | 3 => Node.volumeProperty {}
  | 4 => Node.annotationROI {}
  | 5 => Node.annotationROI {}
  | _ => Node.other ""

/-- What the refresh of the widgets leaves alone: scene, logic, allocation, logs,
the three handles on the selected volume and display node, and the skeleton of
every node. -/
def RefreshFrame (w w' : World) : Prop :=
  w'.scene = w.scene ∧ w'.logic = w.logic ∧ w'.nextID = w.nextID ∧
  w'.ModifiedCalls = w.ModifiedCalls ∧ w'.emitted = w.emitted ∧
  w'.RenderingMethodSetting = w.RenderingMethodSetting ∧ w'.Adaptative = w.Adaptative ∧
  w'.panel.DisplayNode = w.panel.DisplayNode ∧
  w'.panel.DisplayNodeComboBox = w.panel.DisplayNodeComboBox ∧
  w'.panel.VolumeNodeComboBox = w.panel.VolumeNodeComboBox ∧
  (∀ n, (w'.nodes n).skeleton = (w.nodes n).skeleton)

/-- What selecting a display node leaves alone: scene, logic, allocation, the log of
`Modified()` calls, the volume selector, the class of every node, and the
attributes of every render-display node but its two node references. -/
structure SelectFrame (w w' : World) : Prop where
  scene : w'.scene = w.scene
  logic : w'.logic = w.logic
  nextID : w'.nextID = w.nextID
  ModifiedCalls : w'.ModifiedCalls = w.ModifiedCalls
  VolumeNodeComboBox : w'.panel.VolumeNodeComboBox = w.panel.VolumeNodeComboBox
  classOnly : ∀ n, (w'.nodes n).classOnly = (w.nodes n).classOnly
  displayAttrs : ∀ n, (w'.nodes n).skeleton.displayAttrs = (w.nodes n).skeleton.displayAttrs

/-- The handle `d->DisplayNode` and the display-node selector agree, and the selector
holds no node or a render-display node. -/
def HandleInv (w : World) : Prop :=
  w.panel.DisplayNode = w.panel.DisplayNodeComboBox ∧
    w.mrmlDisplayNode = w.panel.DisplayNodeComboBox

/-- Identities from `nextID` on designate no node yet. -/
def Unallocated (w : World) : Prop :=
  ∀ n, w.nextID ≤ n → w.nodes n = Node.other ""

/-- Attributes `createVolumeRenderingDisplayNode` leaves on the node it creates
(lines 214-228): the logic's defaults, initialised from the volume without the
threshold of the Volumes module, then the user settings of the panel. -/
def initialDisplayAttrs (w : World) (L : Logic) (volumeNode : Option NodeID) : DisplayAttrs :=
  let a1 := { L.DefaultAttrs with IgnoreVolumeDisplayNodeThreshold := 1 }
  let a2 := L.UpdateDisplayNodeFromVolumeNode a1 volumeNode
  let a3 := { a2 with IgnoreVolumeDisplayNodeThreshold := if w.panel.IgnoreVolumesThresholdCheckBox then 1 else 0 }
  let a4 := { a3 with Visibility := w.panel.VisibilityCheckBox }
  { a4 with ViewNodeIDs := a4.ViewNodeIDs ++ w.panel.ViewCheckableNodeComboBox }

/-- The world after `createVolumeRenderingDisplayNode` for volume `V`, in closed form. -/
def afterCreate (w : World) (L : Logic) (sc : Scene) (V : NodeID) : World :=
  { w with
    nodes := Function.update (Function.update w.nodes w.nextID (Node.renderDisplay L.DefaultRenderingMethod (initialDisplayAttrs w L (some V)))) V ((w.nodes V).AddAndObserveDisplayNodeID w.nextID)
    nextID := w.nextID + 1
    scene := some { sc with Nodes := sc.Nodes ++ [w.nextID] }
    steps := w.steps ++ [Step.AddNode w.nextID] }

/-- The render-display node `d` is associated with `node`: it is `node` itself, or
`node` is a volume-property node and `d` has it as volume-property node, or `node` is
an ROI node and `d` is the display node the available logic finds for it. -/
def AssociatedDisplayNode (w : World) (node : Option NodeID) (d : NodeID) : Prop :=
  (w.nodes d).isVolumeRenderingDisplayNode = true ∧
    (node = some d ∨
      ((SafeDownCast Node.isVolumePropertyNode w.nodes node).isSome = true ∧
        w.GetVolumePropertyNode d = node) ∨
      (w.logic.isSome = true ∧
        (SafeDownCast Node.isAnnotationROINode w.nodes node).bind
          (GetFirstVolumeRenderingDisplayNodeByROINode w.nodes w.scene) = some d))

/-- Two render-display nodes share volume-property node 3: node 6, first in the
scene and shown by no volume, and node 2, the display node of scalar volume 1. -/
def exampleTwoOwners : World :=
  { nodes := fun i =>
      match i with
      | 1 => Node.scalarVolume [2]
      | 2 => Node.renderDisplay "vtkMRMLCPURayCastVolumeRenderingDisplayNode" { VolumePropertyNodeID := some 3 }
      | 3 => Node.volumeProperty {}
      | 6 => Node.renderDisplay "vtkMRMLGPURayCastVolumeRenderingDisplayNode" { VolumePropertyNodeID := some 3 }
      | _ => Node.other ""
    nextID := 7
    scene := some { Nodes := [6, 2, 1, 3] } }

/-- The values of the widgets that show the base-class attributes of the selected
display node: visibility, cropping, memory-size index, quality index, framerate, and
the volume-property and ROI selectors. -/
def attributeWidgets (p : Panel) : Bool × Bool × Int × Int × ℚ × Option NodeID × Option NodeID :=
  (p.VisibilityCheckBox, p.ROICropCheckBox, p.MemorySizeComboBox.currentIndex,
    p.QualityControlComboBox, p.FramerateSliderWidget, p.VolumePropertyNodeComboBox,
    p.ROINodeComboBox)

/-- The widgets reflect display node `d` with attributes `a`: they show what a refresh
from `d` would write. -/
def Reflects (w : World) (d : NodeID) (a : DisplayAttrs) : Prop :=
  attributeWidgets w.panel =
    (a.Visibility, a.CroppingEnabled, w.panel.MemorySizeComboBox.findData (some a.GPUMemorySize),
      a.PerformanceControl, a.ExpectedFPS, w.GetVolumePropertyNode d, w.GetROINode d)

/-- The world after lines 581-589 of `onCurrentRenderingMethodChanged`, in closed
form: a new node of class `B` with the attributes `a`, appended to the scene. -/
def afterCopy (w : World) (sc : Scene) (B : String) (a : DisplayAttrs) : World :=
  { w with
    nodes := Function.update w.nodes w.nextID (Node.renderDisplay B a)
    nextID := w.nextID + 1
    scene := some { sc with Nodes := sc.Nodes ++ [w.nextID] }
    steps := w.steps ++ [Step.AddNode w.nextID] }

/-- Entries of the memory-size selector as `setupUi` fills it, lines 138-152: the
default entry, the separator inserted at index 1 (no data), then 128 MB to 16 GB. -/
def memorySizeItems (defaultGPUMemorySize : Int) : List (String × Option Int) :=
  [("Default (" ++ toString defaultGPUMemorySize ++ " MB)", some 0),
   ("", none),
   ("128 MB", some 128), ("256 MB", some 256), ("512 MB", some 512), ("1024 MB", some 1024),
   ("1.5 GB", some 1536), ("2 GB", some 2048), ("3 GB", some 3072), ("4 GB", some 4096),
   ("6 GB", some 6144), ("8 GB", some 8192), ("12 GB", some 12288), ("16 GB", some 16384)]

/-- The example scene with nothing selected in the panel. -/
def exampleWorld : World :=
  { nodes := exampleNodes, nextID := 6, scene := some { Nodes := [1, 2, 3, 4, 5] } }

/-- Attributes of display node 2 of the example scene. -/
def exampleAttrs : DisplayAttrs :=
  { VolumePropertyNodeID := some 3, ROINodeID := some 4, GPUMemorySize := 512 }

/-- The example scene with volume 1 and its display node 2 selected, the widgets
showing the attributes of node 2, and the CPU and GPU ray-cast methods on offer. -/
def exampleSelected : World :=
  { exampleWorld with
    panel :=
      { DisplayNode := some 2
        DisplayNodeComboBox := some 2
        VolumeNodeComboBox := some 1
        VolumePropertyNodeComboBox := some 3
        ROINodeComboBox := some 4
        VisibilityCheckBox := true
        MemorySizeComboBox := { items := memorySizeItems 256, currentIndex := 4 }
        QualityControlComboBox := 0
        FramerateSliderWidget := 8
        RenderingMethodComboBox := { items := [("VTK CPU Ray Casting", "vtkMRMLCPURayCastVolumeRenderingDisplayNode"), ("VTK GPU Ray Casting", "vtkMRMLGPURayCastVolumeRenderingDisplayNode")], currentIndex := 0 } } }

/-- The example scene with volume 1 current in the volume selector and no display
node selected yet. -/
def exampleVolumeSelected : World :=
  { exampleWorld with panel := { VolumeNodeComboBox := some 1 } }

/-- A scene holding only scalar volume 1, which has no display node, current in the
volume selector. -/
def exampleBare : World :=
  { nodes := fun i =>
      match i with
      | 1 => Node.scalarVolume []
      | _ => Node.other ""
    nextID := 2
    scene := some { Nodes := [1] }
    panel := { VolumeNodeComboBox := some 1 } }

/-- The example scene with volume-property node 3 current in its selector; the
stored range of node 3 is empty, the node can recompute it as [0, 255], and its
modified event is enabled. -/
def exampleRange : World :=
  { exampleWorld with
    nodes := Function.update exampleNodes 3 (Node.volumeProperty { EffectiveRange := (0, -1), CalculatedRange := some (0, 255) })
    panel := { VolumePropertyNodeComboBox := some 3, VolumePropertyNodeWidgetChartsExtent := (10, 90) } }

/-- The widgets of the form that the slots of the node selectors never write. -/
def formState (p : Panel) :
    ComboBox (Option Int) × ComboBox String × List (String × Option Nat) × Nat × ℚ × Bool :=
  (p.MemorySizeComboBox, p.RenderingMethodComboBox, p.RenderingMethodWidgets,
    p.RenderingMethodStackedWidgetCount, p.FramerateSliderWidget,
    p.SynchronizeScalarDisplayNodeCheckState)

/-- The placeholder page exists and every properties widget registered under a class
name sits on a page after it. -/
def PagesRegistered (p : Panel) : Prop :=
  1 ≤ p.RenderingMethodStackedWidgetCount ∧
    ∀ key page, (key, some page) ∈ p.RenderingMethodWidgets →
      1 ≤ page ∧ page < p.RenderingMethodStackedWidgetCount

/-- The method class whose properties widget a refresh shows: the class of the
selected display node, or the default method when none is selected (lines 396-400). -/
def currentVolumeMapper (w : World) : String :=
  match w.panel.DisplayNode with
  | some d => (w.nodes d).GetClassName
  | none => w.RenderingMethodSetting.getD defaultRenderingMethodFallback

/-- The example scene before `setupUi`: the logic offers the CPU and GPU ray-cast
methods, the stored default method is the GPU one, the stored memory size 256 MB. -/
def exampleFresh : World :=
  { exampleWorld with
    logic := some { RenderingMethods := [("VTK CPU Ray Casting", "vtkMRMLCPURayCastVolumeRenderingDisplayNode"), ("VTK GPU Ray Casting", "vtkMRMLGPURayCastVolumeRenderingDisplayNode")] }
    RenderingMethodSetting := some "vtkMRMLGPURayCastVolumeRenderingDisplayNode"
    GPUMemorySizeSetting := some 256 }

/-- The example scene with display node 2 in the handle and every widget still at
its initial value, the selectors filled as `setupUi` fills them. -/
def exampleStale : World :=
  { exampleWorld with
    panel :=
      { DisplayNode := some 2
        DisplayNodeComboBox := some 2
        MemorySizeComboBox := { items := memorySizeItems 256, currentIndex := 0 }
        RenderingMethodComboBox := { items := [("VTK CPU Ray Casting", "vtkMRMLCPURayCastVolumeRenderingDisplayNode"), ("VTK GPU Ray Casting", "vtkMRMLGPURayCastVolumeRenderingDisplayNode")], currentIndex := 1 } } }

/-- The panel of `exampleStale` with the pages `setupUi` adds to the stacked widget. -/
def exampleReady : World :=
  exampleStale.withPanel
    { exampleStale.panel with
      RenderingMethodWidgets := [("vtkMRMLCPURayCastVolumeRenderingDisplayNode", some 1), ("vtkMRMLGPURayCastVolumeRenderingDisplayNode", some 2)]
      RenderingMethodStackedWidgetCount := 3
      RenderingMethodStackedWidget := 0 }

/-- The example scene before `setupUi`, with no default rendering method stored. -/
def exampleUnset : World :=
  { exampleFresh with RenderingMethodSetting := none }

/-- The example scene with display node 2 selected and ROI node 4, of centre
(10, 20, 30) and radii (1, 2, 3), in the ROI widget. -/
def exampleROI : World :=
  { exampleSelected with
    nodes := Function.update exampleNodes 4 (Node.annotationROI { XYZ := (10, 20, 30), RadiusXYZ := (1, 2, 3) })
    panel := { exampleSelected.panel with ROIWidget := some 4 } }

/-- The example scene while it is closing. -/
def exampleClosing : World :=
  { exampleWorld with scene := some { Nodes := [1, 2, 3, 4, 5], IsClosing := true } }

/-! ## The refresh with the signals of the widgets delivered

`updateFromMRMLDisplayNode` above writes the check boxes, the index selectors and the
slider as values. In the panel their signals are connected to slots (lines 105-106,
115-116, 129-130, 154-160, 183-186): a write that changes the widget runs the slot. A
slot that changes the display node behind the handle makes the node invoke its
`ModifiedEvent`, which runs `updateFromMRMLDisplayNode` again (lines 361-362; the
connection is made to the node that line 364 stores in the handle). The definitions
of this section deliver both. The refresh then calls itself; fuel bounds the depth
of these calls. -/

/-- Why a run with the signals delivered has no result. -/
inductive Fault where
  /-- a null pointer is dereferenced -/
  | nullDereference
  /-- the refresh is nested deeper than the fuel allows -/
  | outOfFuel
deriving DecidableEq

/-- The `ModifiedEvent` of the display node behind the handle (lines 361-362): `after`
is the world a setter of the node leaves when called in `before`; when the setter
has changed the node, it invokes the event and `refresh` runs. -/
def deliverModified (refresh : World → Except Fault World) (before after : World) :
    Except Fault World :=
  match after.panel.DisplayNode with
  | none => Except.ok after
  | some d => if after.nodes d = before.nodes d then Except.ok after else refresh after

/-- `onCurrentMRMLVolumePropertyNodeChanged`, lines 514-533, with the event of the
setter of line 529 delivered. -/
def onCurrentMRMLVolumePropertyNodeChangedWithSignals (refresh : World → Except Fault World)
    (w : World) (node : Option NodeID) : Except Fault World :=
  match w.panel.DisplayNode, SafeDownCast Node.isVolumePropertyNode w.nodes node with
  | some d, some volumePropertyNode =>
    let old := w.GetVolumePropertyNode d
    let w1 := { w with panel.EffectiveRangeConnections := qvtkReconnect w.panel.EffectiveRangeConnections old (some volumePropertyNode) }
    match deliverModified refresh w1 (w1.modifyDisplay d (fun a => { a with VolumePropertyNodeID := some volumePropertyNode })) with
    | Except.error e => Except.error e
    | Except.ok w2 => Except.ok (onEffectiveRangeModified w2)
  | _, _ => Except.ok w

/-- `setMRMLVolumePropertyNode`, lines 506-511, with the slots of the selector
(lines 111 and 178) delivering the event of the display node. -/
def setMRMLVolumePropertyNodeWithSignals (refresh : World → Except Fault World) (w : World)
    (node : Option NodeID) : Except Fault World :=
  if w.panel.VolumePropertyNodeComboBox = node then Except.ok w
  else
    let w1 := { w with panel.VolumePropertyNodeComboBox := node }
    match onCurrentMRMLVolumePropertyNodeChangedWithSignals refresh w1 node with
    | Except.error e => Except.error e
    | Except.ok w2 => Except.ok { w2 with panel.PresetComboBoxNode := node }

/-- `onCurrentMRMLROINodeChanged`, lines 550-564, with the event of the setter of
line 562 delivered. -/
def onCurrentMRMLROINodeChangedWithSignals (refresh : World → Except Fault World)
    (w : World) (node : Option NodeID) : Except Fault World :=
  match w.panel.DisplayNode with
  | none => Except.ok w
  | some d =>
    let roiNode := SafeDownCast Node.isAnnotationROINode w.nodes node
    let old := w.GetROINode d
    let w1 := { w with panel.DisplayModifiedConnections := qvtkReconnect w.panel.DisplayModifiedConnections old roiNode }
    match deliverModified refresh w1 (w1.modifyDisplay d (fun a => { a with ROINodeID := roiNode })) with
    | Except.error e => Except.error e
    | Except.ok w2 => Except.ok (updateFromMRMLDisplayROINode w2)

/-- `setMRMLROINode`, lines 543-547, with the slot of the selector (line 109)
delivering the event of the display node. -/
def setMRMLROINodeWithSignals (refresh : World → Except Fault World) (w : World)
    (node : Option NodeID) : Except Fault World :=
  if w.panel.ROINodeComboBox = node then Except.ok w
  else onCurrentMRMLROINodeChangedWithSignals refresh { w with panel.ROINodeComboBox := node } node

/-- `onCurrentMRMLDisplayNodeChanged`, lines 339-369, with `refresh` as the refresh of
line 366. -/
def onCurrentMRMLDisplayNodeChangedWithSignals (refresh : World → Except Fault World)
    (w : World) (node : Option NodeID) : Except Fault World :=
  let displayNode := SafeDownCast Node.isVolumeRenderingDisplayNode w.nodes node
  match addDisplayNodeReference w displayNode with
  | none => Except.error Fault.nullDereference
  | some w1 =>
    match refresh (observeDisplayNode w1 displayNode) with
    | Except.error e => Except.error e
    | Except.ok w4 => Except.ok { w4 with emitted := w4.emitted ++ [Signal.currentVolumeRenderingDisplayNodeChanged displayNode] }

/-- `setMRMLDisplayNode`, lines 332-336, with the slot of the selector (line 107)
running `refresh`. -/
def setMRMLDisplayNodeWithSignals (refresh : World → Except Fault World) (w : World)
    (displayNode : Option NodeID) : Except Fault World :=
  if w.panel.DisplayNodeComboBox = displayNode then Except.ok w
  else onCurrentMRMLDisplayNodeChangedWithSignals refresh { w with panel.DisplayNodeComboBox := displayNode } displayNode

/-- `onCurrentRenderingMethodChanged`, lines 567-597, with the selection of line 590
running `refresh`. -/
def onCurrentRenderingMethodChangedWithSignals (refresh : World → Except Fault World)
    (w : World) (index : Int) : Except Fault World :=
  match w.panel.DisplayNode with
  | none => Except.ok w
  | some old =>
    let renderingClassName := (w.panel.RenderingMethodComboBox.itemData index).getD ""
    if renderingClassName.isEmpty || renderingClassName == (w.nodes old).GetClassName then Except.ok w
    else
      match w.logic with
      | none => Except.error Fault.nullDereference
      | some logic =>
        let created := w.CreateVolumeRenderingDisplayNode logic (some renderingClassName)
        let displayNode := created.1
        match created.2.AddNode displayNode with
        | none => Except.error Fault.nullDereference
        | some w1 =>
          let oldDisplayNode := w1.panel.DisplayNode
          let w2 := w1.modifyDisplay displayNode (fun a => ((w1.nodes old).displayAttrs).getD a)
          match setMRMLDisplayNodeWithSignals refresh w2 (some displayNode) with
          | Except.error e => Except.error e
          | Except.ok w3 =>
            match removeOldDisplayNode w3 oldDisplayNode with
            | none => Except.error Fault.nullDereference
            | some w4 =>
              Except.ok { w4 with emitted := w4.emitted ++ [Signal.currentVolumeRenderingDisplayNodeChanged (some displayNode)] }

/-- `VisibilityCheckBox->setChecked(checked)`: when the box changes, `toggled(checked)`
runs `onVisibilityChanged` (lines 105-106). -/
def VisibilityCheckBox_setChecked (refresh : World → Except Fault World) (w : World)
    (checked : Bool) : Except Fault World :=
  if w.panel.VisibilityCheckBox = checked then Except.ok w
  else
    let w1 := { w with panel.VisibilityCheckBox := checked }
    deliverModified refresh w1 (onVisibilityChanged w1 checked)

/-- `ROICropCheckBox->setChecked(checked)`: when the box changes, `toggled(checked)`
runs `onCropToggled` (lines 115-116). -/
def ROICropCheckBox_setChecked (refresh : World → Except Fault World) (w : World)
    (checked : Bool) : Except Fault World :=
  if w.panel.ROICropCheckBox = checked then Except.ok w
  else
    let w1 := { w with panel.ROICropCheckBox := checked }
    deliverModified refresh w1 (onCropToggled w1 checked)

/-- `RenderingMethodComboBox->setCurrentIndex(index)`: when the index changes,
`currentIndexChanged(index)` runs `onCurrentRenderingMethodChanged` (lines 129-130). -/
def RenderingMethodComboBox_setCurrentIndex (refresh : World → Except Fault World) (w : World)
    (index : Int) : Except Fault World :=
  if w.panel.RenderingMethodComboBox.currentIndex = index then Except.ok w
  else
    onCurrentRenderingMethodChangedWithSignals refresh
      { w with panel.RenderingMethodComboBox := w.panel.RenderingMethodComboBox.setCurrentIndex index } index

/-- `MemorySizeComboBox->setCurrentIndex(index)`: when the index changes,
`currentIndexChanged(index)` runs `onCurrentMemorySizeChanged` (lines 154-155). -/
def MemorySizeComboBox_setCurrentIndex (refresh : World → Except Fault World) (w : World)
    (index : Int) : Except Fault World :=
  if w.panel.MemorySizeComboBox.currentIndex = index then Except.ok w
  else
    let w1 := { w with panel.MemorySizeComboBox := w.panel.MemorySizeComboBox.setCurrentIndex index }
    deliverModified refresh w1 (onCurrentMemorySizeChanged w1 index)

/-- `QualityControlComboBox->setCurrentIndex(index)`: when the index changes,
`currentIndexChanged(index)` runs `onCurrentQualityControlChanged` (lines 157-158). -/
def QualityControlComboBox_setCurrentIndex (refresh : World → Except Fault World) (w : World)
    (index : Int) : Except Fault World :=
  if w.panel.QualityControlComboBox = index then Except.ok w
  else
    let w1 := { w with panel.QualityControlComboBox := index }
    deliverModified refresh w1 (onCurrentQualityControlChanged w1 index)

/-- `FramerateSliderWidget->setValue(value)`: when the value changes,
`valueChanged(value)` runs `onCurrentFramerateChanged` (lines 159-160). -/
def FramerateSliderWidget_setValue (refresh : World → Except Fault World) (w : World)
    (value : ℚ) : Except Fault World :=
  if w.panel.FramerateSliderWidget = value then Except.ok w
  else
    let w1 := { w with panel.FramerateSliderWidget := value }
    deliverModified refresh w1 (onCurrentFramerateChanged w1 value)

/-- `SynchronizeScalarDisplayNodeButton->setChecked(checked)`: when the button
changes, `toggled(checked)` runs `setFollowVolumeDisplayNode` (lines 183-184). -/
def SynchronizeScalarDisplayNodeButton_setChecked (refresh : World → Except Fault World)
    (w : World) (checked : Bool) : Except Fault World :=
  if w.panel.SynchronizeScalarDisplayNodeButton = checked then Except.ok w
  else
    let w1 := { w with panel.SynchronizeScalarDisplayNodeButton := checked }
    deliverModified refresh w1 (setFollowVolumeDisplayNode w1 checked)

/-- `IgnoreVolumesThresholdCheckBox->setChecked(checked)`: when the box changes,
`toggled(checked)` runs `setIgnoreVolumesThreshold` (lines 185-186), which
dereferences the handle as it is. -/
def IgnoreVolumesThresholdCheckBox_setChecked (refresh : World → Except Fault World)
    (w : World) (checked : Bool) : Except Fault World :=
  if w.panel.IgnoreVolumesThresholdCheckBox = checked then Except.ok w
  else
    let w1 := { w with panel.IgnoreVolumesThresholdCheckBox := checked }
    match setIgnoreVolumesThreshold w1 checked with
    | none => Except.error Fault.nullDereference
    | some after => deliverModified refresh w1 after

/-- Lines 421-430 of `updateFromMRMLDisplayNode`: the properties widget registered
under `currentVolumeMapper` is shown, or the page at index 0. -/
def showRenderingMethodWidget (w : World) (currentVolumeMapper : String) : World :=
  let looked := RenderingMethodWidgets_index w.panel.RenderingMethodWidgets currentVolumeMapper
  let w1 := { w with panel.RenderingMethodWidgets := looked.2 }
  { w1 with panel.RenderingMethodStackedWidget := (match looked.1 with | some page => (page : Int) | none => 0) }

/-- Lines 391-430 of `updateFromMRMLDisplayNode`, with the signals of the widgets
delivered. Each line reads the display node anew, as the source does;
`currentVolumeMapper`, `index` and `follow` are the locals of lines 399, 402 and 412. -/
def writeValueWidgets (refresh : World → Except Fault World) (w2 : World) : Except Fault World := do
  let w3 ← VisibilityCheckBox_setChecked refresh w2 (match w2.displayNodeAttrs with | some a => a.Visibility | none => false)
  let w4 ← ROICropCheckBox_setChecked refresh w3 (match w3.displayNodeAttrs with | some a => a.CroppingEnabled | none => false)
  let currentVolumeMapper := currentVolumeMapper w4
  let w5 ← RenderingMethodComboBox_setCurrentIndex refresh w4 (w4.panel.RenderingMethodComboBox.findData currentVolumeMapper)
  let index : Int := match w5.displayNodeAttrs with | some a => w5.panel.MemorySizeComboBox.findData (some a.GPUMemorySize) | none => -1
  let w6 ← MemorySizeComboBox_setCurrentIndex refresh w5 index
  let w7 ← QualityControlComboBox_setCurrentIndex refresh w6 (match w6.displayNodeAttrs with | some a => a.PerformanceControl | none => -1)
  let w8 ← (match w7.displayNodeAttrs with | some a => FramerateSliderWidget_setValue refresh w7 a.ExpectedFPS | none => Except.ok w7)
  let w9 := { w8 with panel.FramerateSliderWidgetEnabled := (match w8.displayNodeAttrs with | some a => decide (a.PerformanceControl = w8.Adaptative) | none => false) }
  let follow : Bool := match w9.displayNodeAttrs with | some a => decide (a.FollowVolumeDisplayNode ≠ 0) | none => false
  let w10 := if follow then { w9 with panel.SynchronizeScalarDisplayNodeCheckState := true } else w9
  let w11 ← SynchronizeScalarDisplayNodeButton_setChecked refresh w10 follow
  let w12 ← IgnoreVolumesThresholdCheckBox_setChecked refresh w11 (match w11.displayNodeAttrs with | some a => decide (a.IgnoreVolumeDisplayNodeThreshold ≠ 0) | none => false)
  pure (showRenderingMethodWidget w12 currentVolumeMapper)

/-- `updateFromMRMLDisplayNode`, lines 384-431, with the signals of the widgets it
writes and the `ModifiedEvent` of the display node delivered; a slot that changes the
display node runs the refresh again, one unit of fuel lower. -/
def updateFromMRMLDisplayNodeWithSignals : Nat → World → Except Fault World
  | 0, _ => Except.error Fault.outOfFuel
  | fuel + 1, w0 => do
    let refresh := updateFromMRMLDisplayNodeWithSignals fuel
    let w1 ← setMRMLVolumePropertyNodeWithSignals refresh w0 (match w0.panel.DisplayNode with | some d => w0.GetVolumePropertyNode d | none => none)
    let w2 ← setMRMLROINodeWithSignals refresh w1 (match w1.panel.DisplayNode with | some d => w1.GetROINode d | none => none)
    writeValueWidgets refresh w2

/-- Lines 290-306 of `onCurrentMRMLVolumeNodeChanged`, as `chooseDisplayNode`, with the
`Modified()` of line 304 delivered: it runs `refresh` when the node it is called on is
the node behind the handle. -/
def chooseDisplayNodeWithSignals (refresh : World → Except Fault World) (w : World) (sc : Scene)
    (volumeNode : NodeID) : Except Fault (Option NodeID × World) :=
  let dnode := GetFirstVolumeRenderingDisplayNode w.nodes volumeNode
  if !sc.IsClosing then
    match dnode with
    | none =>
      match createVolumeRenderingDisplayNode w (some volumeNode) with
      | none => Except.error Fault.nullDereference
      | some r => Except.ok (some r.1, r.2)
    | some dn =>
      let w1 := { w with ModifiedCalls := w.ModifiedCalls ++ [dn] }
      if w1.panel.DisplayNode = some dn then
        match refresh w1 with
        | Except.error e => Except.error e
        | Except.ok w2 => Except.ok (some dn, w2)
      else Except.ok (some dn, w1)
  else Except.ok (dnode, w)

/-- `onCurrentMRMLVolumeNodeChanged`, lines 276-311, with the signals delivered; the
refresh may nest `fuel` deep. -/
def onCurrentMRMLVolumeNodeChangedWithSignals (fuel : Nat) (w : World) (node : Option NodeID) :
    Except Fault World :=
  let refresh := updateFromMRMLDisplayNodeWithSignals fuel
  match SafeDownCast Node.isScalarVolumeNode w.nodes node with
  | none => setMRMLDisplayNodeWithSignals refresh w none
  | some volumeNode =>
    match w.logic, w.scene with
    | some _, some sc =>
      match chooseDisplayNodeWithSignals refresh w sc volumeNode with
      | Except.error e => Except.error e
      | Except.ok (dnode, w1) =>
        match setMRMLDisplayNodeWithSignals refresh w1 dnode with
        | Except.error e => Except.error e
        | Except.ok w2 => Except.ok { w2 with emitted := w2.emitted ++ [Signal.currentVolumeNodeChanged (some volumeNode)] }
    | _, _ => Except.error Fault.nullDereference

/-- The example scene with scalar volume 7, which has no display node, added to it. -/
def exampleNodesTwoVolumes : Nodes :=
  Function.update exampleNodes 7 (Node.scalarVolume [])

/-- Display node 2 with the flag that ignores the threshold of the Volumes module set,
selected and shown by the widgets, the ignore-threshold box checked with it. -/
def exampleChecked : World :=
  { exampleSelected with
    nodes := Function.update exampleNodesTwoVolumes 2 (Node.renderDisplay "vtkMRMLCPURayCastVolumeRenderingDisplayNode" { exampleAttrs with IgnoreVolumeDisplayNodeThreshold := 1 })
    nextID := 8
    scene := some { Nodes := [1, 2, 3, 4, 5, 7] }
    panel := { exampleSelected.panel with IgnoreVolumesThresholdCheckBox := true } }

/-- The state of `exampleChecked` once lines 361-364 have cleared the handle: no
display node selected, the ignore-threshold box still checked. -/
def exampleCheckedUnselected : World :=
  observeDisplayNode { exampleChecked with panel.DisplayNodeComboBox := none } none

/-- The scene of `exampleChecked` while it is closing, the volume selector moved to
volume 7. -/
def exampleCheckedClosing : World :=
  { exampleChecked with
    scene := some { Nodes := [1, 2, 3, 4, 5, 7], IsClosing := true }
    panel := { exampleChecked.panel with VolumeNodeComboBox := some 7 } }

/-- Display node 2 with a GPU memory size of 100 MB, which no entry of the memory
selector carries, in the handle; the memory selector still on "512 MB" (index 4). -/
def exampleOffList : World :=
  { exampleSelected with
    nodes := Function.update exampleNodes 2 (Node.renderDisplay "vtkMRMLCPURayCastVolumeRenderingDisplayNode" { exampleAttrs with GPUMemorySize := 100 }) }

/-- The example scene while it is closing, with no display node selected; display node
2 of volume 1 has a GPU memory size of 100 MB, which no entry of the memory selector
carries, and the memory selector is on "512 MB" (index 4). -/
def exampleOffListClosing : World :=
  { exampleOffList with
    scene := some { Nodes := [1, 2, 3, 4, 5], IsClosing := true }
    panel := { exampleOffList.panel with DisplayNode := none, DisplayNodeComboBox := none } }

/-! ### The refresh with a display node selected: the invariants

A nested refresh starts when a slot writes to the selected display node a value other
than the one the node holds. `writeBackCount` counts the attributes for which this
can happen, at most four; each such write lowers the count, so a refresh that may
nest five deep returns. -/

/-- Display node `d`, of class `c` and with attributes `a`, is the selected one: the
handle and the selector of display nodes hold it. -/
def Selected (w : World) (d : NodeID) (c : String) (a : DisplayAttrs) : Prop :=
  w.panel.DisplayNode = some d ∧ w.panel.DisplayNodeComboBox = some d ∧
    w.nodes d = Node.renderDisplay c a

/-- What a refresh with the signals delivered leaves alone whatever it writes back:
scene, logic, allocation, logs, settings, the volume selector, the class of every node,
the entries of the two index selectors, and the pages registered for the rendering
methods. -/
structure Kept (w w' : World) : Prop where
  scene : w'.scene = w.scene
  logic : w'.logic = w.logic
  nextID : w'.nextID = w.nextID
  ModifiedCalls : w'.ModifiedCalls = w.ModifiedCalls
  emitted : w'.emitted = w.emitted
  steps : w'.steps = w.steps
  RenderingMethodSetting : w'.RenderingMethodSetting = w.RenderingMethodSetting
  Adaptative : w'.Adaptative = w.Adaptative
  VolumeNodeComboBox : w'.panel.VolumeNodeComboBox = w.panel.VolumeNodeComboBox
  classOnly : ∀ n, (w'.nodes n).classOnly = (w.nodes n).classOnly
  memoryItems : w'.panel.MemorySizeComboBox.items = w.panel.MemorySizeComboBox.items
  methodItems : w'.panel.RenderingMethodComboBox.items = w.panel.RenderingMethodComboBox.items
  pages : ∀ key, (w'.panel.RenderingMethodWidgets.lookup key).join = (w.panel.RenderingMethodWidgets.lookup key).join
  registered : ∀ key page, (key, some page) ∈ w'.panel.RenderingMethodWidgets → (key, some page) ∈ w.panel.RenderingMethodWidgets
  pageCount : w'.panel.RenderingMethodStackedWidgetCount = w.panel.RenderingMethodStackedWidgetCount

/-- The value `onCurrentMemorySizeChanged` writes to the node when the memory selector
moves to the entry of size `size` (lines 402-403 and 607-609): the size itself when an
entry carries it, else 0. -/
def writtenMemorySize (c : ComboBox (Option Int)) (size : Int) : Int :=
  ((c.itemData (c.findData (some size))).join).getD 0

/-- Number of attributes of the selected display node that the slots run by a refresh
would write back changed: a ROI reference that designates no ROI node, a GPU memory
size no entry of the memory selector carries (other than 0), a follow flag and an
ignore-threshold flag other than 0 and 1. -/
def writeBackCount (w : World) (a : DisplayAttrs) : Nat :=
  (if SafeDownCast Node.isAnnotationROINode w.nodes a.ROINodeID = a.ROINodeID then 0 else 1) +
  (if writtenMemorySize w.panel.MemorySizeComboBox a.GPUMemorySize = a.GPUMemorySize then 0 else 1) +
  (if a.FollowVolumeDisplayNode = 0 ∨ a.FollowVolumeDisplayNode = 1 then 0 else 1) +
  (if a.IgnoreVolumeDisplayNodeThreshold = 0 ∨ a.IgnoreVolumeDisplayNodeThreshold = 1 then 0 else 1)

/-- Widget number `i` of the widgets that lines 389-419 write, in the order of the
lines, shows the selected display node `d` with attributes `a`. -/
def showsAt (i : Nat) (w : World) (d : NodeID) (c : String) (a : DisplayAttrs) : Prop :=
  match i with
  | 0 => w.panel.VolumePropertyNodeComboBox = w.GetVolumePropertyNode d
  | 1 => w.panel.ROINodeComboBox = w.GetROINode d
  | 2 => w.panel.VisibilityCheckBox = a.Visibility
  | 3 => w.panel.ROICropCheckBox = a.CroppingEnabled
  | 4 => w.panel.RenderingMethodComboBox.currentIndex = w.panel.RenderingMethodComboBox.findData c
  | 5 => w.panel.MemorySizeComboBox.currentIndex = w.panel.MemorySizeComboBox.findData (some a.GPUMemorySize)
  | 6 => w.panel.QualityControlComboBox = a.PerformanceControl
  | 7 => w.panel.FramerateSliderWidget = a.ExpectedFPS
  | 8 => w.panel.SynchronizeScalarDisplayNodeButton = decide (a.FollowVolumeDisplayNode ≠ 0)
  | 9 => w.panel.IgnoreVolumesThresholdCheckBox = decide (a.IgnoreVolumeDisplayNodeThreshold ≠ 0)
  | _ => True

/-- The first `k` of the widgets that lines 389-419 write show the selected display
node. -/
def ShowsUpTo (k : Nat) (w : World) (d : NodeID) (c : String) (a : DisplayAttrs) : Prop :=
  ∀ i, i < k → showsAt i w d c a

/-- What a refresh with the signals delivered keeps of the attributes `a` of the
selected display node, `a'` being the attributes after it and `m` the memory selector:
visibility, cropping, performance mode, frame rate, volume-property reference and views
are kept; the GPU memory size is kept or, if no entry of `m` carries it, becomes 0; the
follow and ignore-threshold flags are kept or, if not 0, become 1; the ROI reference is
kept or becomes null. -/
def AttrsKept (m : ComboBox (Option Int)) (a a' : DisplayAttrs) : Prop :=
  a'.Visibility = a.Visibility ∧ a'.CroppingEnabled = a.CroppingEnabled ∧
  a'.PerformanceControl = a.PerformanceControl ∧ a'.ExpectedFPS = a.ExpectedFPS ∧
  a'.VolumePropertyNodeID = a.VolumePropertyNodeID ∧ a'.ViewNodeIDs = a.ViewNodeIDs ∧
  (a'.GPUMemorySize = a.GPUMemorySize ∨
    (m.findData (some a.GPUMemorySize) = -1 ∧ a'.GPUMemorySize = 0)) ∧
  (a'.FollowVolumeDisplayNode = a.FollowVolumeDisplayNode ∨
    (a.FollowVolumeDisplayNode ≠ 0 ∧ a'.FollowVolumeDisplayNode = 1)) ∧
  (a'.IgnoreVolumeDisplayNodeThreshold = a.IgnoreVolumeDisplayNodeThreshold ∨
    (a.IgnoreVolumeDisplayNodeThreshold ≠ 0 ∧ a'.IgnoreVolumeDisplayNodeThreshold = 1)) ∧
  (a'.ROINodeID = a.ROINodeID ∨ a'.ROINodeID = none)

/-- The page of the stacked widget that shows the properties of class `c`: the page
registered under `c`, or the placeholder page 0. -/
def pageOf (m : List (String × Option Nat)) (c : String) : Int :=
  match (m.lookup c).join with
  | some page => (page : Int)
  | none => 0

/-- What a completed refresh of the selected display node `d` leaves: the node
selected, with attributes `a'`, every widget showing them and the page of its class. -/
structure Refreshed (w w' : World) (d : NodeID) (c : String) (a a' : DisplayAttrs) : Prop where
  selected : Selected w' d c a'
  kept : Kept w w'
  count : writeBackCount w' a' ≤ writeBackCount w a
  shows : ShowsUpTo 10 w' d c a'
  page : w'.panel.RenderingMethodStackedWidget = pageOf w.panel.RenderingMethodWidgets c
  attrs : AttrsKept w.panel.MemorySizeComboBox a a'

/-- The state of a refresh under way, started in `w0` on attributes `a0`: the node is
still selected, with attributes `a`, no more attributes wait to be written back than
at the start, and the first `k` widgets show the node. -/
structure Refreshing (k : Nat) (w0 w : World) (d : NodeID) (c : String) (a0 a : DisplayAttrs) : Prop where
  selected : Selected w d c a
  kept : Kept w0 w
  count : writeBackCount w a ≤ writeBackCount w0 a0
  shows : ShowsUpTo k w d c a
  attrs : AttrsKept w0.panel.MemorySizeComboBox a0 a

/-- The refresh `r` completes on every state with display node `d` selected and fewer
than `m` attributes to write back. -/
def CompletesBelow (r : World → Except Fault World) (m : Nat) (d : NodeID) (c : String) : Prop :=
  ∀ w a, Selected w d c a → writeBackCount w a < m →
    ∃ w' a', r w = Except.ok w' ∧ Refreshed w w' d c a a'

/-! ## The scene model (`qMRMLSceneModel.h`)

Of the scene model only the header is part of the sources: the declarations, their
documentation, and the inline `mrmlNodeFromIndex`. The members whose bodies are
absent are modelled from the spec (section 4.1) and the documentation in the header.
The model keeps, next to its own state, the part of the observed scene it reads: the
nodes in order and the batch state. -/

/-- Batch state of the observed scene. -/
inductive BatchState where
  | idle
  | importing
  | restoring
deriving DecidableEq

/-- Payload of an item of the model: the sentinel of the scene item, an extra item
(pre-item or post-item) with its text, or the back-reference to a node. -/
inductive Item where
  | scene
  | extra (text : String)
  | node (n : NodeID)
deriving DecidableEq

/-- A `QModelIndex`: invalid, a cell of the top-level row (the scene), or a cell of a
row under the scene item. -/
inductive ModelIndex where
  | invalid
  | top (column : Int)
  | child (row : Nat) (column : Int)
deriving DecidableEq

/-- Values of `Qt::DropAction`. -/
inductive DropAction where
  | CopyAction
  | MoveAction
  | LinkAction
deriving DecidableEq

/-- State of a `qMRMLSceneModel`: the column schema (defaults of lines 78-96), the
lazy-update option, the observed scene, the extra items of the scene item and the
rows under it. -/
structure SceneModel where
  nameColumn : Int := 0
  idColumn : Int := -1
  checkableColumn : Int := -1
  visibilityColumn : Int := -1
  toolTipNameColumn : Int := -1
  extraItemColumn : Int := 0
  /-- column indices of the roles a subclass adds -/
  subclassColumns : List Int := []
  columnCount : Int := 1
  lazyUpdate : Bool := false
  /-- nodes of the observed scene, in order, and its batch state -/
  sceneNodes : List NodeID := []
  batchState : BatchState := BatchState.idle
  preItems : List String := []
  postItems : List String := []
  /-- payloads of the rows under the scene item -/
  rows : List Item := []
  /-- number of rows `insertNode` has inserted -/
  insertedRows : Nat := 0

/-- The largest of the six role column indices of the base class. -/
def maxRoleColumn (m : SceneModel) : Int :=
  max m.nameColumn (max m.idColumn (max m.checkableColumn
    (max m.visibilityColumn (max m.toolTipNameColumn m.extraItemColumn))))

/-- Modelled from the spec: `maxColumnId()`, whose body is absent: the largest column
index of the roles known to the class and to its subclasses. It is at least 0, the
column of the scene item ("at least 1 column with the scene as a top level item",
line 42). -/
def maxColumnId (m : SceneModel) : Int :=
  m.subclassColumns.foldl max (max 0 (maxRoleColumn m))

/-- Modelled from the spec: `updateColumnCount()`, whose body is absent: the column
count is recomputed as `1 + max(role columns, maxColumnId())`. -/
def updateColumnCount (m : SceneModel) : SceneModel :=
  { m with columnCount := 1 + max (maxRoleColumn m) (maxColumnId m) }

/-- Modelled from the spec: `setNameColumn(column)`, whose body is absent: the role
takes the column and the column count is recomputed. -/
def setNameColumn (m : SceneModel) (column : Int) : SceneModel :=
  updateColumnCount { m with nameColumn := column }

/-- Modelled from the spec: `setIDColumn(column)`, whose body is absent. -/
def setIDColumn (m : SceneModel) (column : Int) : SceneModel :=
  updateColumnCount { m with idColumn := column }

/-- Modelled from the spec: `setCheckableColumn(column)`, whose body is absent. -/
def setCheckableColumn (m : SceneModel) (column : Int) : SceneModel :=
  updateColumnCount { m with checkableColumn := column }

/-- Modelled from the spec: `setVisibilityColumn(column)`, whose body is absent. -/
def setVisibilityColumn (m : SceneModel) (column : Int) : SceneModel :=
  updateColumnCount { m with visibilityColumn := column }

/-- Modelled from the spec: `setToolTipNameColumn(column)`, whose body is absent. -/
def setToolTipNameColumn (m : SceneModel) (column : Int) : SceneModel :=
  updateColumnCount { m with toolTipNameColumn := column }

/-- Modelled from the spec: `setExtraItemColumn(column)`, whose body is absent. -/
def setExtraItemColumn (m : SceneModel) (column : Int) : SceneModel :=
  updateColumnCount { m with extraItemColumn := column }

/-- Modelled from the spec: `itemFromIndex(index)` of the item model, which is outside
the sources: the item of a cell inside the model, no item for any other index. The
cells of a row share the payload of the row. -/
def itemFromIndex (m : SceneModel) (index : ModelIndex) : Option Item :=
  match index with
  | .invalid => none
  | .top column => if 0 ≤ column ∧ column < m.columnCount then some Item.scene else none
  | .child row column => if 0 ≤ column ∧ column < m.columnCount then m.rows.get? row else none

/-- Modelled from the spec: `mrmlNodeFromItem(item)`, whose body is absent: the node
an item refers back to; none for no item, the scene item and the extra items. -/
def mrmlNodeFromItem (_m : SceneModel) (nodeItem : Option Item) : Option NodeID :=
  match nodeItem with
  | some (.node n) => some n
  | _ => none

/-- `mrmlNodeFromIndex`, lines 302-305. -/
def mrmlNodeFromIndex (m : SceneModel) (nodeIndex : ModelIndex) : Option NodeID :=
  mrmlNodeFromItem m (itemFromIndex m nodeIndex)

/-- Modelled from the spec: `indexFromNode(node, column)`, whose body is absent: the
index of the cell of the node's row in an active column; invalid when the node has no
row or the column is not active. -/
def indexFromNode (m : SceneModel) (node : NodeID) (column : Int) : ModelIndex :=
  if m.rows.indexOf (Item.node node) < m.rows.length ∧ 0 ≤ column ∧ column < m.columnCount then
    ModelIndex.child (m.rows.indexOf (Item.node node)) column
  else ModelIndex.invalid

/-- Modelled from the spec: `parentNode(node)` of the base class, whose body is
absent: no node ("Returns 0 (scene is not a node)", line 176). -/
def parentNode (_m : SceneModel) (_node : NodeID) : Option NodeID :=
  none

/-- Modelled from the spec: `canBeAParent(node)` of the base class, whose body is
absent ("Returns false", line 183). -/
def canBeAParent (_m : SceneModel) (_node : NodeID) : Bool :=
  false

/-- Modelled from the spec: `reparent(node, newParent)` of the base class, whose body
is absent ("Doesn't reparent and returns false", line 185): the returned flag and
the state, scene included, after the call. -/
def reparent (m : SceneModel) (_node : NodeID) (_newParent : Option NodeID) : Bool × SceneModel :=
  (false, m)

/-- Modelled from the spec: `supportedDropActions()` of the base class, whose body is
absent ("Doesn't support drop actions", line 167): the set of supported actions. -/
def supportedDropActions (_m : SceneModel) : List DropAction :=
  []

/-- Modelled from the spec: `dropMimeData(data, action, row, column, parent)` of the
base class, whose body is absent (spec: "base returns empty/false"); `data` is the
list of nodes the payload encodes. -/
def dropMimeData (m : SceneModel) (_data : List NodeID) (_action : DropAction)
    (_row : Int) (_column : Int) (_parent : ModelIndex) : Bool × SceneModel :=
  (false, m)

/-- The rows a populate builds under the scene item: the pre-items, one row per node
of the scene in order, the post-items. -/
def populatedRows (m : SceneModel) : List Item :=
  m.preItems.map Item.extra ++ m.sceneNodes.map Item.node ++ m.postItems.map Item.extra

/-- Modelled from the spec: `populateScene()`, whose body is absent ("Initial
population"): the rows under the scene item are rebuilt from the scene. -/
def populateScene (m : SceneModel) : SceneModel :=
  { m with rows := populatedRows m }

/-- Modelled from the spec: `nodeIndex(node)` of the base class, whose body is absent:
the ordinal of the node among the nodes of the scene. -/
def nodeIndex (m : SceneModel) (node : NodeID) : Nat :=
  m.sceneNodes.indexOf node

/-- Modelled from the spec: `insertNode(node)`, whose body is absent ("Insertion"): a
row for the node is inserted under the scene item at `nodeIndex(node) + preCount`. -/
def insertNode (m : SceneModel) (node : NodeID) : SceneModel :=
  let row := nodeIndex m node + m.preItems.length
  { m with
    rows := m.rows.take row ++ [Item.node node] ++ m.rows.drop row
    insertedRows := m.insertedRows + 1 }

/-- Modelled from the spec: `onMRMLSceneAboutToBeImported`, whose body is absent: the
batch state is the scene's; the model does nothing at the begin event. -/
def onMRMLSceneAboutToBeImported (m : SceneModel) : SceneModel :=
  m

/-- Modelled from the spec: `onMRMLSceneNodeAdded`, whose body is absent: with lazy
update on and the scene importing or restoring the event is dropped, otherwise the
row of the node is inserted. -/
def onMRMLSceneNodeAdded (m : SceneModel) (node : NodeID) : SceneModel :=
  if m.lazyUpdate ∧ m.batchState ≠ BatchState.idle then m else insertNode m node

/-- Modelled from the spec: `onMRMLSceneImported`, whose body is absent: with lazy
update on, the model is repopulated from the scene. -/
def onMRMLSceneImported (m : SceneModel) : SceneModel :=
  if m.lazyUpdate then populateScene m else m

/-- The scene enters batch state `b` and fires its begin event. -/
def sceneStartState (m : SceneModel) (b : BatchState) : SceneModel :=
  onMRMLSceneAboutToBeImported { m with batchState := b }

/-- The scene adds `node` and fires its node-added event. -/
def sceneAddNode (m : SceneModel) (node : NodeID) : SceneModel :=
  onMRMLSceneNodeAdded { m with sceneNodes := m.sceneNodes ++ [node] } node

/-- The scene leaves its batch state and fires its end event. -/
def sceneEndState (m : SceneModel) : SceneModel :=
  onMRMLSceneImported { m with batchState := BatchState.idle }

/-- A model with the name in column 0 and the identifier in column 1, attached to a
scene of two nodes, with one post-item, populated. -/
def exampleSceneModel : SceneModel :=
  { idColumn := 1, columnCount := 2, sceneNodes := [1, 2], postItems := ["Add new node"], rows := [Item.node 1, Item.node 2, Item.extra "Add new node"] }

/-- The column count of `m` is `1 + max(role columns, maxColumnId())`, with the six
role columns written out: it is at least 1, it exceeds every role column and every
column a subclass adds, and it is 1 or one more than one of those columns. -/
def ColumnCountOk (m : SceneModel) : Prop :=
  m.columnCount = 1 + max (max m.nameColumn (max m.idColumn (max m.checkableColumn (max m.visibilityColumn (max m.toolTipNameColumn m.extraItemColumn))))) (maxColumnId m) ∧
  1 ≤ m.columnCount ∧
  (m.nameColumn < m.columnCount ∧ m.idColumn < m.columnCount ∧
    m.checkableColumn < m.columnCount ∧ m.visibilityColumn < m.columnCount ∧
    m.toolTipNameColumn < m.columnCount ∧ m.extraItemColumn < m.columnCount ∧
    ∀ c ∈ m.subclassColumns, c < m.columnCount) ∧
  (m.columnCount = 1 ∨ m.columnCount - 1 = m.nameColumn ∨ m.columnCount - 1 = m.idColumn ∨
    m.columnCount - 1 = m.checkableColumn ∨ m.columnCount - 1 = m.visibilityColumn ∨
    m.columnCount - 1 = m.toolTipNameColumn ∨ m.columnCount - 1 = m.extraItemColumn ∨
    m.columnCount - 1 ∈ m.subclassColumns)

/-- Every role column is set to -1, one setter after the other. -/
def hideAllColumns (m : SceneModel) : SceneModel :=
  setExtraItemColumn (setToolTipNameColumn (setVisibilityColumn (setCheckableColumn
    (setIDColumn (setNameColumn m (-1)) (-1)) (-1)) (-1)) (-1)) (-1)

/-! ## Theorems -/

/-- C1: `nodeEditable` is 0.5 for a render-display or volume-property node, 0.6 for
an ROI node for which the available logic finds a render-display node using it,
0.0 for every other node, and never anything else. -/
theorem nodeEditable_score (w : World) (node : Option NodeID) :
    ((∃ n, node = some n ∧
        ((w.nodes n).isVolumeRenderingDisplayNode = true ∨ (w.nodes n).isVolumePropertyNode = true)) →
      nodeEditable w node = 0.5) ∧
    ((∃ n, node = some n ∧ (w.nodes n).isAnnotationROINode = true ∧ w.logic.isSome = true ∧
        (GetFirstVolumeRenderingDisplayNodeByROINode w.nodes w.scene n).isSome = true) →
      nodeEditable w node = 0.6) ∧
    (¬ (∃ n, node = some n ∧
        ((w.nodes n).isVolumeRenderingDisplayNode = true ∨ (w.nodes n).isVolumePropertyNode = true)) →
      ¬ (∃ n, node = some n ∧ (w.nodes n).isAnnotationROINode = true ∧ w.logic.isSome = true ∧
        (GetFirstVolumeRenderingDisplayNodeByROINode w.nodes w.scene n).isSome = true) →
      nodeEditable w node = 0.0) ∧
    (nodeEditable w node = 0.0 ∨ nodeEditable w node = 0.5 ∨ nodeEditable w node = 0.6) := by
  cases node with
  | none => simp [nodeEditable, SafeDownCast]
  | some n =>
    cases hl : w.logic <;>
    cases hn : w.nodes n <;>
    cases hf : GetFirstVolumeRenderingDisplayNodeByROINode w.nodes w.scene n <;>
    simp [nodeEditable, SafeDownCast, Option.filter, Node.isVolumeRenderingDisplayNode,
      Node.isVolumePropertyNode, Node.isAnnotationROINode, hl, hn, hf]

/-- C1, evaluated on the example scene: the ROI node used by display node 2 scores
0.6, the unused ROI node 0.0, the volume-property node 0.5. -/
theorem nodeEditable_score_witness :
    nodeEditable exampleWorld (some 4) = 0.6 ∧ nodeEditable exampleWorld (some 5) = 0.0 ∧
      nodeEditable exampleWorld (some 3) = 0.5 :=
  ⟨(nodeEditable_score exampleWorld (some 4)).2.1 ⟨4, rfl, by decide, by decide, by decide⟩,
   (nodeEditable_score exampleWorld (some 5)).2.2.1
     (by rintro ⟨n, hn, h⟩; cases hn; revert h; decide)
     (by rintro ⟨n, hn, h⟩; cases hn; revert h; decide),
   (nodeEditable_score exampleWorld (some 3)).1 ⟨3, rfl, Or.inr (by decide)⟩⟩

/-- C2 as stated fails: on the example scene without a logic, the volume-property
node 3 still scores 0.5, not 0.0. -/
theorem nodeEditable_without_logic_counterexample :
    ({ exampleWorld with logic := none } : World).logic = none ∧
      nodeEditable { exampleWorld with logic := none } (some 3) = 0.5 ∧
      nodeEditable { exampleWorld with logic := none } (some 3) ≠ 0.0 := by
  have h : nodeEditable { exampleWorld with logic := none } (some 3) = 0.5 := by
    simp [nodeEditable, SafeDownCast, Option.filter, exampleWorld, exampleNodes,
      Node.isVolumePropertyNode]
  refine ⟨rfl, h, ?_⟩
  rw [h]
  norm_num

/-- C2, amended: without a logic, `nodeEditable` is 0.0 for every ROI node and for
every node that is neither a render-display nor a volume-property node; for those
two classes it is 0.5, the logic not being consulted. -/
theorem nodeEditable_without_logic (w : World) (node : Option NodeID) (hl : w.logic = none) :
    ((∃ n, node = some n ∧
        ((w.nodes n).isVolumeRenderingDisplayNode = true ∨ (w.nodes n).isVolumePropertyNode = true)) →
      nodeEditable w node = 0.5) ∧
    (¬ (∃ n, node = some n ∧
        ((w.nodes n).isVolumeRenderingDisplayNode = true ∨ (w.nodes n).isVolumePropertyNode = true)) →
      nodeEditable w node = 0.0) ∧
    (∀ n, node = some n → (w.nodes n).isAnnotationROINode = true → nodeEditable w node = 0.0) := by
  cases node with
  | none => simp [nodeEditable, SafeDownCast]
  | some n =>
    cases hn : w.nodes n <;>
    simp [nodeEditable, SafeDownCast, Option.filter, Node.isVolumeRenderingDisplayNode,
      Node.isVolumePropertyNode, Node.isAnnotationROINode, hl, hn]

/-- C2, amended, on the example scene without a logic: the ROI node that display
node 2 uses scores 0.0. -/
theorem nodeEditable_without_logic_witness :
    nodeEditable { exampleWorld with logic := none } (some 4) = 0.0 :=
  (nodeEditable_without_logic { exampleWorld with logic := none } (some 4) rfl).2.2 4 rfl
    (by decide)

/-- C9, at the failing input: with no display node selected, `setIgnoreVolumesThreshold`
and `onROICropDisplayCheckBoxToggled(true)` dereference the null handle and have no
result, while the guarded sibling `setFollowVolumeDisplayNode` changes nothing. -/
theorem setIgnoreVolumesThreshold_unselected_faults :
    exampleWorld.panel.DisplayNode = none ∧
      setIgnoreVolumesThreshold exampleWorld true = none ∧
      onROICropDisplayCheckBoxToggled exampleWorld true = none ∧
      (setFollowVolumeDisplayNode exampleWorld true).nodes = exampleWorld.nodes :=
  ⟨rfl, rfl, rfl, rfl⟩

/-- C10: with display node `N` selected (handle and selector), every attribute edit
writes exactly one attribute of `N` and nothing else in the world. -/
theorem attribute_edits_forward (w : World) (N : NodeID) (c : String) (a : DisplayAttrs)
    (hd : w.panel.DisplayNode = some N) (hs : w.panel.DisplayNodeComboBox = some N)
    (hN : w.nodes N = Node.renderDisplay c a) :
    (∀ v, onVisibilityChanged w v =
      w.withNode N (Node.renderDisplay c { a with Visibility := v })) ∧
    (∀ v, onCropToggled w v =
      w.withNode N (Node.renderDisplay c { a with CroppingEnabled := v })) ∧
    (∀ (i : Nat) (text : String) (m : Int),
      w.panel.MemorySizeComboBox.items.get? i = some (text, some m) →
      onCurrentMemorySizeChanged w i =
        w.withNode N (Node.renderDisplay c { a with GPUMemorySize := m })) ∧
    (∀ i, onCurrentQualityControlChanged w i =
      w.withNode N (Node.renderDisplay c { a with PerformanceControl := i })) ∧
    (∀ f, onCurrentFramerateChanged w f =
      w.withNode N (Node.renderDisplay c { a with ExpectedFPS := f })) ∧
    (∀ b, setFollowVolumeDisplayNode w b =
      w.withNode N (Node.renderDisplay c { a with FollowVolumeDisplayNode := if b then 1 else 0 })) ∧
    (∀ b, setIgnoreVolumesThreshold w b =
      some (w.withNode N (Node.renderDisplay c { a with IgnoreVolumeDisplayNodeThreshold := if b then 1 else 0 }))) := by
  refine ⟨?_, ?_, ?_, ?_, ?_, ?_, ?_⟩
  · intro v; simp [onVisibilityChanged, hd, World.withNode, World.modifyDisplay, hN, Node.mapDisplayAttrs]
  · intro v; simp [onCropToggled, hd, World.withNode, World.modifyDisplay, hN, Node.mapDisplayAttrs]
  · intro i text m hi
    rw [List.get?_eq_getElem?] at hi
    have hneg : ¬ ((i : Int) < 0) := by omega
    simp [onCurrentMemorySizeChanged, hd, World.withNode, World.modifyDisplay, hN, Node.mapDisplayAttrs,
      ComboBox.itemData, hi, hneg]
  · intro i
    simp [onCurrentQualityControlChanged, World.withNode, World.mrmlDisplayNode, SafeDownCast, Option.filter, hs,
      World.modifyDisplay, hN, Node.mapDisplayAttrs, Node.isVolumeRenderingDisplayNode]
  · intro f; simp [onCurrentFramerateChanged, hd, World.withNode, World.modifyDisplay, hN, Node.mapDisplayAttrs]
  · intro b; simp [setFollowVolumeDisplayNode, hd, World.withNode, World.modifyDisplay, hN, Node.mapDisplayAttrs]
  · intro b; simp [setIgnoreVolumesThreshold, hd, World.withNode, World.modifyDisplay, hN, Node.mapDisplayAttrs]

/-! ### The refresh chain: what it leaves alone -/

theorem refreshFrame_refl (w : World) : RefreshFrame w w :=
  ⟨rfl, rfl, rfl, rfl, rfl, rfl, rfl, rfl, rfl, rfl, fun _ => rfl⟩

theorem refreshFrame_trans {a b c : World} (h1 : RefreshFrame a b) (h2 : RefreshFrame b c) :
    RefreshFrame a c := by
  obtain ⟨a1, a2, a3, a4, a5, a6, a7, a8, a9, a10, a11⟩ := h1
  obtain ⟨b1, b2, b3, b4, b5, b6, b7, b8, b9, b10, b11⟩ := h2
  exact ⟨b1.trans a1, b2.trans a2, b3.trans a3, b4.trans a4, b5.trans a5, b6.trans a6,
    b7.trans a7, b8.trans a8, b9.trans a9, b10.trans a10, fun n => (b11 n).trans (a11 n)⟩

theorem skeleton_update (nodes : Nodes) (n : NodeID) (x : Node)
    (h : x.skeleton = (nodes n).skeleton) (m : NodeID) :
    (Function.update nodes n x m).skeleton = (nodes m).skeleton := by
  by_cases hm : m = n
  · subst hm; simp [h]
  · simp [Function.update_noteq hm]

theorem setChartsExtentBlocked_frame (w : World) (r : ℚ × ℚ) :
    RefreshFrame w (setChartsExtentBlocked w r) :=
  ⟨rfl, rfl, rfl, rfl, rfl, rfl, rfl, rfl, rfl, rfl, fun _ => rfl⟩

theorem onEffectiveRangeModified_frame (w : World) : RefreshFrame w (onEffectiveRangeModified w) := by
  unfold onEffectiveRangeModified
  split
  · exact refreshFrame_refl w
  · rename_i vp _
    split
    · rename_i data hdata
      have hnode : RefreshFrame w
          (w.withNode vp (Node.volumeProperty data.CalculateEffectiveRange.2)) := by
        refine ⟨rfl, rfl, rfl, rfl, rfl, rfl, rfl, rfl, rfl, rfl, ?_⟩
        intro n
        exact skeleton_update w.nodes vp _ (by rw [hdata]; rfl) n
      split
      · dsimp only
        split
        · exact hnode
        · exact refreshFrame_trans hnode (setChartsExtentBlocked_frame _ _)
      · exact setChartsExtentBlocked_frame _ _
    · exact refreshFrame_refl w

theorem modifyDisplay_frame (w : World) (d : NodeID) (f : DisplayAttrs → DisplayAttrs)
    (hf : ∀ c a, (Node.renderDisplay c (f a)).skeleton = (Node.renderDisplay c a).skeleton) :
    RefreshFrame w (w.modifyDisplay d f) := by
  refine ⟨rfl, rfl, rfl, rfl, rfl, rfl, rfl, rfl, rfl, rfl, ?_⟩
  intro n
  apply skeleton_update
  cases h : w.nodes d with
  | renderDisplay c a => exact hf c a
  | _ => rfl

theorem withPanel_frame (w : World) (p : Panel) (h1 : p.DisplayNode = w.panel.DisplayNode)
    (h2 : p.DisplayNodeComboBox = w.panel.DisplayNodeComboBox)
    (h3 : p.VolumeNodeComboBox = w.panel.VolumeNodeComboBox) :
    RefreshFrame w (w.withPanel p) :=
  ⟨rfl, rfl, rfl, rfl, rfl, rfl, rfl, h1, h2, h3, fun _ => rfl⟩

theorem onCurrentMRMLVolumePropertyNodeChanged_frame (w : World) (node : Option NodeID) :
    RefreshFrame w (onCurrentMRMLVolumePropertyNodeChanged w node) := by
  unfold onCurrentMRMLVolumePropertyNodeChanged
  split
  · refine refreshFrame_trans ?_ (onEffectiveRangeModified_frame _)
    refine refreshFrame_trans ?_ (modifyDisplay_frame _ _ _ (fun c a => rfl))
    exact ⟨rfl, rfl, rfl, rfl, rfl, rfl, rfl, rfl, rfl, rfl, fun _ => rfl⟩
  · exact refreshFrame_refl w

theorem setMRMLVolumePropertyNode_frame (w : World) (node : Option NodeID) :
    RefreshFrame w (setMRMLVolumePropertyNode w node) := by
  unfold setMRMLVolumePropertyNode
  split
  · exact refreshFrame_refl w
  · have h := onCurrentMRMLVolumePropertyNodeChanged_frame
      { w with panel.VolumePropertyNodeComboBox := node } node
    obtain ⟨a1, a2, a3, a4, a5, a6, a7, a8, a9, a10, a11⟩ := h
    exact ⟨a1, a2, a3, a4, a5, a6, a7, a8, a9, a10, a11⟩

theorem updateFromMRMLDisplayROINode_frame (w : World) :
    RefreshFrame w (updateFromMRMLDisplayROINode w) := by
  unfold updateFromMRMLDisplayROINode
  split
  · exact refreshFrame_refl w
  · split
    · exact ⟨rfl, rfl, rfl, rfl, rfl, rfl, rfl, rfl, rfl, rfl, fun _ => rfl⟩
    · exact refreshFrame_refl w

theorem onCurrentMRMLROINodeChanged_frame (w : World) (node : Option NodeID) :
    RefreshFrame w (onCurrentMRMLROINodeChanged w node) := by
  unfold onCurrentMRMLROINodeChanged
  split
  · exact refreshFrame_refl w
  · refine refreshFrame_trans ?_ (updateFromMRMLDisplayROINode_frame _)
    refine refreshFrame_trans ?_ (modifyDisplay_frame _ _ _ (fun c a => rfl))
    exact ⟨rfl, rfl, rfl, rfl, rfl, rfl, rfl, rfl, rfl, rfl, fun _ => rfl⟩

theorem setMRMLROINode_frame (w : World) (node : Option NodeID) :
    RefreshFrame w (setMRMLROINode w node) := by
  unfold setMRMLROINode
  split
  · exact refreshFrame_refl w
  · have h := onCurrentMRMLROINodeChanged_frame { w with panel.ROINodeComboBox := node } node
    obtain ⟨a1, a2, a3, a4, a5, a6, a7, a8, a9, a10, a11⟩ := h
    exact ⟨a1, a2, a3, a4, a5, a6, a7, a8, a9, a10, a11⟩

theorem updateFromMRMLDisplayNode_frame (w : World) :
    RefreshFrame w (updateFromMRMLDisplayNode w) := by
  unfold updateFromMRMLDisplayNode
  dsimp only
  refine refreshFrame_trans ?_ (withPanel_frame _ _ rfl rfl rfl)
  exact refreshFrame_trans (setMRMLVolumePropertyNode_frame w _) (setMRMLROINode_frame _ _)

/-! ### Selecting a display node -/

theorem classOnly_of_skeleton {a b : Node} (h : a.skeleton = b.skeleton) :
    a.classOnly = b.classOnly := by
  cases a <;> cases b <;> simp [Node.skeleton] at h <;> simp [Node.classOnly, h]

theorem isVolumeRenderingDisplayNode_of_classOnly {a b : Node} (h : a.classOnly = b.classOnly) :
    a.isVolumeRenderingDisplayNode = b.isVolumeRenderingDisplayNode := by
  cases a <;> cases b <;> simp [Node.classOnly] at h <;> rfl

theorem isScalarVolumeNode_of_classOnly {a b : Node} (h : a.classOnly = b.classOnly) :
    a.isScalarVolumeNode = b.isScalarVolumeNode := by
  cases a <;> cases b <;> simp [Node.classOnly] at h <;> rfl

theorem GetClassName_of_classOnly {a b : Node} (h : a.classOnly = b.classOnly) :
    a.GetClassName = b.GetClassName := by
  cases a <;> cases b <;> simp [Node.classOnly] at h <;> simp [Node.GetClassName, h]

theorem DisplayNodeIDs_of_skeleton {a b : Node} (h : a.skeleton = b.skeleton) :
    a.DisplayNodeIDs = b.DisplayNodeIDs := by
  cases a <;> cases b <;> simp [Node.skeleton] at h <;> simp [Node.DisplayNodeIDs, h]

theorem selectFrame_refl (w : World) : SelectFrame w w :=
  ⟨rfl, rfl, rfl, rfl, rfl, fun _ => rfl, fun _ => rfl⟩

theorem selectFrame_trans {a b c : World} (h1 : SelectFrame a b) (h2 : SelectFrame b c) :
    SelectFrame a c :=
  ⟨h2.scene.trans h1.scene, h2.logic.trans h1.logic, h2.nextID.trans h1.nextID,
    h2.ModifiedCalls.trans h1.ModifiedCalls, h2.VolumeNodeComboBox.trans h1.VolumeNodeComboBox,
    fun n => (h2.classOnly n).trans (h1.classOnly n),
    fun n => (h2.displayAttrs n).trans (h1.displayAttrs n)⟩

theorem refreshFrame_toSelectFrame {w w' : World} (h : RefreshFrame w w') : SelectFrame w w' := by
  obtain ⟨a1, a2, a3, a4, a5, a6, a7, a8, a9, a10, a11⟩ := h
  exact ⟨a1, a2, a3, a4, a10, fun n => classOnly_of_skeleton (a11 n),
    fun n => congrArg Node.displayAttrs (a11 n)⟩

theorem displayAttrs_AddAndObserveDisplayNodeID (id : NodeID) (x : Node) :
    (x.AddAndObserveDisplayNodeID id).skeleton.displayAttrs = x.skeleton.displayAttrs := by
  cases x <;> rfl

theorem classOnly_AddAndObserveDisplayNodeID (id : NodeID) (x : Node) :
    (x.AddAndObserveDisplayNodeID id).classOnly = x.classOnly := by
  cases x <;> rfl

theorem addDisplayNodeID_frame (w : World) (v id : NodeID) :
    SelectFrame w (w.addDisplayNodeID v id) := by
  refine ⟨rfl, rfl, rfl, rfl, rfl, ?_, ?_⟩
  · intro n
    by_cases hn : n = v
    · subst hn
      simp [World.addDisplayNodeID, classOnly_AddAndObserveDisplayNodeID]
    · simp [World.addDisplayNodeID, Function.update_noteq hn]
  · intro n
    by_cases hn : n = v
    · subst hn
      simp [World.addDisplayNodeID, displayAttrs_AddAndObserveDisplayNodeID]
    · simp [World.addDisplayNodeID, Function.update_noteq hn]

theorem addDisplayNodeReference_frame (w w1 : World) (dn : Option NodeID)
    (h : addDisplayNodeReference w dn = some w1) :
    SelectFrame w w1 ∧ w1.panel = w.panel ∧ w1.emitted = w.emitted := by
  unfold addDisplayNodeReference at h
  split at h
  · split at h
    · exact absurd h (by simp)
    · split at h
      · cases h
        exact ⟨addDisplayNodeID_frame w _ _, rfl, rfl⟩
      · cases h
        exact ⟨selectFrame_refl w, rfl, rfl⟩
  · cases h
    exact ⟨selectFrame_refl w, rfl, rfl⟩

theorem addDisplayNodeReference_isSome (w : World) (dn : Option NodeID)
    (hl : w.logic.isSome = true) : (addDisplayNodeReference w dn).isSome = true := by
  unfold addDisplayNodeReference
  split
  · split
    · rename_i h; simp [h] at hl
    · split <;> rfl
  · rfl

theorem bindDisplayNode_frame (w : World) (dn : Option NodeID) :
    SelectFrame w (bindDisplayNode w dn) ∧ (bindDisplayNode w dn).panel.DisplayNode = dn ∧
      (bindDisplayNode w dn).panel.DisplayNodeComboBox = w.panel.DisplayNodeComboBox ∧
      (∀ n, ((bindDisplayNode w dn).nodes n).skeleton = (w.nodes n).skeleton) ∧
      (bindDisplayNode w dn).emitted =
        w.emitted ++ [Signal.currentVolumeRenderingDisplayNodeChanged dn] := by
  obtain ⟨a1, a2, a3, a4, a5, a6, a7, a8, a9, a10, a11⟩ :=
    updateFromMRMLDisplayNode_frame (observeDisplayNode w dn)
  refine ⟨⟨a1, a2, a3, a4, a10, fun n => classOnly_of_skeleton (a11 n),
    fun n => congrArg Node.displayAttrs (a11 n)⟩, a8, a9, a11, ?_⟩
  show (updateFromMRMLDisplayNode (observeDisplayNode w dn)).emitted ++ _ = _
  rw [a5]
  rfl

theorem onCurrentMRMLDisplayNodeChanged_frame (w w' : World) (node : Option NodeID)
    (h : onCurrentMRMLDisplayNodeChanged w node = some w') :
    SelectFrame w w' ∧
      w'.panel.DisplayNode = SafeDownCast Node.isVolumeRenderingDisplayNode w.nodes node ∧
      w'.panel.DisplayNodeComboBox = w.panel.DisplayNodeComboBox := by
  unfold onCurrentMRMLDisplayNodeChanged at h
  dsimp only at h
  split at h
  · exact absurd h (by simp)
  · rename_i w1 h1
    cases h
    obtain ⟨f1, hp, _⟩ := addDisplayNodeReference_frame w w1 _ h1
    obtain ⟨f2, hd, hc, _, _⟩ := bindDisplayNode_frame w1
      (SafeDownCast Node.isVolumeRenderingDisplayNode w.nodes node)
    exact ⟨selectFrame_trans f1 f2, hd, by rw [hc, hp]⟩

theorem onCurrentMRMLDisplayNodeChanged_isSome (w : World) (node : Option NodeID)
    (hl : w.logic.isSome = true) : (onCurrentMRMLDisplayNodeChanged w node).isSome = true := by
  unfold onCurrentMRMLDisplayNodeChanged
  dsimp only
  have h := addDisplayNodeReference_isSome w
    (SafeDownCast Node.isVolumeRenderingDisplayNode w.nodes node) hl
  split
  · rename_i h1; rw [h1] at h; exact absurd h (by simp)
  · rfl

theorem setMRMLDisplayNode_frame (w w' : World) (dn : Option NodeID)
    (h : setMRMLDisplayNode w dn = some w') :
    SelectFrame w w' ∧ w'.panel.DisplayNodeComboBox = dn ∧
      (HandleInv w → w'.panel.DisplayNode = SafeDownCast Node.isVolumeRenderingDisplayNode w.nodes dn) := by
  unfold setMRMLDisplayNode at h
  split at h
  · rename_i heq
    cases h
    refine ⟨selectFrame_refl w, heq, ?_⟩
    intro hinv
    rw [hinv.1, ← hinv.2, World.mrmlDisplayNode, heq]
  · obtain ⟨f, hd, hc⟩ := onCurrentMRMLDisplayNodeChanged_frame _ w' dn h
    exact ⟨⟨f.scene, f.logic, f.nextID, f.ModifiedCalls, f.VolumeNodeComboBox, f.classOnly,
      f.displayAttrs⟩, hc, fun _ => hd⟩

theorem setMRMLDisplayNode_isSome (w : World) (dn : Option NodeID)
    (hl : w.logic.isSome = true) : (setMRMLDisplayNode w dn).isSome = true := by
  unfold setMRMLDisplayNode
  split
  · rfl
  · exact onCurrentMRMLDisplayNodeChanged_isSome _ dn hl

/-! ### Selecting a volume -/

theorem createVolumeRenderingDisplayNode_eq (w : World) (V : NodeID) (L : Logic) (sc : Scene)
    (hl : w.logic = some L) (hs : w.scene = some sc) (hV : V ≠ w.nextID) :
    createVolumeRenderingDisplayNode w (some V) = some (w.nextID, afterCreate w L sc V) := by
  simp only [createVolumeRenderingDisplayNode, hl, World.CreateVolumeRenderingDisplayNode,
    World.AddNode, hs, Option.getD_none, afterCreate, World.addDisplayNodeID, World.modifyDisplay,
    Function.update_same, Function.update_idem, Node.mapDisplayAttrs, initialDisplayAttrs,
    Function.update_noteq hV]

theorem createVolumeRenderingDisplayNode_panel (w : World) (vn : Option NodeID)
    (r : NodeID × World) (h : createVolumeRenderingDisplayNode w vn = some r) :
    r.2.panel = w.panel ∧ r.2.logic = w.logic := by
  unfold createVolumeRenderingDisplayNode at h
  split at h
  · exact absurd h (by simp)
  · dsimp only at h
    split at h
    · exact absurd h (by simp)
    · rename_i w1 h1
      unfold World.AddNode at h1
      split at h1
      · exact absurd h1 (by simp)
      · cases h1
        cases h
        cases vn <;> exact ⟨rfl, rfl⟩

theorem createVolumeRenderingDisplayNode_isSome (w : World) (vn : Option NodeID)
    (hl : w.logic.isSome = true) (hs : w.scene.isSome = true) :
    (createVolumeRenderingDisplayNode w vn).isSome = true := by
  obtain ⟨L, hL⟩ := Option.isSome_iff_exists.mp hl
  obtain ⟨sc, hsc⟩ := Option.isSome_iff_exists.mp hs
  simp [createVolumeRenderingDisplayNode, hL, World.CreateVolumeRenderingDisplayNode,
    World.AddNode, hsc]

theorem chooseDisplayNode_panel (w : World) (sc : Scene) (V : NodeID)
    (r : Option NodeID × World) (h : chooseDisplayNode w sc V = some r) :
    r.2.panel = w.panel ∧ r.2.logic = w.logic := by
  unfold chooseDisplayNode at h
  dsimp only at h
  split at h
  · split at h
    · split at h
      · exact absurd h (by simp)
      · rename_i r0 h0
        cases h
        exact createVolumeRenderingDisplayNode_panel w _ r0 h0
    · cases h
      exact ⟨rfl, rfl⟩
  · cases h
    exact ⟨rfl, rfl⟩

theorem chooseDisplayNode_isSome (w : World) (sc : Scene) (V : NodeID)
    (hl : w.logic.isSome = true) (hs : w.scene.isSome = true) :
    (chooseDisplayNode w sc V).isSome = true := by
  unfold chooseDisplayNode
  dsimp only
  have hc := createVolumeRenderingDisplayNode_isSome w (some V) hl hs
  split
  · split
    · split
      · rename_i h0; rw [h0] at hc; exact absurd hc (by simp)
      · rfl
    · rfl
  · rfl

theorem onCurrentMRMLVolumeNodeChanged_selector (w w' : World) (node : Option NodeID)
    (h : onCurrentMRMLVolumeNodeChanged w node = some w') :
    w'.panel.VolumeNodeComboBox = w.panel.VolumeNodeComboBox := by
  unfold onCurrentMRMLVolumeNodeChanged at h
  split at h
  · exact (setMRMLDisplayNode_frame w w' none h).1.VolumeNodeComboBox
  · split at h
    · split at h
      · exact absurd h (by simp)
      · rename_i dnode w1 h1
        split at h
        · exact absurd h (by simp)
        · rename_i w2 h2
          cases h
          have hp := (chooseDisplayNode_panel w _ _ _ h1).1
          have hf := (setMRMLDisplayNode_frame w1 w2 dnode h2).1.VolumeNodeComboBox
          show w2.panel.VolumeNodeComboBox = _
          rw [hf]
          exact congrArg Panel.VolumeNodeComboBox hp
    · exact absurd h (by simp)

theorem onCurrentMRMLVolumeNodeChanged_isSome (w : World) (node : Option NodeID)
    (hl : w.logic.isSome = true) (hs : w.scene.isSome = true) :
    (onCurrentMRMLVolumeNodeChanged w node).isSome = true := by
  unfold onCurrentMRMLVolumeNodeChanged
  split
  · exact setMRMLDisplayNode_isSome w none hl
  · rename_i V _
    split
    · rename_i L sc hL hsc
      have hc := chooseDisplayNode_isSome w sc V hl hs
      split
      · rename_i h0; rw [h0] at hc; exact absurd hc (by simp)
      · rename_i dnode w1 h1
        have hl1 : w1.logic.isSome = true := by
          rw [(chooseDisplayNode_panel w sc V _ h1).2]; exact hl
        have h2 := setMRMLDisplayNode_isSome w1 dnode hl1
        split
        · rename_i h3; rw [h3] at h2; exact absurd h2 (by simp)
        · rfl
    · rename_i hne
      obtain ⟨L, hL⟩ := Option.isSome_iff_exists.mp hl
      obtain ⟨sc, hsc⟩ := Option.isSome_iff_exists.mp hs
      exact absurd hsc (by intro hsc; exact hne L sc hL hsc)

theorem setMRMLVolumeNode_selector (w w' : World) (v : Option NodeID)
    (h : setMRMLVolumeNode w v = some w') : w'.panel.VolumeNodeComboBox = v := by
  unfold setMRMLVolumeNode at h
  split at h
  · rename_i heq; cases h; exact heq
  · exact onCurrentMRMLVolumeNodeChanged_selector _ w' v h

theorem setMRMLVolumeNode_isSome (w : World) (v : Option NodeID)
    (hl : w.logic.isSome = true) (hs : w.scene.isSome = true) :
    (setMRMLVolumeNode w v).isSome = true := by
  unfold setMRMLVolumeNode
  split
  · rfl
  · exact onCurrentMRMLVolumeNodeChanged_isSome _ v hl hs

/-! ### `setEditedNode` -/

theorem selectDisplayableVolume_spec (w w' : World) (d : NodeID) (b : Bool)
    (h : selectDisplayableVolume w d = some (b, w')) :
    (b = true → ∃ v, displayableVolume w d = some v ∧ w'.panel.VolumeNodeComboBox = some v) ∧
      (b = false → w' = w) := by
  unfold selectDisplayableVolume at h
  split at h
  · cases h
    exact ⟨fun hb => absurd hb (by simp), fun _ => rfl⟩
  · rename_i v hv
    split at h
    · exact absurd h (by simp)
    · rename_i w1 h1
      cases h
      exact ⟨fun _ => ⟨v, hv, setMRMLVolumeNode_selector w w' _ h1⟩, fun hb => absurd hb (by simp)⟩

theorem selectDisplayableVolume_isSome (w : World) (d : NodeID)
    (hl : w.logic.isSome = true) (hs : w.scene.isSome = true) :
    (selectDisplayableVolume w d).isSome = true := by
  unfold selectDisplayableVolume
  split
  · rfl
  · rename_i v _
    have h := setMRMLVolumeNode_isSome w (some v) hl hs
    split
    · rename_i h0; rw [h0] at h; exact absurd h (by simp)
    · rfl

theorem setEditedNodeROI_spec (w w' : World) (node : Option NodeID) (b : Bool)
    (h : setEditedNodeROI w node = some (b, w')) :
    (b = true → ∃ d v, AssociatedDisplayNode w node d ∧ displayableVolume w d = some v ∧
        w'.panel.VolumeNodeComboBox = some v) ∧
      (b = false → w' = w) := by
  unfold setEditedNodeROI at h
  split at h
  · rename_i roi hroi
    split at h
    · cases h
      exact ⟨fun hb => absurd hb (by simp), fun _ => rfl⟩
    · rename_i L hL
      split at h
      · cases h
        exact ⟨fun hb => absurd hb (by simp), fun _ => rfl⟩
      · rename_i d hd
        obtain ⟨h1, h2⟩ := selectDisplayableVolume_spec w w' d b h
        refine ⟨fun hb => ?_, h2⟩
        obtain ⟨v, hv, hsel⟩ := h1 hb
        refine ⟨d, v, ⟨?_, Or.inr (Or.inr ⟨by simp [hL], by simp [hroi, hd]⟩)⟩, hv, hsel⟩
        unfold GetFirstVolumeRenderingDisplayNodeByROINode at hd
        split at hd
        · exact absurd hd (by simp)
        · have hp := List.find?_some hd
          revert hp
          cases w.nodes d <;> simp [Node.isVolumeRenderingDisplayNode]
  · cases h
    exact ⟨fun hb => absurd hb (by simp), fun _ => rfl⟩

theorem setEditedNodeROI_isSome (w : World) (node : Option NodeID)
    (hl : w.logic.isSome = true) (hs : w.scene.isSome = true) :
    (setEditedNodeROI w node).isSome = true := by
  unfold setEditedNodeROI
  split
  · split
    · rfl
    · split
      · rfl
      · exact selectDisplayableVolume_isSome w _ hl hs
  · rfl

/-- C3: `setEditedNode` returns true only after setting the volume selector to the
displayable volume of a render-display node associated with the node; when it
returns false the world, and so the volume selector, is unchanged; for a node of
none of the three classes it returns false; with logic and scene available it
always returns. -/
theorem setEditedNode_claims (w : World) (node : Option NodeID) :
    (∀ b w', setEditedNode w node = some (b, w') →
      (b = true → ∃ d v, AssociatedDisplayNode w node d ∧ displayableVolume w d = some v ∧
        w'.panel.VolumeNodeComboBox = some v) ∧
      (b = false → w' = w)) ∧
    (SafeDownCast Node.isVolumeRenderingDisplayNode w.nodes node = none →
      SafeDownCast Node.isVolumePropertyNode w.nodes node = none →
      SafeDownCast Node.isAnnotationROINode w.nodes node = none →
      setEditedNode w node = some (false, w)) ∧
    (w.logic.isSome = true → w.scene.isSome = true → (setEditedNode w node).isSome = true) := by
  refine ⟨?_, ?_, ?_⟩
  · intro b w' h
    unfold setEditedNode at h
    split at h
    · rename_i d hd
      obtain ⟨h1, h2⟩ := selectDisplayableVolume_spec w w' d b h
      refine ⟨fun hb => ?_, h2⟩
      obtain ⟨v, hv, hsel⟩ := h1 hb
      have hd' := hd
      unfold SafeDownCast at hd'
      obtain ⟨hnode, hcls⟩ := Option.filter_eq_some.mp hd'
      exact ⟨d, v, ⟨hcls, Or.inl hnode⟩, hv, hsel⟩
    · split at h
      · rename_i p hp
        split at h
        · cases h
          exact ⟨fun hb => absurd hb (by simp), fun _ => rfl⟩
        · rename_i sc hsc
          split at h
          · rename_i d hd
            obtain ⟨h1, h2⟩ := selectDisplayableVolume_spec w w' d b h
            refine ⟨fun hb => ?_, h2⟩
            obtain ⟨v, hv, hsel⟩ := h1 hb
            have hfound := List.find?_some hd
            simp only [Bool.and_eq_true, beq_iff_eq] at hfound
            have hp' := hp
            unfold SafeDownCast at hp'
            obtain ⟨hnode, _⟩ := Option.filter_eq_some.mp hp'
            refine ⟨d, v, ⟨hfound.1, Or.inr (Or.inl ⟨by simp [hp], ?_⟩)⟩, hv, hsel⟩
            rw [hfound.2, hnode]
          · exact setEditedNodeROI_spec w w' node b h
      · exact setEditedNodeROI_spec w w' node b h
  · intro h1 h2 h3
    simp [setEditedNode, setEditedNodeROI, h1, h2, h3]
  · intro hl hs
    unfold setEditedNode
    split
    · exact selectDisplayableVolume_isSome w _ hl hs
    · split
      · split
        · rfl
        · split
          · exact selectDisplayableVolume_isSome w _ hl hs
          · exact setEditedNodeROI_isSome w node hl hs
      · exact setEditedNodeROI_isSome w node hl hs

/-- C3 on the example scene: node 0 is of none of the three classes and is not
claimed; for the volume-property node 3 the call returns, having selected volume 1. -/
theorem setEditedNode_claims_witness :
    setEditedNode exampleWorld (some 0) = some (false, exampleWorld) ∧
      (setEditedNode exampleWorld (some 3)).isSome = true ∧
      (setEditedNode exampleWorld (some 3)).map
        (fun r => (r.1, r.2.panel.VolumeNodeComboBox)) = some (true, some 1) :=
  ⟨(setEditedNode_claims exampleWorld (some 0)).2.1 rfl rfl rfl,
   (setEditedNode_claims exampleWorld (some 3)).2.2 rfl rfl,
   by decide⟩

/-- C4 as stated fails: in `exampleTwoOwners` display node 2 is in the scene, has
volume-property node 3 and the displayable volume 1, yet `setEditedNode` of node 3
returns false and selects nothing, because display node 6 comes first. -/
theorem setEditedNode_volumeProperty_counterexample :
    (2 ∈ [6, 2, 1, 3] ∧ exampleTwoOwners.GetVolumePropertyNode 2 = some 3 ∧
      displayableVolume exampleTwoOwners 2 = some 1) ∧
    (setEditedNode exampleTwoOwners (some 3)).map
      (fun r => (r.1, r.2.panel.VolumeNodeComboBox)) = some (false, none) := by
  decide

/-- C4, amended: for a volume-property node `P`, `setEditedNode` selects the owning
volume and returns true exactly when the first render-display node of the scene
that has `P` as volume-property node has a displayable volume; it returns false and
changes nothing when there is no scene, when no display node has `P`, or when that
first display node has no displayable volume. -/
theorem setEditedNode_volumeProperty (w : World) (P : NodeID)
    (hP : (w.nodes P).isVolumePropertyNode = true) (hl : w.logic.isSome = true) :
    (w.scene = none → setEditedNode w (some P) = some (false, w)) ∧
    (∀ sc, w.scene = some sc →
      (∀ d v, firstDisplayNodeOfVolumeProperty w sc P = some d → displayableVolume w d = some v →
        ∃ w', setEditedNode w (some P) = some (true, w') ∧ w'.panel.VolumeNodeComboBox = some v) ∧
      ((∀ d, firstDisplayNodeOfVolumeProperty w sc P = some d → displayableVolume w d = none) →
        setEditedNode w (some P) = some (false, w))) := by
  have hx : ∀ x : Node, x.isVolumePropertyNode = true →
      x.isVolumeRenderingDisplayNode = false ∧ x.isAnnotationROINode = false := by
    intro x hx
    cases x <;> simp [Node.isVolumePropertyNode] at hx
    exact ⟨rfl, rfl⟩
  have h1 : SafeDownCast Node.isVolumeRenderingDisplayNode w.nodes (some P) = none := by
    simp [SafeDownCast, Option.filter, (hx _ hP).1]
  have h2 : SafeDownCast Node.isVolumePropertyNode w.nodes (some P) = some P := by
    simp [SafeDownCast, Option.filter, hP]
  have h3 : SafeDownCast Node.isAnnotationROINode w.nodes (some P) = none := by
    simp [SafeDownCast, Option.filter, (hx _ hP).2]
  refine ⟨?_, ?_⟩
  · intro hs
    simp [setEditedNode, h1, h2, hs]
  · intro sc hs
    refine ⟨?_, ?_⟩
    · intro d v hd hv
      have hsome := setMRMLVolumeNode_isSome w (some v) hl (by simp [hs])
      obtain ⟨w', hw'⟩ := Option.isSome_iff_exists.mp hsome
      refine ⟨w', ?_, setMRMLVolumeNode_selector w w' _ hw'⟩
      simp [setEditedNode, h1, h2, hs, hd, selectDisplayableVolume, hv, hw']
    · intro hnone
      cases hd : firstDisplayNodeOfVolumeProperty w sc P with
      | none => simp [setEditedNode, h1, h2, hs, hd, setEditedNodeROI, h3]
      | some d =>
        simp [setEditedNode, h1, h2, hs, hd, selectDisplayableVolume, hnone d hd]

/-- C4, amended, on `exampleTwoOwners`: the first display node with volume-property
node 3 is node 6, which no volume shows, so nothing is claimed. -/
theorem setEditedNode_volumeProperty_witness :
    setEditedNode exampleTwoOwners (some 3) = some (false, exampleTwoOwners) :=
  (((setEditedNode_volumeProperty exampleTwoOwners 3 rfl rfl).2 _ rfl).2
    (by decide))

/-! ### Selecting a volume: the display node that gets selected -/

theorem GetFirstVolumeRenderingDisplayNode_isDisplay (nodes : Nodes) (V D : NodeID)
    (h : GetFirstVolumeRenderingDisplayNode nodes V = some D) :
    (nodes D).isVolumeRenderingDisplayNode = true := by
  unfold GetFirstVolumeRenderingDisplayNode at h
  have h' := List.find?_some h
  exact h'

theorem SafeDownCast_found (nodes : Nodes) (found : Option NodeID)
    (h : ∀ D, found = some D → (nodes D).isVolumeRenderingDisplayNode = true) :
    SafeDownCast Node.isVolumeRenderingDisplayNode nodes found = found := by
  cases found with
  | none => rfl
  | some D => simp [SafeDownCast, Option.filter, h D rfl]

theorem GetVolumeRenderingDisplayNodeByID_mem (nodes : Nodes) (V D : NodeID)
    (hm : D ∈ (nodes V).DisplayNodeIDs) (hD : (nodes D).isVolumeRenderingDisplayNode = true) :
    GetVolumeRenderingDisplayNodeByID nodes V D = some D := by
  unfold GetVolumeRenderingDisplayNodeByID
  cases hf : List.find? (fun d => d == D && (nodes d).isVolumeRenderingDisplayNode)
      (nodes V).DisplayNodeIDs with
  | none =>
    have h := List.find?_eq_none.mp hf D hm
    simp [hD] at h
  | some x =>
    have h := List.find?_some hf
    simp only [Bool.and_eq_true, beq_iff_eq] at h
    rw [h.1]

theorem DisplayNodeIDs_AddAndObserveDisplayNodeID (id : NodeID) (x : Node)
    (hx : x.isScalarVolumeNode = true) :
    (x.AddAndObserveDisplayNodeID id).DisplayNodeIDs = x.DisplayNodeIDs ++ [id] ∧
      (x.AddAndObserveDisplayNodeID id).isScalarVolumeNode = true := by
  cases x <;> simp [Node.isScalarVolumeNode] at hx
  exact ⟨rfl, rfl⟩

theorem addDisplayNodeReference_noop (w : World) (V dn : NodeID) (L : Logic)
    (hmv : w.mrmlVolumeNode = some V) (hl : w.logic = some L)
    (hby : GetVolumeRenderingDisplayNodeByID w.nodes V dn = some dn) :
    addDisplayNodeReference w (some dn) = some w := by
  unfold addDisplayNodeReference
  simp [hmv, hl, hby]

theorem onCurrentMRMLVolumeNodeChanged_eq (w : World) (V : NodeID) (L : Logic) (sc : Scene)
    (hV : (w.nodes V).isScalarVolumeNode = true) (hl : w.logic = some L) (hs : w.scene = some sc)
    (dn : Option NodeID) (w1 w2 : World) (hch : chooseDisplayNode w sc V = some (dn, w1))
    (hw2 : setMRMLDisplayNode w1 dn = some w2) :
    onCurrentMRMLVolumeNodeChanged w (some V) =
      some { w2 with emitted := w2.emitted ++ [Signal.currentVolumeNodeChanged (some V)] } := by
  have hcast : SafeDownCast Node.isScalarVolumeNode w.nodes (some V) = some V := by
    simp [SafeDownCast, Option.filter, hV]
  unfold onCurrentMRMLVolumeNodeChanged
  rw [hcast]
  dsimp only
  split
  · rename_i L' sc' hL' hsc'
    have hsc : sc' = sc := by rw [hs] at hsc'; exact (Option.some.inj hsc').symm
    subst hsc
    rw [hch]
    dsimp only
    rw [hw2]
  · rename_i hne
    exact absurd hs (fun h => hne L sc hl h)

/-- C5: for a scalar volume `V` selected while the scene is not closing. If `V` has a
render-display node, no node is allocated or added to the scene, the first such
node `D` becomes the selected display node and is told `Modified()`. If it has
none, exactly one node is allocated, a render-display node of the logic's default
class; it is appended to the scene, appended to the display nodes of `V`, and
becomes the selected display node. -/
theorem selecting_volume_picks_or_creates (w : World) (V : NodeID) (L : Logic) (sc : Scene)
    (hV : (w.nodes V).isScalarVolumeNode = true) (hsel : w.panel.VolumeNodeComboBox = some V)
    (hl : w.logic = some L) (hs : w.scene = some sc) (hc : sc.IsClosing = false)
    (hinv : HandleInv w) (hun : Unallocated w) :
    (∀ D, GetFirstVolumeRenderingDisplayNode w.nodes V = some D →
      ∃ w', onCurrentMRMLVolumeNodeChanged w (some V) = some w' ∧
        w'.scene = w.scene ∧ w'.nextID = w.nextID ∧
        (∀ n, (w'.nodes n).classOnly = (w.nodes n).classOnly) ∧
        w'.panel.DisplayNode = some D ∧ w'.panel.DisplayNodeComboBox = some D ∧
        w'.ModifiedCalls = w.ModifiedCalls ++ [D]) ∧
    (GetFirstVolumeRenderingDisplayNode w.nodes V = none →
      ∃ w', onCurrentMRMLVolumeNodeChanged w (some V) = some w' ∧
        w'.scene = some { sc with Nodes := sc.Nodes ++ [w.nextID] } ∧
        w'.nextID = w.nextID + 1 ∧
        (w'.nodes w.nextID).isVolumeRenderingDisplayNode = true ∧
        (w'.nodes w.nextID).GetClassName = L.DefaultRenderingMethod ∧
        (w'.nodes V).DisplayNodeIDs = (w.nodes V).DisplayNodeIDs ++ [w.nextID] ∧
        (∀ n, n ≠ w.nextID → (w'.nodes n).classOnly = (w.nodes n).classOnly) ∧
        w'.panel.DisplayNode = some w.nextID ∧
        w'.panel.DisplayNodeComboBox = some w.nextID ∧
        w'.ModifiedCalls = w.ModifiedCalls) := by
  have hlsome : w.logic.isSome = true := by simp [hl]
  refine ⟨?_, ?_⟩
  · intro D hD
    have hch : chooseDisplayNode w sc V =
        some (some D, { w with ModifiedCalls := w.ModifiedCalls ++ [D] }) := by
      simp [chooseDisplayNode, hc, hD]
    obtain ⟨w2, hw2⟩ := Option.isSome_iff_exists.mp
      (setMRMLDisplayNode_isSome { w with ModifiedCalls := w.ModifiedCalls ++ [D] } (some D) hlsome)
    obtain ⟨f, h1, h2⟩ := setMRMLDisplayNode_frame _ w2 _ hw2
    refine ⟨_, onCurrentMRMLVolumeNodeChanged_eq w V L sc hV hl hs _ _ w2 hch hw2,
      f.scene, f.nextID, f.classOnly, ?_, h1, f.ModifiedCalls⟩
    show w2.panel.DisplayNode = _
    rw [h2 hinv]
    exact SafeDownCast_found _ _
      (fun D' hD' => by
        cases hD'
        exact GetFirstVolumeRenderingDisplayNode_isDisplay w.nodes V D hD)
  · intro hnone
    have hVne : V ≠ w.nextID := by
      intro heq
      rw [heq, hun w.nextID (Nat.le_refl _)] at hV
      simp [Node.isScalarVolumeNode] at hV
    have hcreate := createVolumeRenderingDisplayNode_eq w V L sc hl hs hVne
    have hch : chooseDisplayNode w sc V = some (some w.nextID, afterCreate w L sc V) := by
      simp [chooseDisplayNode, hc, hnone, hcreate]
    -- the selector does not hold the new node yet
    have hcombo : (afterCreate w L sc V).panel.DisplayNodeComboBox ≠ some w.nextID := by
      show w.panel.DisplayNodeComboBox ≠ some w.nextID
      intro heq
      have h2 := hinv.2
      rw [heq] at h2
      simp [World.mrmlDisplayNode, SafeDownCast, Option.filter, heq,
        hun w.nextID (Nat.le_refl _), Node.isVolumeRenderingDisplayNode] at h2
    have hnew : (afterCreate w L sc V).nodes w.nextID =
        Node.renderDisplay L.DefaultRenderingMethod (initialDisplayAttrs w L (some V)) := by
      simp [afterCreate, Function.update_noteq hVne.symm]
    have hvol : (afterCreate w L sc V).nodes V =
        (w.nodes V).AddAndObserveDisplayNodeID w.nextID := by
      simp [afterCreate]
    obtain ⟨hids, hscalar⟩ := DisplayNodeIDs_AddAndObserveDisplayNodeID w.nextID (w.nodes V) hV
    -- the slot of the display-node selector runs and finds the reference in place
    have hslot : setMRMLDisplayNode (afterCreate w L sc V) (some w.nextID) =
        some (bindDisplayNode
          { afterCreate w L sc V with panel.DisplayNodeComboBox := some w.nextID }
          (some w.nextID)) := by
      unfold setMRMLDisplayNode
      rw [if_neg hcombo]
      unfold onCurrentMRMLDisplayNodeChanged
      have hdc : SafeDownCast Node.isVolumeRenderingDisplayNode
          (afterCreate w L sc V).nodes (some w.nextID) = some w.nextID := by
        simp [SafeDownCast, Option.filter, hnew, Node.isVolumeRenderingDisplayNode]
      have href : addDisplayNodeReference
          { afterCreate w L sc V with panel.DisplayNodeComboBox := some w.nextID }
          (some w.nextID) =
          some { afterCreate w L sc V with panel.DisplayNodeComboBox := some w.nextID } := by
        have hmv : World.mrmlVolumeNode
            { afterCreate w L sc V with panel.DisplayNodeComboBox := some w.nextID } = some V := by
          show SafeDownCast Node.isScalarVolumeNode (afterCreate w L sc V).nodes
            w.panel.VolumeNodeComboBox = some V
          simp [SafeDownCast, Option.filter, hsel, hvol, hscalar]
        have hby : GetVolumeRenderingDisplayNodeByID (afterCreate w L sc V).nodes V w.nextID =
            some w.nextID := by
          apply GetVolumeRenderingDisplayNodeByID_mem
          · rw [hvol, hids]; simp
          · rw [hnew]; rfl
        exact addDisplayNodeReference_noop _ V w.nextID L hmv hl hby
      show (match addDisplayNodeReference _ (SafeDownCast Node.isVolumeRenderingDisplayNode
          (afterCreate w L sc V).nodes (some w.nextID)) with
        | none => none
        | some w1 => some (bindDisplayNode w1 (SafeDownCast Node.isVolumeRenderingDisplayNode
          (afterCreate w L sc V).nodes (some w.nextID)))) = _
      rw [hdc, href]
    obtain ⟨f, hd, hcb, hsk, _⟩ := bindDisplayNode_frame
      { afterCreate w L sc V with panel.DisplayNodeComboBox := some w.nextID } (some w.nextID)
    refine ⟨_, onCurrentMRMLVolumeNodeChanged_eq w V L sc hV hl hs _ _ _ hch hslot,
      f.scene, f.nextID, ?_, ?_, ?_, ?_, hd, hcb, f.ModifiedCalls⟩
    · rw [isVolumeRenderingDisplayNode_of_classOnly (f.classOnly w.nextID)]
      show ((afterCreate w L sc V).nodes w.nextID).isVolumeRenderingDisplayNode = true
      rw [hnew]; rfl
    · rw [GetClassName_of_classOnly (f.classOnly w.nextID)]
      show ((afterCreate w L sc V).nodes w.nextID).GetClassName = _
      rw [hnew]; rfl
    · rw [DisplayNodeIDs_of_skeleton (hsk V)]
      show ((afterCreate w L sc V).nodes V).DisplayNodeIDs = _
      rw [hvol, hids]
    · intro n hn
      rw [f.classOnly n]
      show ((afterCreate w L sc V).nodes n).classOnly = _
      by_cases hnV : n = V
      · subst hnV
        rw [hvol, classOnly_AddAndObserveDisplayNodeID]
      · simp [afterCreate, Function.update_noteq hnV, Function.update_noteq hn]

/-! ### Switching the rendering method -/

/-- C8: `onCurrentRenderingMethodChanged` returns the world unchanged (no node, no
scene change, same selection, no signal) when no display node is selected, when the
picked entry has no or an empty class name (index -1 has none), or when the class
name is that of the selected display node. -/
theorem rendering_method_unchanged (w : World) (index : Int)
    (h : w.panel.DisplayNode = none ∨
      (w.panel.RenderingMethodComboBox.itemData index).getD "" = "" ∨
      ∃ old, w.panel.DisplayNode = some old ∧
        (w.panel.RenderingMethodComboBox.itemData index).getD "" = (w.nodes old).GetClassName) :
    onCurrentRenderingMethodChanged w index = some w ∧
      w.panel.RenderingMethodComboBox.itemData (-1) = none := by
  refine ⟨?_, by simp [ComboBox.itemData]⟩
  unfold onCurrentRenderingMethodChanged
  cases hd : w.panel.DisplayNode with
  | none => rfl
  | some old =>
    rcases h with h | h | ⟨old', h1, h2⟩
    · rw [hd] at h; exact absurd h (by simp)
    · have hempty : ("" : String).isEmpty = true := by decide
      simp [h, hempty]
    · rw [hd] at h1
      cases h1
      simp [h2]

theorem isVolumePropertyNode_of_classOnly {a b : Node} (h : a.classOnly = b.classOnly) :
    a.isVolumePropertyNode = b.isVolumePropertyNode := by
  cases a <;> cases b <;> simp [Node.classOnly] at h <;> rfl

theorem isAnnotationROINode_of_classOnly {a b : Node} (h : a.classOnly = b.classOnly) :
    a.isAnnotationROINode = b.isAnnotationROINode := by
  cases a <;> cases b <;> simp [Node.classOnly] at h <;> rfl

theorem addDisplayNodeReference_displayNodes (w w1 : World) (dn : Option NodeID)
    (h : addDisplayNodeReference w dn = some w1) (n : NodeID)
    (hn : (w.nodes n).isVolumeRenderingDisplayNode = true) : w1.nodes n = w.nodes n := by
  unfold addDisplayNodeReference at h
  split at h
  · split at h
    · exact absurd h (by simp)
    · split at h
      · cases h
        rename_i v _ _ _ _ _ _
        by_cases hv : n = v
        · subst hv
          revert hn
          cases hx : w.nodes n <;>
            simp [World.addDisplayNodeID, hx, Node.isVolumeRenderingDisplayNode,
              Node.AddAndObserveDisplayNodeID]
        · simp [World.addDisplayNodeID, Function.update_noteq hv]
      · cases h; rfl
  · cases h; rfl

theorem updateFromMRMLDisplayNode_synced (w : World) (d : NodeID)
    (hd : w.panel.DisplayNode = some d)
    (hvp : w.panel.VolumePropertyNodeComboBox = w.GetVolumePropertyNode d)
    (hroi : w.panel.ROINodeComboBox = w.GetROINode d) :
    updateFromMRMLDisplayNode w = w.withPanel (refreshedPanel w) := by
  unfold updateFromMRMLDisplayNode
  simp [hd, setMRMLVolumePropertyNode, hvp, setMRMLROINode, hroi]

theorem attributeWidgets_refreshedPanel (w : World) (d : NodeID) (c : String) (a : DisplayAttrs)
    (hd : w.panel.DisplayNode = some d) (hn : w.nodes d = Node.renderDisplay c a) :
    attributeWidgets (refreshedPanel w) =
      (a.Visibility, a.CroppingEnabled, w.panel.MemorySizeComboBox.findData (some a.GPUMemorySize),
        a.PerformanceControl, a.ExpectedFPS, w.panel.VolumePropertyNodeComboBox,
        w.panel.ROINodeComboBox) := by
  simp [attributeWidgets, refreshedPanel, World.displayNodeAttrs, hd, hn, Node.displayAttrs,
    ComboBox.setCurrentIndex, ComboBox.findData]

theorem removeOldDisplayNode_alive (w : World) (o : NodeID)
    (h : (w.nodes o).isVolumeRenderingDisplayNode = true) :
    removeOldDisplayNode w (some o) = w.RemoveNode o := by
  simp [removeOldDisplayNode, weakPointer, SafeDownCast, Option.filter, h]

theorem removeOldDisplayNode_dead (w : World) (o : NodeID)
    (h : (w.nodes o).isVolumeRenderingDisplayNode = false) :
    removeOldDisplayNode w (some o) = some w := by
  simp [removeOldDisplayNode, weakPointer, SafeDownCast, Option.filter, h]

theorem onCurrentRenderingMethodChanged_eq (w : World) (index : Int) (old : NodeID) (B : String)
    (L : Logic) (w1 w3 w4 : World)
    (hd : w.panel.DisplayNode = some old)
    (hB : w.panel.RenderingMethodComboBox.itemData index = some B)
    (hBne : B ≠ "") (hAB : B ≠ (w.nodes old).GetClassName) (hl : w.logic = some L)
    (hadd : (w.CreateVolumeRenderingDisplayNode L (some B)).2.AddNode w.nextID = some w1)
    (hp : w1.panel.DisplayNode = some old)
    (hsel : setMRMLDisplayNode
      (w1.modifyDisplay w.nextID (fun a => ((w1.nodes old).displayAttrs).getD a))
      (some w.nextID) = some w3)
    (hlive : (w3.nodes old).isVolumeRenderingDisplayNode = true)
    (hrem : w3.RemoveNode old = some w4) :
    onCurrentRenderingMethodChanged w index =
      some { w4 with emitted := w4.emitted ++ [Signal.currentVolumeRenderingDisplayNodeChanged (some w.nextID)] } := by
  have hempty : B.isEmpty = false := by
    cases he : B.isEmpty with
    | false => rfl
    | true => exact absurd ((String.isEmpty_iff B).mp he) hBne
  unfold onCurrentRenderingMethodChanged
  rw [hd]
  dsimp only
  rw [hB]
  simp only [Option.getD_some, hempty, Bool.false_or, beq_iff_eq, hAB, if_false]
  rw [hl]
  dsimp only
  have h1 : (w.CreateVolumeRenderingDisplayNode L (some B)).1 = w.nextID := rfl
  rw [h1, hadd]
  dsimp only
  rw [hsel]
  dsimp only
  rw [hp, removeOldDisplayNode_alive w3 old hlive]
  show (match w3.RemoveNode old with
    | none => none
    | some w4 => some { w4 with emitted := w4.emitted ++ [Signal.currentVolumeRenderingDisplayNodeChanged (some w.nextID)] }) = _
  rw [hrem]

theorem bindDisplayNode_synced (w : World) (d : NodeID)
    (hvp : w.panel.VolumePropertyNodeComboBox = w.GetVolumePropertyNode d)
    (hroi : w.panel.ROINodeComboBox = w.GetROINode d) :
    bindDisplayNode w (some d) =
      { (observeDisplayNode w (some d)).withPanel (refreshedPanel (observeDisplayNode w (some d))) with emitted := w.emitted ++ [Signal.currentVolumeRenderingDisplayNodeChanged (some d)] } := by
  unfold bindDisplayNode
  rw [updateFromMRMLDisplayNode_synced (observeDisplayNode w (some d)) d rfl hvp hroi]
  rfl

theorem RemoveNode_eq (w : World) (sc : Scene) (n : NodeID) (hs : w.scene = some sc) :
    w.RemoveNode n = some { w with scene := some { sc with Nodes := sc.Nodes.filter (fun m => m != n) }, steps := w.steps ++ [Step.RemoveNode n] } := by
  unfold World.RemoveNode
  rw [hs]

/-- C7: with display node `old` of class `A` selected and reflected by the widgets,
picking a non-empty class `B` different from `A` returns a world in which the new
node (the next identity) is a class-`B` render-display node carrying exactly the
attributes of `old`, the scene has gained the new node and lost `old`, the new node
is the selected display node (handle and selector), the attribute widgets show what
they showed before, and the last signal emitted announces the new node. -/
theorem rendering_method_switch (w : World) (index : Int) (old : NodeID) (A B : String)
    (a : DisplayAttrs) (L : Logic) (sc : Scene)
    (hd : w.panel.DisplayNode = some old) (hinv : HandleInv w) (hun : Unallocated w)
    (hold : w.nodes old = Node.renderDisplay A a)
    (hB : w.panel.RenderingMethodComboBox.itemData index = some B)
    (hBne : B ≠ "") (hAB : B ≠ A) (hl : w.logic = some L) (hs : w.scene = some sc)
    (hsync : Reflects w old a) :
    ∃ w', onCurrentRenderingMethodChanged w index = some w' ∧
      w'.nodes w.nextID = Node.renderDisplay B a ∧
      w'.scene = some { sc with Nodes := (sc.Nodes ++ [w.nextID]).filter (fun m => m != old) } ∧
      w.nextID ∈ (sc.Nodes ++ [w.nextID]).filter (fun m => m != old) ∧
      old ∉ (sc.Nodes ++ [w.nextID]).filter (fun m => m != old) ∧
      w'.panel.DisplayNode = some w.nextID ∧
      w'.panel.DisplayNodeComboBox = some w.nextID ∧
      attributeWidgets w'.panel = attributeWidgets w.panel ∧
      w'.emitted.getLast? = some (Signal.currentVolumeRenderingDisplayNodeChanged (some w.nextID)) := by
  have hne : old ≠ w.nextID := by
    intro heq
    rw [heq, hun w.nextID (Nat.le_refl _)] at hold
    exact absurd hold (by simp)
  have hadd : (w.CreateVolumeRenderingDisplayNode L (some B)).2.AddNode w.nextID =
      some (afterCopy w sc B L.DefaultAttrs) := by
    simp [World.AddNode, World.CreateVolumeRenderingDisplayNode, hs, afterCopy]
  have hcopy : (afterCopy w sc B L.DefaultAttrs).modifyDisplay w.nextID
      (fun x => (((afterCopy w sc B L.DefaultAttrs).nodes old).displayAttrs).getD x) =
      afterCopy w sc B a := by
    simp [afterCopy, World.modifyDisplay, Function.update_noteq hne, hold, Node.displayAttrs,
      Node.mapDisplayAttrs]
  -- the selector holds `old`, so the slot of the display-node selector runs
  have hcombo : (afterCopy w sc B a).panel.DisplayNodeComboBox ≠ some w.nextID := by
    show w.panel.DisplayNodeComboBox ≠ some w.nextID
    rw [← hinv.1, hd]
    intro heq
    exact hne (Option.some.inj heq)
  have hnewc : (afterCopy w sc B a).nodes w.nextID = Node.renderDisplay B a := by
    simp [afterCopy]
  have hdc : SafeDownCast Node.isVolumeRenderingDisplayNode (afterCopy w sc B a).nodes
      (some w.nextID) = some w.nextID := by
    simp [SafeDownCast, Option.filter, hnewc, Node.isVolumeRenderingDisplayNode]
  obtain ⟨w2r, href⟩ := Option.isSome_iff_exists.mp
    (addDisplayNodeReference_isSome
      { afterCopy w sc B a with panel.DisplayNodeComboBox := some w.nextID } (some w.nextID)
      (by show w.logic.isSome = true; simp [hl]))
  obtain ⟨fr, hpanel, hemit⟩ := addDisplayNodeReference_frame _ w2r _ href
  have hnew : w2r.nodes w.nextID = Node.renderDisplay B a := by
    rw [addDisplayNodeReference_displayNodes _ w2r _ href w.nextID
      (by show ((afterCopy w sc B a).nodes w.nextID).isVolumeRenderingDisplayNode = true
          rw [hnewc]; rfl)]
    exact hnewc
  have hsel : setMRMLDisplayNode (afterCopy w sc B a) (some w.nextID) =
      some (bindDisplayNode w2r (some w.nextID)) := by
    unfold setMRMLDisplayNode
    rw [if_neg hcombo]
    show (match addDisplayNodeReference _ (SafeDownCast Node.isVolumeRenderingDisplayNode
        (afterCopy w sc B a).nodes (some w.nextID)) with
      | none => none
      | some w1 => some (bindDisplayNode w1 (SafeDownCast Node.isVolumeRenderingDisplayNode
        (afterCopy w sc B a).nodes (some w.nextID)))) = _
    rw [hdc, href]
  -- node classes seen by the typed getters are those of `w`
  have hcls : ∀ i, (w2r.nodes i).classOnly = ((afterCopy w sc B a).nodes i).classOnly :=
    fun i => fr.classOnly i
  have hvpc : ∀ i, (w2r.nodes i).isVolumePropertyNode = (w.nodes i).isVolumePropertyNode := by
    intro i
    rw [isVolumePropertyNode_of_classOnly (hcls i)]
    by_cases hi : i = w.nextID
    · subst hi; simp [afterCopy, hun w.nextID (Nat.le_refl _), Node.isVolumePropertyNode]
    · simp [afterCopy, Function.update_noteq hi]
  have hroic : ∀ i, (w2r.nodes i).isAnnotationROINode = (w.nodes i).isAnnotationROINode := by
    intro i
    rw [isAnnotationROINode_of_classOnly (hcls i)]
    by_cases hi : i = w.nextID
    · subst hi; simp [afterCopy, hun w.nextID (Nat.le_refl _), Node.isAnnotationROINode]
    · simp [afterCopy, Function.update_noteq hi]
  have hsync' := hsync
  unfold Reflects attributeWidgets at hsync'
  simp only [Prod.mk.injEq] at hsync'
  obtain ⟨s1, s2, s3, s4, s5, s6, s7⟩ := hsync'
  have hvp : w2r.panel.VolumePropertyNodeComboBox = w2r.GetVolumePropertyNode w.nextID := by
    rw [hpanel]
    show w.panel.VolumePropertyNodeComboBox = _
    rw [s6]
    simp only [World.GetVolumePropertyNode, hnew, hold, Node.displayAttrs, Option.some_bind,
      SafeDownCast]
    cases a.VolumePropertyNodeID with
    | none => rfl
    | some i => simp [Option.filter, hvpc i]
  have hroi : w2r.panel.ROINodeComboBox = w2r.GetROINode w.nextID := by
    rw [hpanel]
    show w.panel.ROINodeComboBox = _
    rw [s7]
    simp only [World.GetROINode, hnew, hold, Node.displayAttrs, Option.some_bind, SafeDownCast]
    cases a.ROINodeID with
    | none => rfl
    | some i => simp [Option.filter, hroic i]
  have hbind := bindDisplayNode_synced w2r w.nextID hvp hroi
  have hscene : (bindDisplayNode w2r (some w.nextID)).scene =
      some { sc with Nodes := sc.Nodes ++ [w.nextID] } := by
    rw [hbind]
    show w2r.scene = _
    rw [fr.scene]
    rfl
  have hlive : ((bindDisplayNode w2r (some w.nextID)).nodes old).isVolumeRenderingDisplayNode =
      true := by
    rw [hbind]
    show (w2r.nodes old).isVolumeRenderingDisplayNode = true
    rw [isVolumeRenderingDisplayNode_of_classOnly (hcls old)]
    simp [afterCopy, Function.update_noteq hne, hold, Node.isVolumeRenderingDisplayNode]
  have hfinal := onCurrentRenderingMethodChanged_eq w index old B L _ _ _ hd hB hBne
    (by rw [hold]; exact hAB) hl hadd hd (by rw [hcopy]; exact hsel) hlive
    (RemoveNode_eq _ _ old hscene)
  refine ⟨_, hfinal, ?_, rfl, ?_, ?_, ?_, ?_, ?_, ?_⟩
  · show (bindDisplayNode w2r (some w.nextID)).nodes w.nextID = _
    rw [hbind]
    exact hnew
  · rw [List.mem_filter]
    refine ⟨by simp, ?_⟩
    simpa using fun h => hne h.symm
  · rw [List.mem_filter]
    simp
  · show (bindDisplayNode w2r (some w.nextID)).panel.DisplayNode = _
    rw [hbind]
    rfl
  · show (bindDisplayNode w2r (some w.nextID)).panel.DisplayNodeComboBox = _
    rw [hbind]
    show w2r.panel.DisplayNodeComboBox = _
    rw [hpanel]
  · show attributeWidgets (bindDisplayNode w2r (some w.nextID)).panel = _
    rw [hbind]
    show attributeWidgets (refreshedPanel (observeDisplayNode w2r (some w.nextID))) = _
    rw [attributeWidgets_refreshedPanel (observeDisplayNode w2r (some w.nextID)) w.nextID B a
      rfl hnew]
    show (_, _, (observeDisplayNode w2r (some w.nextID)).panel.MemorySizeComboBox.findData _, _, _,
      w2r.panel.VolumePropertyNodeComboBox, w2r.panel.ROINodeComboBox) = attributeWidgets w.panel
    have hm : (observeDisplayNode w2r (some w.nextID)).panel.MemorySizeComboBox =
        w.panel.MemorySizeComboBox := by
      show w2r.panel.MemorySizeComboBox = _
      rw [hpanel]
      rfl
    rw [hm, hpanel]
    show (_, _, _, _, _, w.panel.VolumePropertyNodeComboBox, w.panel.ROINodeComboBox) = _
    rw [← s1, ← s2, ← s3, ← s4, ← s5]
    rfl
  · simp

/-! ### The claims on the example scenes -/

theorem exampleNodes_unallocated (n : Nat) (h : 6 ≤ n) : exampleNodes n = Node.other "" := by
  obtain ⟨k, rfl⟩ : ∃ k, n = k + 6 := ⟨n - 6, by omega⟩
  rfl

theorem exampleBare_unallocated (n : Nat) (h : 2 ≤ n) : exampleBare.nodes n = Node.other "" := by
  obtain ⟨k, rfl⟩ : ∃ k, n = k + 2 := ⟨n - 2, by omega⟩
  rfl

/-- C5 on two scenes: volume 1 of the example scene has display node 2, which gets
selected and no node is allocated; volume 1 of the bare scene has none, and node 2
is created, added to the scene and selected. -/
theorem selecting_volume_picks_or_creates_witness :
    (∃ w', onCurrentMRMLVolumeNodeChanged exampleVolumeSelected (some 1) = some w' ∧
      w'.nextID = 6 ∧ w'.panel.DisplayNode = some 2) ∧
    (∃ w', onCurrentMRMLVolumeNodeChanged exampleBare (some 1) = some w' ∧
      w'.scene = some { Nodes := [1, 2] } ∧ w'.nextID = 3 ∧
      (w'.nodes 1).DisplayNodeIDs = [2] ∧ w'.panel.DisplayNode = some 2) := by
  constructor
  · obtain ⟨w', h1, _, h3, _, h5, _, _⟩ :=
      (selecting_volume_picks_or_creates exampleVolumeSelected 1 {} { Nodes := [1, 2, 3, 4, 5] }
        rfl rfl rfl rfl rfl ⟨rfl, rfl⟩ exampleNodes_unallocated).1 2 rfl
    exact ⟨w', h1, h3, h5⟩
  · obtain ⟨w', h1, h2, h3, _, _, h6, _, h8, _, _⟩ :=
      (selecting_volume_picks_or_creates exampleBare 1 {} { Nodes := [1] }
        rfl rfl rfl rfl rfl ⟨rfl, rfl⟩ exampleBare_unallocated).2 rfl
    exact ⟨w', h1, h2, h3, h6, h8⟩

/-- C7 on the example scene: switching the selected CPU ray-cast node 2 to the GPU
ray-cast class creates node 6 with the attributes of node 2, selects it, and the
attribute widgets keep their values. -/
theorem rendering_method_switch_witness :
    ∃ w', onCurrentRenderingMethodChanged exampleSelected 1 = some w' ∧
      w'.nodes 6 = Node.renderDisplay "vtkMRMLGPURayCastVolumeRenderingDisplayNode" exampleAttrs ∧
      w'.scene = some { Nodes := [1, 3, 4, 5, 6] } ∧
      w'.panel.DisplayNode = some 6 ∧
      attributeWidgets w'.panel = attributeWidgets exampleSelected.panel := by
  obtain ⟨w', h1, h2, h3, _, _, h6, _, h8, _⟩ :=
    rendering_method_switch exampleSelected 1 2 "vtkMRMLCPURayCastVolumeRenderingDisplayNode"
      "vtkMRMLGPURayCastVolumeRenderingDisplayNode" exampleAttrs {} { Nodes := [1, 2, 3, 4, 5] }
      rfl ⟨rfl, rfl⟩ exampleNodes_unallocated rfl (by decide) (by decide) (by decide) rfl rfl rfl
  exact ⟨w', h1, h2, h3, h6, h8⟩

/-- C8 on the example scene: picking the class the selected node already has, or
index -1, changes nothing. -/
theorem rendering_method_unchanged_witness :
    onCurrentRenderingMethodChanged exampleSelected 0 = some exampleSelected ∧
      onCurrentRenderingMethodChanged exampleSelected (-1) = some exampleSelected :=
  ⟨(rendering_method_unchanged exampleSelected 0
      (Or.inr (Or.inr ⟨2, rfl, by decide⟩))).1,
   (rendering_method_unchanged exampleSelected (-1) (Or.inr (Or.inl (by decide)))).1⟩

/-- C10 on the example scene: hiding the volume and picking the 256 MB entry each
write one attribute of display node 2. -/
theorem attribute_edits_forward_witness :
    onVisibilityChanged exampleSelected false =
        exampleSelected.withNode 2 (Node.renderDisplay "vtkMRMLCPURayCastVolumeRenderingDisplayNode" { exampleAttrs with Visibility := false }) ∧
      onCurrentMemorySizeChanged exampleSelected 3 =
        exampleSelected.withNode 2 (Node.renderDisplay "vtkMRMLCPURayCastVolumeRenderingDisplayNode" { exampleAttrs with GPUMemorySize := 256 }) :=
  ⟨(attribute_edits_forward exampleSelected 2 _ exampleAttrs rfl rfl rfl).1 false,
   (attribute_edits_forward exampleSelected 2 _ exampleAttrs rfl rfl rfl).2.2.1 3 "256 MB" 256 rfl⟩

/-! ### The effective range and the chart extent -/

/-- C12: in `onEffectiveRangeModified`, with no volume-property node nothing changes;
with a stored range `lo <= hi` the chart extent becomes that range and the node is
not asked to recompute; with `lo > hi` the node is asked once, and if it cannot
supply a range the panel (chart extent, preset slider range) is left as it is,
otherwise the chart extent becomes the recomputed range. -/
theorem effective_range_update (w : World) :
    (w.mrmlVolumePropertyNode = none → onEffectiveRangeModified w = w) ∧
    (∀ vp data, w.mrmlVolumePropertyNode = some vp → w.nodes vp = Node.volumeProperty data →
      (data.EffectiveRange.1 ≤ data.EffectiveRange.2 →
        (onEffectiveRangeModified w).panel.VolumePropertyNodeWidgetChartsExtent =
            data.EffectiveRange ∧
          (onEffectiveRangeModified w).nodes = w.nodes ∧
          (onEffectiveRangeModified w).panel.PresetSliderRangeUpdates =
            w.panel.PresetSliderRangeUpdates + 1) ∧
      (data.EffectiveRange.2 < data.EffectiveRange.1 → data.CalculatedRange = none →
        (onEffectiveRangeModified w).panel = w.panel ∧
          (onEffectiveRangeModified w).nodes vp = Node.volumeProperty
            { data with CalculateEffectiveRangeCalls := data.CalculateEffectiveRangeCalls + 1 }) ∧
      (data.EffectiveRange.2 < data.EffectiveRange.1 → ∀ r, data.CalculatedRange = some r →
        (onEffectiveRangeModified w).panel.VolumePropertyNodeWidgetChartsExtent = r ∧
          (onEffectiveRangeModified w).nodes vp = Node.volumeProperty
            { data with EffectiveRange := r, CalculateEffectiveRangeCalls := data.CalculateEffectiveRangeCalls + 1 } ∧
          (onEffectiveRangeModified w).panel.PresetSliderRangeUpdates =
            w.panel.PresetSliderRangeUpdates + 1)) := by
  refine ⟨?_, ?_⟩
  · intro h
    simp [onEffectiveRangeModified, h]
  · intro vp data hvp hdata
    refine ⟨?_, ?_, ?_⟩
    · intro hle
      have hnot : ¬ data.EffectiveRange.1 > data.EffectiveRange.2 := not_lt.mpr hle
      simp only [onEffectiveRangeModified, hvp, hdata, hnot, if_false]
      exact ⟨rfl, rfl, rfl⟩
    · intro hlt hnone
      have hgt : data.EffectiveRange.1 > data.EffectiveRange.2 := hlt
      simp only [onEffectiveRangeModified, hvp, hdata, hgt, if_true,
        VolumePropertyData.CalculateEffectiveRange, hnone]
      refine ⟨rfl, ?_⟩
      simp [World.withNode]
    · intro hlt r hr
      have hgt : data.EffectiveRange.1 > data.EffectiveRange.2 := hlt
      simp only [onEffectiveRangeModified, hvp, hdata, hgt, if_true,
        VolumePropertyData.CalculateEffectiveRange, hr]
      refine ⟨rfl, ?_, rfl⟩
      show (World.withNode w vp _).nodes vp = _
      simp [World.withNode]

/-- C12 on the example scene: the empty stored range of node 3 is recomputed as
[0, 255], which becomes the chart extent. -/
theorem effective_range_update_witness :
    (onEffectiveRangeModified exampleRange).panel.VolumePropertyNodeWidgetChartsExtent = (0, 255) :=
  ((((effective_range_update exampleRange).2 3
      { EffectiveRange := (0, -1), CalculatedRange := some (0, 255) } rfl
      (by simp [exampleRange])).2.2) (by norm_num) (0, 255) rfl).1

theorem setChartsExtentBlocked_eq (w : World) (r : ℚ × ℚ) :
    (setChartsExtentBlocked w r).nodes = w.nodes ∧
      (setChartsExtentBlocked w r).panel.VolumePropertyNodeWidgetSignalsBlocked =
        w.panel.VolumePropertyNodeWidgetSignalsBlocked ∧
      (setChartsExtentBlocked w r).panel.ChartsExtentChangedSignals =
        w.panel.ChartsExtentChangedSignals :=
  ⟨rfl, rfl, rfl⟩

/-- C13: `onChartsExtentChanged` stores the first two components of the chart extent
as the effective range of the volume-property node and changes nothing else: the
node invokes no modified event for the write and its disable flag ends as it was,
whatever it was. `onEffectiveRangeModified` emits no `chartsExtentChanged()`,
leaves the blocking state of the widget as it was, and writes nothing to the nodes
but the recomputation the node itself performs. -/
theorem range_sync_without_reflection (w : World) :
    (∀ vp data, w.mrmlVolumePropertyNode = some vp → w.nodes vp = Node.volumeProperty data →
      onChartsExtentChanged w = w.withNode vp (Node.volumeProperty
        { data with EffectiveRange := ((chartsExtent w.panel).1, (chartsExtent w.panel).2.1) })) ∧
    (w.mrmlVolumePropertyNode = none → onChartsExtentChanged w = w) ∧
    ((onEffectiveRangeModified w).panel.VolumePropertyNodeWidgetSignalsBlocked =
        w.panel.VolumePropertyNodeWidgetSignalsBlocked ∧
      (onEffectiveRangeModified w).panel.ChartsExtentChangedSignals =
        w.panel.ChartsExtentChangedSignals ∧
      ((onEffectiveRangeModified w).nodes = w.nodes ∨
        ∃ vp data, w.nodes vp = Node.volumeProperty data ∧
          (onEffectiveRangeModified w).nodes =
            Function.update w.nodes vp (Node.volumeProperty data.CalculateEffectiveRange.2))) := by
  refine ⟨?_, ?_, ?_⟩
  · intro vp data hvp hdata
    simp [onChartsExtentChanged, hvp, hdata, VolumePropertyData.SetEffectiveRange]
  · intro h
    simp [onChartsExtentChanged, h]
  · unfold onEffectiveRangeModified
    split
    · exact ⟨rfl, rfl, Or.inl rfl⟩
    · rename_i vp _
      split
      · rename_i data hdata
        split
        · dsimp only
          split
          · exact ⟨rfl, rfl, Or.inr ⟨vp, data, hdata, rfl⟩⟩
          · exact ⟨rfl, rfl, Or.inr ⟨vp, data, hdata, rfl⟩⟩
        · exact ⟨rfl, rfl, Or.inl rfl⟩
      · exact ⟨rfl, rfl, Or.inl rfl⟩

/-- C13 on the example scene: the chart extent [10, 90] is written to node 3, whose
modified event is enabled before and after, without any event being invoked. -/
theorem range_sync_without_reflection_witness :
    (onChartsExtentChanged exampleRange).nodes 3 =
      Node.volumeProperty { EffectiveRange := (10, 90), CalculatedRange := some (0, 255) } := by
  rw [(range_sync_without_reflection exampleRange).1 3
    { EffectiveRange := (0, -1), CalculatedRange := some (0, 255) } rfl (by simp [exampleRange])]
  simp [World.withNode, exampleRange, chartsExtent]

/-! ### The memory-size entries and the assertion of `onCurrentMemorySizeChanged` -/

theorem setupMemorySizeComboBox_items (d : Int) :
    (setupMemorySizeComboBox {} d).items = memorySizeItems d ∧
      (setupMemorySizeComboBox {} d).currentIndex = 0 :=
  ⟨rfl, rfl⟩

/-- C20, at the failing input: after `setupUi` the entries at index 12 ("12 GB") and
13 ("16 GB") carry 12288 and 16384, for which the condition of the assertion of
line 608 is false; every other entry, the separator included, passes it. -/
theorem memory_size_assertion_fails :
    (setupUi exampleFresh).map (fun w =>
        (w.panel.MemorySizeComboBox.itemData 12, w.panel.MemorySizeComboBox.itemData 13)) =
      some (some (some 12288), some (some 16384)) ∧
    memorySizeAssertion 12288 = false ∧ memorySizeAssertion 16384 = false ∧
    (setupUi exampleFresh).map (fun w =>
        (List.range 14).filter (fun i =>
          !memorySizeAssertion ((w.panel.MemorySizeComboBox.itemData i).join.getD 0))) =
      some [12, 13] := by
  decide

/-! ### What the refresh shows -/

theorem setChartsExtentBlocked_formState (w : World) (r : ℚ × ℚ) :
    formState (setChartsExtentBlocked w r).panel = formState w.panel :=
  rfl

theorem onEffectiveRangeModified_formState (w : World) :
    formState (onEffectiveRangeModified w).panel = formState w.panel := by
  unfold onEffectiveRangeModified
  split
  · rfl
  · split
    · split
      · dsimp only
        split
        · rfl
        · rfl
      · rfl
    · rfl

theorem onCurrentMRMLVolumePropertyNodeChanged_formState (w : World) (node : Option NodeID) :
    formState (onCurrentMRMLVolumePropertyNodeChanged w node).panel = formState w.panel := by
  unfold onCurrentMRMLVolumePropertyNodeChanged
  split
  · exact (onEffectiveRangeModified_formState _).trans rfl
  · rfl

theorem setMRMLVolumePropertyNode_formState (w : World) (node : Option NodeID) :
    formState (setMRMLVolumePropertyNode w node).panel = formState w.panel := by
  unfold setMRMLVolumePropertyNode
  split
  · rfl
  · exact (onCurrentMRMLVolumePropertyNodeChanged_formState
      { w with panel.VolumePropertyNodeComboBox := node } node).trans rfl

theorem updateFromMRMLDisplayROINode_formState (w : World) :
    formState (updateFromMRMLDisplayROINode w).panel = formState w.panel := by
  unfold updateFromMRMLDisplayROINode
  split
  · rfl
  · split
    · rfl
    · rfl

theorem onCurrentMRMLROINodeChanged_formState (w : World) (node : Option NodeID) :
    formState (onCurrentMRMLROINodeChanged w node).panel = formState w.panel := by
  unfold onCurrentMRMLROINodeChanged
  split
  · rfl
  · exact (updateFromMRMLDisplayROINode_formState _).trans rfl

theorem setMRMLROINode_formState (w : World) (node : Option NodeID) :
    formState (setMRMLROINode w node).panel = formState w.panel := by
  unfold setMRMLROINode
  split
  · rfl
  · exact (onCurrentMRMLROINodeChanged_formState { w with panel.ROINodeComboBox := node } node).trans rfl

/-- The refresh is the two selector updates followed by the widget values; the
selector updates leave the frame and the form alone. -/
theorem updateFromMRMLDisplayNode_eq (w : World) :
    ∃ w2, updateFromMRMLDisplayNode w = w2.withPanel (refreshedPanel w2) ∧
      RefreshFrame w w2 ∧ formState w2.panel = formState w.panel :=
  ⟨_, rfl,
    refreshFrame_trans (setMRMLVolumePropertyNode_frame w _) (setMRMLROINode_frame _ _),
    (setMRMLROINode_formState _ _).trans (setMRMLVolumePropertyNode_formState _ _)⟩

theorem findData_eq_neg_one_iff {α : Type} [DecidableEq α] (c : ComboBox α) (v : α) :
    c.findData v = -1 ↔ ∀ it ∈ c.items, it.2 ≠ v := by
  unfold ComboBox.findData
  constructor
  · intro h
    split at h
    · omega
    · rename_i hlt
      have hle : c.items.findIdx (fun it => decide (it.2 = v)) ≤ c.items.length :=
        List.findIdx_le_length _
      have heq : c.items.findIdx (fun it => decide (it.2 = v)) = c.items.length := by omega
      rw [List.findIdx_eq_length] at heq
      intro it hit
      simpa using heq it hit
  · intro h
    have heq : c.items.findIdx (fun it => decide (it.2 = v)) = c.items.length := by
      rw [List.findIdx_eq_length]
      intro it hit
      simpa using h it hit
    simp [heq]

theorem itemData_findData {α : Type} [DecidableEq α] (c : ComboBox α) (v : α)
    (h : c.findData v ≠ -1) : c.itemData (c.findData v) = some v := by
  unfold ComboBox.findData at h ⊢
  split
  · rename_i hlt
    have hv := List.findIdx_getElem (w := hlt)
    have hneg : ¬ (((c.items.findIdx (fun it => decide (it.2 = v)) : Nat) : Int) < 0) := by omega
    simp only [ComboBox.itemData, hneg, if_false, Int.toNat_ofNat, List.get?_eq_getElem?,
      List.getElem?_eq_getElem hlt, Option.map_some']
    simpa using hv
  · rename_i hlt
    simp [hlt] at h

theorem renderDisplay_of_skeleton (x : Node) (c : String) (a : DisplayAttrs)
    (h : x.skeleton = (Node.renderDisplay c a).skeleton) :
    ∃ a2, x = Node.renderDisplay c a2 ∧ a2.Visibility = a.Visibility ∧
      a2.CroppingEnabled = a.CroppingEnabled ∧ a2.GPUMemorySize = a.GPUMemorySize ∧
      a2.PerformanceControl = a.PerformanceControl ∧ a2.ExpectedFPS = a.ExpectedFPS ∧
      a2.FollowVolumeDisplayNode = a.FollowVolumeDisplayNode ∧
      a2.IgnoreVolumeDisplayNodeThreshold = a.IgnoreVolumeDisplayNodeThreshold := by
  cases x with
  | renderDisplay c2 a2 =>
    simp only [Node.skeleton, Node.renderDisplay.injEq, DisplayAttrs.mk.injEq] at h
    obtain ⟨hc, h1, h2, h3, h4, h5, h6, h7, _⟩ := h
    subst hc
    exact ⟨a2, rfl, h1, h2, h3, h4, h5, h6, h7⟩
  | _ => simp [Node.skeleton] at h

/-! ### The refresh with the signals delivered -/

theorem deliverModified_unselected (refresh : World → Except Fault World) (before after : World)
    (h : after.panel.DisplayNode = none) :
    deliverModified refresh before after = Except.ok after := by
  unfold deliverModified
  rw [h]

theorem VisibilityCheckBox_setChecked_unselected (refresh : World → Except Fault World)
    (w : World) (checked : Bool) (h : w.panel.DisplayNode = none) :
    VisibilityCheckBox_setChecked refresh w checked =
      Except.ok { w with panel.VisibilityCheckBox := checked } := by
  unfold VisibilityCheckBox_setChecked
  split
  · rename_i heq
    subst heq
    rfl
  · dsimp only
    rw [deliverModified_unselected]
    · simp [onVisibilityChanged, h]
    · simp [onVisibilityChanged, h]

theorem ROICropCheckBox_setChecked_unselected (refresh : World → Except Fault World)
    (w : World) (checked : Bool) (h : w.panel.DisplayNode = none) :
    ROICropCheckBox_setChecked refresh w checked =
      Except.ok { w with panel.ROICropCheckBox := checked } := by
  unfold ROICropCheckBox_setChecked
  split
  · rename_i heq
    subst heq
    rfl
  · dsimp only
    rw [deliverModified_unselected]
    · simp [onCropToggled, h]
    · simp [onCropToggled, h]

theorem RenderingMethodComboBox_setCurrentIndex_unselected (refresh : World → Except Fault World)
    (w : World) (index : Int) (h : w.panel.DisplayNode = none) :
    RenderingMethodComboBox_setCurrentIndex refresh w index =
      Except.ok { w with panel.RenderingMethodComboBox := w.panel.RenderingMethodComboBox.setCurrentIndex index } := by
  unfold RenderingMethodComboBox_setCurrentIndex
  split
  · rename_i heq
    subst heq
    rfl
  · simp [onCurrentRenderingMethodChangedWithSignals, h]

theorem setMRMLVolumePropertyNodeWithSignals_unselected (refresh : World → Except Fault World)
    (w : World) (node : Option NodeID) (h : w.panel.DisplayNode = none) :
    setMRMLVolumePropertyNodeWithSignals refresh w node = Except.ok (setMRMLVolumePropertyNode w node) := by
  unfold setMRMLVolumePropertyNodeWithSignals setMRMLVolumePropertyNode
  split
  · rfl
  · simp [onCurrentMRMLVolumePropertyNodeChangedWithSignals, onCurrentMRMLVolumePropertyNodeChanged, h]

theorem setMRMLROINodeWithSignals_unselected (refresh : World → Except Fault World)
    (w : World) (node : Option NodeID) (h : w.panel.DisplayNode = none) :
    setMRMLROINodeWithSignals refresh w node = Except.ok (setMRMLROINode w node) := by
  unfold setMRMLROINodeWithSignals setMRMLROINode
  split
  · rfl
  · simp [onCurrentMRMLROINodeChangedWithSignals, onCurrentMRMLROINodeChanged, h]

theorem MemorySizeComboBox_setCurrentIndex_unselected (refresh : World → Except Fault World)
    (w : World) (index : Int) (h : w.panel.DisplayNode = none) :
    MemorySizeComboBox_setCurrentIndex refresh w index =
      Except.ok { w with panel.MemorySizeComboBox := w.panel.MemorySizeComboBox.setCurrentIndex index } := by
  unfold MemorySizeComboBox_setCurrentIndex
  split
  · rename_i heq
    subst heq
    rfl
  · dsimp only
    rw [deliverModified_unselected]
    · simp [onCurrentMemorySizeChanged, h]
    · simp [onCurrentMemorySizeChanged, h]

theorem QualityControlComboBox_setCurrentIndex_unselected (refresh : World → Except Fault World)
    (w : World) (index : Int) (h : w.panel.DisplayNode = none)
    (hsel : w.panel.DisplayNodeComboBox = none) :
    QualityControlComboBox_setCurrentIndex refresh w index =
      Except.ok { w with panel.QualityControlComboBox := index } := by
  unfold QualityControlComboBox_setCurrentIndex
  split
  · rename_i heq
    subst heq
    rfl
  · dsimp only
    rw [deliverModified_unselected]
    · simp [onCurrentQualityControlChanged, World.mrmlDisplayNode, SafeDownCast, hsel]
    · simp [onCurrentQualityControlChanged, World.mrmlDisplayNode, SafeDownCast, hsel, h]

theorem SynchronizeScalarDisplayNodeButton_setChecked_unselected
    (refresh : World → Except Fault World) (w : World) (checked : Bool)
    (h : w.panel.DisplayNode = none) :
    SynchronizeScalarDisplayNodeButton_setChecked refresh w checked =
      Except.ok { w with panel.SynchronizeScalarDisplayNodeButton := checked } := by
  unfold SynchronizeScalarDisplayNodeButton_setChecked
  split
  · rename_i heq
    subst heq
    rfl
  · dsimp only
    rw [deliverModified_unselected]
    · simp [setFollowVolumeDisplayNode, h]
    · simp [setFollowVolumeDisplayNode, h]

theorem IgnoreVolumesThresholdCheckBox_setChecked_unselected
    (refresh : World → Except Fault World) (w : World) (checked : Bool)
    (h : w.panel.DisplayNode = none) :
    IgnoreVolumesThresholdCheckBox_setChecked refresh w checked =
      if w.panel.IgnoreVolumesThresholdCheckBox = checked then Except.ok w
      else Except.error Fault.nullDereference := by
  unfold IgnoreVolumesThresholdCheckBox_setChecked
  split
  · rfl
  · simp [setIgnoreVolumesThreshold, h]

theorem setChartsExtentBlocked_ignoreBox (w : World) (r : ℚ × ℚ) :
    (setChartsExtentBlocked w r).panel.IgnoreVolumesThresholdCheckBox = w.panel.IgnoreVolumesThresholdCheckBox :=
  rfl

theorem onEffectiveRangeModified_ignoreBox (w : World) :
    (onEffectiveRangeModified w).panel.IgnoreVolumesThresholdCheckBox = w.panel.IgnoreVolumesThresholdCheckBox := by
  unfold onEffectiveRangeModified
  split
  · rfl
  · split
    · split
      · dsimp only
        split
        · rfl
        · rfl
      · rfl
    · rfl

theorem onCurrentMRMLVolumePropertyNodeChanged_ignoreBox (w : World) (node : Option NodeID) :
    (onCurrentMRMLVolumePropertyNodeChanged w node).panel.IgnoreVolumesThresholdCheckBox = w.panel.IgnoreVolumesThresholdCheckBox := by
  unfold onCurrentMRMLVolumePropertyNodeChanged
  split
  · exact (onEffectiveRangeModified_ignoreBox _).trans rfl
  · rfl

theorem setMRMLVolumePropertyNode_ignoreBox (w : World) (node : Option NodeID) :
    (setMRMLVolumePropertyNode w node).panel.IgnoreVolumesThresholdCheckBox = w.panel.IgnoreVolumesThresholdCheckBox := by
  unfold setMRMLVolumePropertyNode
  split
  · rfl
  · exact (onCurrentMRMLVolumePropertyNodeChanged_ignoreBox
      { w with panel.VolumePropertyNodeComboBox := node } node).trans rfl

theorem updateFromMRMLDisplayROINode_ignoreBox (w : World) :
    (updateFromMRMLDisplayROINode w).panel.IgnoreVolumesThresholdCheckBox = w.panel.IgnoreVolumesThresholdCheckBox := by
  unfold updateFromMRMLDisplayROINode
  split
  · rfl
  · split
    · rfl
    · rfl

theorem onCurrentMRMLROINodeChanged_ignoreBox (w : World) (node : Option NodeID) :
    (onCurrentMRMLROINodeChanged w node).panel.IgnoreVolumesThresholdCheckBox = w.panel.IgnoreVolumesThresholdCheckBox := by
  unfold onCurrentMRMLROINodeChanged
  split
  · rfl
  · exact (updateFromMRMLDisplayROINode_ignoreBox _).trans rfl

theorem setMRMLROINode_ignoreBox (w : World) (node : Option NodeID) :
    (setMRMLROINode w node).panel.IgnoreVolumesThresholdCheckBox = w.panel.IgnoreVolumesThresholdCheckBox := by
  unfold setMRMLROINode
  split
  · rfl
  · exact (onCurrentMRMLROINodeChanged_ignoreBox { w with panel.ROINodeComboBox := node } node).trans rfl

theorem writeValueWidgets_unselected (refresh : World → Except Fault World) (w : World)
    (hd : w.panel.DisplayNode = none) (hsel : w.panel.DisplayNodeComboBox = none) :
    writeValueWidgets refresh w =
      if w.panel.IgnoreVolumesThresholdCheckBox = false then
        Except.ok (w.withPanel (refreshedPanel w))
      else Except.error Fault.nullDereference := by
  have ha : w.displayNodeAttrs = none := by simp [World.displayNodeAttrs, hd]
  unfold writeValueWidgets
  simp only [bind, Except.bind, pure, Except.pure, World.displayNodeAttrs, Option.none_bind, hd,
    hsel, VisibilityCheckBox_setChecked_unselected, ROICropCheckBox_setChecked_unselected,
    RenderingMethodComboBox_setCurrentIndex_unselected,
    MemorySizeComboBox_setCurrentIndex_unselected,
    QualityControlComboBox_setCurrentIndex_unselected,
    SynchronizeScalarDisplayNodeButton_setChecked_unselected,
    IgnoreVolumesThresholdCheckBox_setChecked_unselected, Bool.false_eq_true, if_false]
  by_cases hb : w.panel.IgnoreVolumesThresholdCheckBox = false
  · simp only [hb, if_true]
    simp [showRenderingMethodWidget, currentVolumeMapper, World.withPanel, refreshedPanel,
      World.displayNodeAttrs, hd, hsel, hb]
  · have hb1 : w.panel.IgnoreVolumesThresholdCheckBox = true := by
      cases h : w.panel.IgnoreVolumesThresholdCheckBox
      · exact absurd h hb
      · rfl
    simp only [hb1, Bool.true_eq_false, if_false]

theorem updateFromMRMLDisplayNodeWithSignals_unselected (fuel : Nat) (w : World)
    (hd : w.panel.DisplayNode = none) (hsel : w.panel.DisplayNodeComboBox = none) :
    updateFromMRMLDisplayNodeWithSignals (fuel + 1) w =
      if w.panel.IgnoreVolumesThresholdCheckBox = false then
        Except.ok (updateFromMRMLDisplayNode w)
      else Except.error Fault.nullDereference := by
  obtain ⟨-, -, -, -, -, -, -, d1, s1, -, -⟩ := setMRMLVolumePropertyNode_frame w none
  obtain ⟨-, -, -, -, -, -, -, d2, s2, -, -⟩ :=
    setMRMLROINode_frame (setMRMLVolumePropertyNode w none) none
  have hd1 : (setMRMLVolumePropertyNode w none).panel.DisplayNode = none := d1.trans hd
  have hd2 : (setMRMLROINode (setMRMLVolumePropertyNode w none) none).panel.DisplayNode = none :=
    d2.trans hd1
  have hs2 : (setMRMLROINode (setMRMLVolumePropertyNode w none) none).panel.DisplayNodeComboBox = none :=
    s2.trans (s1.trans hsel)
  have hb2 : (setMRMLROINode (setMRMLVolumePropertyNode w none) none).panel.IgnoreVolumesThresholdCheckBox =
      w.panel.IgnoreVolumesThresholdCheckBox :=
    (setMRMLROINode_ignoreBox _ _).trans (setMRMLVolumePropertyNode_ignoreBox _ _)
  unfold updateFromMRMLDisplayNodeWithSignals updateFromMRMLDisplayNode
  simp only [hd, hd1, bind, Except.bind, setMRMLVolumePropertyNodeWithSignals_unselected _ _ _ hd,
    setMRMLROINodeWithSignals_unselected _ _ _ hd1, writeValueWidgets_unselected _ _ hd2 hs2, hb2]


theorem addDisplayNodeReference_none (w : World) : addDisplayNodeReference w none = some w := by
  unfold addDisplayNodeReference
  split
  · rename_i h
    cases h
  · rfl

theorem onCurrentMRMLDisplayNodeChangedWithSignals_none (fuel : Nat) (w : World)
    (hsel : w.panel.DisplayNodeComboBox = none) :
    onCurrentMRMLDisplayNodeChangedWithSignals (updateFromMRMLDisplayNodeWithSignals (fuel + 1)) w none =
      if w.panel.IgnoreVolumesThresholdCheckBox = false then Except.ok (bindDisplayNode w none)
      else Except.error Fault.nullDereference := by
  have hn : SafeDownCast Node.isVolumeRenderingDisplayNode w.nodes none = none := rfl
  have hr := updateFromMRMLDisplayNodeWithSignals_unselected fuel (observeDisplayNode w none) rfl hsel
  have hb2 : (observeDisplayNode w none).panel.IgnoreVolumesThresholdCheckBox =
      w.panel.IgnoreVolumesThresholdCheckBox := rfl
  rw [hb2] at hr
  unfold onCurrentMRMLDisplayNodeChangedWithSignals
  by_cases hb : w.panel.IgnoreVolumesThresholdCheckBox = false
  · rw [if_pos hb] at hr ⊢
    simp only [hn, addDisplayNodeReference_none, hr]
    rfl
  · rw [if_neg hb] at hr ⊢
    simp only [hn, addDisplayNodeReference_none, hr]

theorem setMRMLDisplayNodeWithSignals_none (fuel : Nat) (w : World)
    (hsel : w.panel.DisplayNodeComboBox ≠ none) :
    setMRMLDisplayNodeWithSignals (updateFromMRMLDisplayNodeWithSignals (fuel + 1)) w none =
      if w.panel.IgnoreVolumesThresholdCheckBox = false then
        Except.ok (bindDisplayNode { w with panel.DisplayNodeComboBox := none } none)
      else Except.error Fault.nullDereference := by
  unfold setMRMLDisplayNodeWithSignals
  rw [if_neg hsel]
  exact onCurrentMRMLDisplayNodeChangedWithSignals_none fuel _ rfl

theorem onCurrentMRMLVolumeNodeChangedWithSignals_closing (w : World) (fuel : Nat)
    (node : Option NodeID) (sc : Scene) (L : Logic)
    (hs : w.scene = some sc) (hc : sc.IsClosing = true) (hl : w.logic = some L)
    (hv : ∀ v, SafeDownCast Node.isScalarVolumeNode w.nodes node = some v →
      GetFirstVolumeRenderingDisplayNode w.nodes v = none)
    (hsel : w.panel.DisplayNodeComboBox ≠ none)
    (hb : w.panel.IgnoreVolumesThresholdCheckBox = true) :
    onCurrentMRMLVolumeNodeChangedWithSignals (fuel + 1) w node =
      Except.error Fault.nullDereference := by
  have hset := setMRMLDisplayNodeWithSignals_none fuel w hsel
  rw [hb] at hset
  simp only [Bool.true_eq_false, if_false] at hset
  unfold onCurrentMRMLVolumeNodeChangedWithSignals
  cases hV : SafeDownCast Node.isScalarVolumeNode w.nodes node with
  | none => simp only [hset]
  | some V =>
    have hch : chooseDisplayNodeWithSignals (updateFromMRMLDisplayNodeWithSignals (fuel + 1)) w sc V =
        Except.ok (none, w) := by
      simp [chooseDisplayNodeWithSignals, hc, hv V hV]
    simp only [hl, hs, hch, hset]


theorem updateFromMRMLDisplayNode_unselected_nodes (w : World) (hd : w.panel.DisplayNode = none) :
    (updateFromMRMLDisplayNode w).nodes = w.nodes := by
  have h1 : (setMRMLVolumePropertyNode w none).nodes = w.nodes := by
    unfold setMRMLVolumePropertyNode
    split
    · rfl
    · simp [onCurrentMRMLVolumePropertyNodeChanged, hd]
  have hd1 : (setMRMLVolumePropertyNode w none).panel.DisplayNode = none :=
    ((setMRMLVolumePropertyNode_frame w none).2.2.2.2.2.2.2.1).trans hd
  have h2 : (setMRMLROINode (setMRMLVolumePropertyNode w none) none).nodes =
      (setMRMLVolumePropertyNode w none).nodes := by
    unfold setMRMLROINode
    split
    · rfl
    · simp [onCurrentMRMLROINodeChanged, hd1]
  unfold updateFromMRMLDisplayNode
  simp only [hd, hd1]
  exact h2.trans h1

theorem bindDisplayNode_none_frame (w : World) :
    (bindDisplayNode w none).scene = w.scene ∧ (bindDisplayNode w none).nextID = w.nextID ∧
      (bindDisplayNode w none).ModifiedCalls = w.ModifiedCalls ∧
      (bindDisplayNode w none).nodes = w.nodes ∧
      (bindDisplayNode w none).panel.DisplayNode = none ∧
      (bindDisplayNode w none).panel.DisplayNodeComboBox = w.panel.DisplayNodeComboBox := by
  obtain ⟨a1, -, a3, a4, -, -, -, a8, a9, -, -⟩ :=
    updateFromMRMLDisplayNode_frame (observeDisplayNode w none)
  exact ⟨a1, a3, a4, updateFromMRMLDisplayNode_unselected_nodes (observeDisplayNode w none) rfl,
    a8, a9⟩

theorem onCurrentMRMLVolumeNodeChangedWithSignals_closing_unchecked (w : World) (fuel : Nat)
    (node : Option NodeID) (sc : Scene) (L : Logic)
    (hs : w.scene = some sc) (hc : sc.IsClosing = true) (hl : w.logic = some L)
    (hv : ∀ v, SafeDownCast Node.isScalarVolumeNode w.nodes node = some v →
      GetFirstVolumeRenderingDisplayNode w.nodes v = none)
    (hsel : w.panel.DisplayNodeComboBox ≠ none)
    (hb : w.panel.IgnoreVolumesThresholdCheckBox = false) :
    ∃ w', onCurrentMRMLVolumeNodeChangedWithSignals (fuel + 1) w node = Except.ok w' ∧
      w'.scene = w.scene ∧ w'.nextID = w.nextID ∧ w'.ModifiedCalls = w.ModifiedCalls ∧
      w'.nodes = w.nodes ∧ w'.panel.DisplayNode = none ∧ w'.panel.DisplayNodeComboBox = none := by
  have hset := setMRMLDisplayNodeWithSignals_none fuel w hsel
  rw [if_pos hb] at hset
  obtain ⟨b1, b2, b3, b4, b5, b6⟩ :=
    bindDisplayNode_none_frame { w with panel.DisplayNodeComboBox := none }
  unfold onCurrentMRMLVolumeNodeChangedWithSignals
  cases hV : SafeDownCast Node.isScalarVolumeNode w.nodes node with
  | none =>
    simp only [hset]
    exact ⟨_, rfl, b1, b2, b3, b4, b5, b6⟩
  | some V =>
    have hch : chooseDisplayNodeWithSignals (updateFromMRMLDisplayNodeWithSignals (fuel + 1)) w sc V =
        Except.ok (none, w) := by
      simp [chooseDisplayNodeWithSignals, hc, hv V hV]
    simp only [hl, hs, hch, hset]
    refine ⟨_, rfl, ?_, ?_, ?_, ?_, ?_, ?_⟩
    · exact (bindDisplayNode_none_frame _).1
    · exact (bindDisplayNode_none_frame _).2.1
    · exact (bindDisplayNode_none_frame _).2.2.1
    · exact (bindDisplayNode_none_frame _).2.2.2.1
    · exact (bindDisplayNode_none_frame _).2.2.2.2.1
    · exact (bindDisplayNode_none_frame _).2.2.2.2.2


/-! ### The properties widget of the rendering method -/

theorem lookup_RenderingMethodWidgets_assign (m : List (String × Option Nat)) (key : String)
    (v : Option Nat) : (RenderingMethodWidgets_assign m key v).lookup key = some v := by
  induction m with
  | nil => simp [RenderingMethodWidgets_assign, List.lookup]
  | cons x rest ih =>
    obtain ⟨k, u⟩ := x
    unfold RenderingMethodWidgets_assign
    split
    · rename_i hk
      simp [List.lookup, hk]
    · rename_i hk
      have hne : (key == k) = false := by
        simp only [beq_eq_false_iff_ne, ne_eq]
        exact fun h => hk h.symm
      simp only [List.lookup, hne]
      exact ih

theorem mem_RenderingMethodWidgets_assign (m : List (String × Option Nat)) (key : String)
    (v : Option Nat) (k : String) (u : Option Nat)
    (h : (k, u) ∈ RenderingMethodWidgets_assign m key v) : (k, u) ∈ m ∨ u = v := by
  induction m with
  | nil =>
    simp only [RenderingMethodWidgets_assign, List.mem_singleton, Prod.mk.injEq] at h
    exact Or.inr h.2
  | cons x rest ih =>
    obtain ⟨k2, u2⟩ := x
    unfold RenderingMethodWidgets_assign at h
    split at h
    · rcases List.mem_cons.1 h with h1 | h1
      · simp only [Prod.mk.injEq] at h1
        exact Or.inr h1.2
      · exact Or.inl (List.mem_cons_of_mem _ h1)
    · rcases List.mem_cons.1 h with h1 | h1
      · exact Or.inl (by rw [h1]; exact List.mem_cons_self _ _)
      · rcases ih h1 with h2 | h2
        · exact Or.inl (List.mem_cons_of_mem _ h2)
        · exact Or.inr h2

theorem addRenderingMethodWidget_panel (w : World) (name : String) :
    (addRenderingMethodWidget w name).panel.RenderingMethodWidgets =
        RenderingMethodWidgets_assign w.panel.RenderingMethodWidgets name
          (some w.panel.RenderingMethodStackedWidgetCount) ∧
      (addRenderingMethodWidget w name).panel.RenderingMethodStackedWidgetCount =
        w.panel.RenderingMethodStackedWidgetCount + 1 :=
  ⟨rfl, rfl⟩

theorem addRenderingMethodWidget_registered (w : World) (name : String)
    (h : PagesRegistered w.panel) :
    PagesRegistered (addRenderingMethodWidget w name).panel := by
  obtain ⟨h1, h2⟩ := h
  obtain ⟨e1, e2⟩ := addRenderingMethodWidget_panel w name
  refine ⟨by rw [e2]; omega, ?_⟩
  intro key page hmem
  rw [e1] at hmem
  rw [e2]
  rcases mem_RenderingMethodWidgets_assign _ _ _ _ _ hmem with hm | hm
  · have := h2 key page hm
    omega
  · simp only [Option.some.injEq] at hm
    omega

theorem setupUi_panel (w w' : World) (h : setupUi w = some w') :
    w'.panel.RenderingMethodWidgets =
        RenderingMethodWidgets_assign
          (RenderingMethodWidgets_assign w.panel.RenderingMethodWidgets
            "vtkMRMLCPURayCastVolumeRenderingDisplayNode"
            (some (w.panel.RenderingMethodStackedWidgetCount + 1)))
          "vtkMRMLGPURayCastVolumeRenderingDisplayNode"
          (some (w.panel.RenderingMethodStackedWidgetCount + 2)) ∧
      w'.panel.RenderingMethodStackedWidgetCount = w.panel.RenderingMethodStackedWidgetCount + 3 ∧
      w'.panel.DisplayNode = w.panel.DisplayNode ∧ w'.nodes = w.nodes ∧
      w'.RenderingMethodSetting = w.RenderingMethodSetting := by
  unfold setupUi at h
  cases hl : w.logic with
  | none => rw [hl] at h; cases h
  | some L =>
    rw [hl] at h
    have h2 := (Option.some.inj h).symm
    rw [h2]
    exact ⟨rfl, rfl, rfl, rfl, rfl⟩

theorem setupUi_isSome (w : World) (L : Logic) (hl : w.logic = some L) :
    ∃ w', setupUi w = some w' := by
  unfold setupUi
  rw [hl]
  exact ⟨_, rfl⟩

theorem RenderingMethodWidgets_index_fst (m : List (String × Option Nat)) (key : String) :
    (RenderingMethodWidgets_index m key).1 = (m.lookup key).join := by
  unfold RenderingMethodWidgets_index
  split
  · rename_i v hv
    rw [hv]; rfl
  · rename_i hv
    rw [hv]; rfl

theorem mem_RenderingMethodWidgets_index (m : List (String × Option Nat)) (key : String)
    (k : String) (page : Nat) (h : (k, some page) ∈ (RenderingMethodWidgets_index m key).2) :
    (k, some page) ∈ m := by
  unfold RenderingMethodWidgets_index at h
  split at h
  · exact h
  · simpa using h

theorem refreshedPanel_page (w : World) :
    (refreshedPanel w).RenderingMethodStackedWidget =
        (match (w.panel.RenderingMethodWidgets.lookup (currentVolumeMapper w)).join with
          | some page => (page : Int)
          | none => 0) ∧
      (refreshedPanel w).RenderingMethodWidgets =
        (RenderingMethodWidgets_index w.panel.RenderingMethodWidgets (currentVolumeMapper w)).2 ∧
      (refreshedPanel w).RenderingMethodStackedWidgetCount =
        w.panel.RenderingMethodStackedWidgetCount := by
  refine ⟨?_, rfl, rfl⟩
  rw [← RenderingMethodWidgets_index_fst]
  rfl

theorem currentVolumeMapper_frame (w w2 : World) (h : RefreshFrame w w2) :
    currentVolumeMapper w2 = currentVolumeMapper w := by
  obtain ⟨_, _, _, _, _, h6, _, h8, _, _, h11⟩ := h
  unfold currentVolumeMapper
  rw [h8, h6]
  cases w.panel.DisplayNode with
  | none => rfl
  | some d => exact GetClassName_of_classOnly (classOnly_of_skeleton (h11 d))

/-! ### The refresh chain: the log of the steps -/

theorem setChartsExtentBlocked_steps (w : World) (r : ℚ × ℚ) :
    (setChartsExtentBlocked w r).steps = w.steps :=
  rfl

theorem onEffectiveRangeModified_steps (w : World) :
    (onEffectiveRangeModified w).steps = w.steps := by
  unfold onEffectiveRangeModified
  split
  · rfl
  · split
    · split
      · dsimp only
        split
        · rfl
        · rfl
      · rfl
    · rfl

theorem onCurrentMRMLVolumePropertyNodeChanged_steps (w : World) (node : Option NodeID) :
    (onCurrentMRMLVolumePropertyNodeChanged w node).steps = w.steps := by
  unfold onCurrentMRMLVolumePropertyNodeChanged
  split
  · exact (onEffectiveRangeModified_steps _).trans rfl
  · rfl

theorem setMRMLVolumePropertyNode_steps (w : World) (node : Option NodeID) :
    (setMRMLVolumePropertyNode w node).steps = w.steps := by
  unfold setMRMLVolumePropertyNode
  split
  · rfl
  · exact (onCurrentMRMLVolumePropertyNodeChanged_steps
      { w with panel.VolumePropertyNodeComboBox := node } node).trans rfl

theorem updateFromMRMLDisplayROINode_steps (w : World) :
    (updateFromMRMLDisplayROINode w).steps = w.steps := by
  unfold updateFromMRMLDisplayROINode
  split
  · rfl
  · split
    · rfl
    · rfl

theorem onCurrentMRMLROINodeChanged_steps (w : World) (node : Option NodeID) :
    (onCurrentMRMLROINodeChanged w node).steps = w.steps := by
  unfold onCurrentMRMLROINodeChanged
  split
  · rfl
  · exact (updateFromMRMLDisplayROINode_steps _).trans rfl

theorem setMRMLROINode_steps (w : World) (node : Option NodeID) :
    (setMRMLROINode w node).steps = w.steps := by
  unfold setMRMLROINode
  split
  · rfl
  · exact (onCurrentMRMLROINodeChanged_steps { w with panel.ROINodeComboBox := node } node).trans rfl

theorem updateFromMRMLDisplayNode_steps (w : World) :
    (updateFromMRMLDisplayNode w).steps = w.steps :=
  (setMRMLROINode_steps _ _).trans (setMRMLVolumePropertyNode_steps _ _)

theorem addDisplayNodeReference_steps (w w1 : World) (dn : Option NodeID)
    (h : addDisplayNodeReference w dn = some w1) : w1.steps = w.steps := by
  unfold addDisplayNodeReference at h
  split at h
  · split at h
    · cases h
    · split at h
      · cases h; rfl
      · cases h; rfl
  · cases h; rfl

theorem setMRMLDisplayNode_steps (w w' : World) (dn : Option NodeID)
    (h : setMRMLDisplayNode w dn = some w') (hne : w.panel.DisplayNodeComboBox ≠ dn) :
    w'.steps =
      w.steps ++ [Step.DisplayNode (SafeDownCast Node.isVolumeRenderingDisplayNode w.nodes dn)] := by
  unfold setMRMLDisplayNode at h
  rw [if_neg hne] at h
  unfold onCurrentMRMLDisplayNodeChanged at h
  dsimp only at h
  split at h
  · cases h
  · rename_i w1 href
    cases h
    have h1 := addDisplayNodeReference_steps _ w1 _ href
    show (updateFromMRMLDisplayNode (observeDisplayNode w1 _)).steps = _
    rw [updateFromMRMLDisplayNode_steps]
    show w1.steps ++ _ = _
    rw [h1]

/-! ### The refresh with the signals delivered and a display node selected -/

theorem kept_refl (w : World) : Kept w w :=
  ⟨rfl, rfl, rfl, rfl, rfl, rfl, rfl, rfl, rfl, fun _ => rfl, rfl, rfl, fun _ => rfl,
    fun _ _ h => h, rfl⟩

theorem kept_trans {a b c : World} (h1 : Kept a b) (h2 : Kept b c) : Kept a c :=
  ⟨h2.scene.trans h1.scene, h2.logic.trans h1.logic, h2.nextID.trans h1.nextID,
    h2.ModifiedCalls.trans h1.ModifiedCalls, h2.emitted.trans h1.emitted,
    h2.steps.trans h1.steps, h2.RenderingMethodSetting.trans h1.RenderingMethodSetting,
    h2.Adaptative.trans h1.Adaptative, h2.VolumeNodeComboBox.trans h1.VolumeNodeComboBox,
    fun n => (h2.classOnly n).trans (h1.classOnly n), h2.memoryItems.trans h1.memoryItems,
    h2.methodItems.trans h1.methodItems, fun k => (h2.pages k).trans (h1.pages k),
    fun k p h => h1.registered k p (h2.registered k p h), h2.pageCount.trans h1.pageCount⟩

theorem SafeDownCast_classOnly (isT : Node → Bool) (nodes nodes' : Nodes) (p : Option NodeID)
    (h : ∀ n, isT (nodes' n) = isT (nodes n)) :
    SafeDownCast isT nodes' p = SafeDownCast isT nodes p := by
  cases p with
  | none => rfl
  | some i => simp [SafeDownCast, Option.filter, h i]

theorem SafeDownCast_idem (isT : Node → Bool) (nodes : Nodes) (p : Option NodeID) :
    SafeDownCast isT nodes (SafeDownCast isT nodes p) = SafeDownCast isT nodes p := by
  cases p with
  | none => rfl
  | some i =>
    by_cases h : isT (nodes i) = true
    · simp [SafeDownCast, Option.filter, h]
    · simp [SafeDownCast, Option.filter, h]

theorem modifyDisplay_nodes_selected (w : World) (d : NodeID) (c : String) (a : DisplayAttrs)
    (f : DisplayAttrs → DisplayAttrs) (h : w.nodes d = Node.renderDisplay c a) :
    (w.modifyDisplay d f).nodes d = Node.renderDisplay c (f a) := by
  simp [World.modifyDisplay, h, Node.mapDisplayAttrs]

theorem modifyDisplay_eq_self (w : World) (d : NodeID) (c : String) (a : DisplayAttrs)
    (f : DisplayAttrs → DisplayAttrs) (h : w.nodes d = Node.renderDisplay c a) (hf : f a = a) :
    w.modifyDisplay d f = w := by
  have hn : Function.update w.nodes d ((w.nodes d).mapDisplayAttrs f) = w.nodes := by
    rw [h]
    simp only [Node.mapDisplayAttrs, hf]
    rw [← h]
    exact Function.update_eq_self d w.nodes
  unfold World.modifyDisplay
  rw [hn]

theorem modifyDisplay_classOnly (w : World) (d : NodeID) (f : DisplayAttrs → DisplayAttrs)
    (n : NodeID) : ((w.modifyDisplay d f).nodes n).classOnly = (w.nodes n).classOnly := by
  unfold World.modifyDisplay
  by_cases hn : n = d
  · subst hn
    simp only [Function.update_same]
    cases w.nodes n <;> rfl
  · simp only [Function.update_noteq hn]

theorem modifyDisplay_kept (w : World) (d : NodeID) (f : DisplayAttrs → DisplayAttrs) :
    Kept w (w.modifyDisplay d f) :=
  ⟨rfl, rfl, rfl, rfl, rfl, rfl, rfl, rfl, rfl, modifyDisplay_classOnly w d f, rfl, rfl,
    fun _ => rfl, fun _ _ h => h, rfl⟩

theorem findData_items {α : Type} [DecidableEq α] (c c' : ComboBox α) (h : c'.items = c.items)
    (v : α) : c'.findData v = c.findData v := by
  unfold ComboBox.findData
  rw [h]

theorem itemData_items {α : Type} (c c' : ComboBox α) (h : c'.items = c.items) (i : Int) :
    c'.itemData i = c.itemData i := by
  unfold ComboBox.itemData
  rw [h]

theorem writtenMemorySize_items (c c' : ComboBox (Option Int)) (h : c'.items = c.items)
    (size : Int) : writtenMemorySize c' size = writtenMemorySize c size := by
  unfold writtenMemorySize
  rw [findData_items c c' h, itemData_items c c' h]

theorem writeBackCount_kept (w w' : World) (h : Kept w w') (a : DisplayAttrs) :
    writeBackCount w' a = writeBackCount w a := by
  unfold writeBackCount
  rw [SafeDownCast_classOnly Node.isAnnotationROINode w.nodes w'.nodes a.ROINodeID
      (fun n => isAnnotationROINode_of_classOnly (h.classOnly n)),
    writtenMemorySize_items _ _ h.memoryItems]

theorem showsUpTo_mono {k j : Nat} (hjk : j ≤ k) {w : World} {d : NodeID} {c : String}
    {a : DisplayAttrs} (h : ShowsUpTo k w d c a) : ShowsUpTo j w d c a :=
  fun i hi => h i (by omega)

theorem showsUpTo_succ (k : Nat) (w w1 : World) (d : NodeID) (c : String) (a : DisplayAttrs)
    (h : ShowsUpTo k w d c a)
    (hsame : ∀ i, i < k → showsAt i w d c a → showsAt i w1 d c a)
    (hnew : showsAt k w1 d c a) : ShowsUpTo (k + 1) w1 d c a := by
  intro i hi
  by_cases hik : i = k
  · subst hik
    exact hnew
  · exact hsame i (by omega) (h i (by omega))

theorem completesBelow_mono {r : World → Except Fault World} {m j : Nat} {d : NodeID} {c : String}
    (h : CompletesBelow r m d c) (hj : j ≤ m) : CompletesBelow r j d c :=
  fun w a hs hlt => h w a hs (by omega)

theorem attrsKept_refl (m : ComboBox (Option Int)) (a : DisplayAttrs) : AttrsKept m a a :=
  ⟨rfl, rfl, rfl, rfl, rfl, rfl, Or.inl rfl, Or.inl rfl, Or.inl rfl, Or.inl rfl⟩

theorem attrsKept_trans {m : ComboBox (Option Int)} {a b c : DisplayAttrs}
    (h1 : AttrsKept m a b) (h2 : AttrsKept m b c) : AttrsKept m a c := by
  obtain ⟨p1, p2, p3, p4, p5, p6, p7, p8, p9, p10⟩ := h1
  obtain ⟨q1, q2, q3, q4, q5, q6, q7, q8, q9, q10⟩ := h2
  refine ⟨q1.trans p1, q2.trans p2, q3.trans p3, q4.trans p4, q5.trans p5, q6.trans p6, ?_, ?_,
    ?_, ?_⟩
  · rcases q7 with q | ⟨qn, q⟩
    · rw [q]; exact p7
    · rcases p7 with p | ⟨pn, _⟩
      · rw [p] at qn; exact Or.inr ⟨qn, q⟩
      · exact Or.inr ⟨pn, q⟩
  · rcases q8 with q | ⟨qn, q⟩
    · rw [q]; exact p8
    · rcases p8 with p | ⟨pn, _⟩
      · rw [p] at qn; exact Or.inr ⟨qn, q⟩
      · exact Or.inr ⟨pn, q⟩
  · rcases q9 with q | ⟨qn, q⟩
    · rw [q]; exact p9
    · rcases p9 with p | ⟨pn, _⟩
      · rw [p] at qn; exact Or.inr ⟨qn, q⟩
      · exact Or.inr ⟨pn, q⟩
  · rcases q10 with q | q
    · rw [q]; exact p10
    · exact Or.inr q

theorem attrsKept_items (m m' : ComboBox (Option Int)) (h : m'.items = m.items)
    {a b : DisplayAttrs} (hk : AttrsKept m' a b) : AttrsKept m a b := by
  obtain ⟨p1, p2, p3, p4, p5, p6, p7, p8, p9, p10⟩ := hk
  refine ⟨p1, p2, p3, p4, p5, p6, ?_, p8, p9, p10⟩
  rcases p7 with p | ⟨pn, p⟩
  · exact Or.inl p
  · exact Or.inr ⟨(findData_items m m' h _).symm.trans pn, p⟩

theorem deliverModified_selected (r : World → Except Fault World) (m : Nat) (d : NodeID)
    (c : String) (hr : CompletesBelow r m d c) (w : World) (a : DisplayAttrs)
    (hs : Selected w d c a) (f : DisplayAttrs → DisplayAttrs) (hm : writeBackCount w a ≤ m)
    (hdec : f a ≠ a → writeBackCount w (f a) < writeBackCount w a)
    (hrel : AttrsKept w.panel.MemorySizeComboBox a (f a)) :
    (f a = a ∧ deliverModified r w (w.modifyDisplay d f) = Except.ok w) ∨
    (∃ w' a', deliverModified r w (w.modifyDisplay d f) = Except.ok w' ∧
      Refreshed w w' d c a a') := by
  obtain ⟨hd, hsel, hn⟩ := hs
  have hd' : (w.modifyDisplay d f).panel.DisplayNode = some d := hd
  have hn' := modifyDisplay_nodes_selected w d c a f hn
  by_cases hf : f a = a
  · left
    refine ⟨hf, ?_⟩
    rw [modifyDisplay_eq_self w d c a f hn hf]
    unfold deliverModified
    rw [hd]
    simp
  · right
    have hne : ¬ (w.modifyDisplay d f).nodes d = w.nodes d := by
      rw [hn', hn]
      intro heq
      exact hf (Node.renderDisplay.inj heq).2
    have hk := modifyDisplay_kept w d f
    have hc : writeBackCount (w.modifyDisplay d f) (f a) < m := by
      rw [writeBackCount_kept w _ hk]
      have := hdec hf
      omega
    obtain ⟨w', a', hok, hR⟩ := hr (w.modifyDisplay d f) (f a) ⟨hd', hsel, hn'⟩ hc
    refine ⟨w', a', ?_, ?_⟩
    · unfold deliverModified
      rw [hd']
      simp only [hne, if_false]
      exact hok
    · refine ⟨hR.selected, kept_trans hk hR.kept, ?_, hR.shows, hR.page,
        attrsKept_trans hrel hR.attrs⟩
      have h1 := hR.count
      rw [writeBackCount_kept w _ hk] at h1
      have := hdec hf
      omega

theorem kept_panel (w : World) (p : Panel)
    (h1 : p.VolumeNodeComboBox = w.panel.VolumeNodeComboBox)
    (h2 : p.MemorySizeComboBox.items = w.panel.MemorySizeComboBox.items)
    (h3 : p.RenderingMethodComboBox.items = w.panel.RenderingMethodComboBox.items)
    (h4 : p.RenderingMethodWidgets = w.panel.RenderingMethodWidgets)
    (h5 : p.RenderingMethodStackedWidgetCount = w.panel.RenderingMethodStackedWidgetCount) :
    Kept w (w.withPanel p) :=
  ⟨rfl, rfl, rfl, rfl, rfl, rfl, rfl, rfl, h1, fun _ => rfl, h2, h3,
    fun _ => by show (p.RenderingMethodWidgets.lookup _).join = _; rw [h4],
    fun _ _ h => by
      have h' : _ ∈ p.RenderingMethodWidgets := h
      rw [h4] at h'
      exact h', h5⟩

theorem refreshing_same (k : Nat) (w0 w : World) (d : NodeID) (c : String) (a0 a : DisplayAttrs)
    (h : Refreshing k w0 w d c a0 a) (hnew : showsAt k w d c a) :
    Refreshing (k + 1) w0 w d c a0 a :=
  ⟨h.selected, h.kept, h.count, showsUpTo_succ k w w d c a h.shows (fun _ _ x => x) hnew, h.attrs⟩

theorem widget_step (k : Nat) (hk : k + 1 ≤ 10) (r : World → Except Fault World) (m : Nat)
    (d : NodeID) (c : String) (hr : CompletesBelow r m d c) (w0 w w1 : World)
    (a0 a : DisplayAttrs) (hm : writeBackCount w0 a0 ≤ m) (h : Refreshing k w0 w d c a0 a)
    (hsel : Selected w1 d c a) (hkept : Kept w w1)
    (hsame : ∀ i, i < k → showsAt i w d c a → showsAt i w1 d c a)
    (hnew : showsAt k w1 d c a) (f : DisplayAttrs → DisplayAttrs)
    (hdec : f a ≠ a → writeBackCount w1 (f a) < writeBackCount w1 a)
    (hrel : AttrsKept w1.panel.MemorySizeComboBox a (f a)) :
    ∃ w' a', deliverModified r w1 (w1.modifyDisplay d f) = Except.ok w' ∧
      Refreshing (k + 1) w0 w' d c a0 a' := by
  have hc1 : writeBackCount w1 a = writeBackCount w a := writeBackCount_kept w w1 hkept a
  have hc := h.count
  rcases deliverModified_selected r m d c hr w1 a hsel f (by omega) hdec hrel with
    ⟨_, hok⟩ | ⟨w', a', hok, hR⟩
  · exact ⟨w1, a, hok, hsel, kept_trans h.kept hkept, by omega,
      showsUpTo_succ k w w1 d c a h.shows hsame hnew, h.attrs⟩
  · have := hR.count
    exact ⟨w', a', hok, hR.selected, kept_trans h.kept (kept_trans hkept hR.kept), by omega,
      showsUpTo_mono hk hR.shows,
      attrsKept_trans h.attrs (attrsKept_items _ _ (kept_trans h.kept hkept).memoryItems hR.attrs)⟩

theorem VisibilityCheckBox_setChecked_refreshing (r : World → Except Fault World) (m : Nat)
    (d : NodeID) (c : String) (hr : CompletesBelow r m d c) (w0 w : World) (a0 a : DisplayAttrs)
    (hm : writeBackCount w0 a0 ≤ m) (h : Refreshing 2 w0 w d c a0 a) :
    ∃ w' a', VisibilityCheckBox_setChecked r w a.Visibility = Except.ok w' ∧
      Refreshing 3 w0 w' d c a0 a' := by
  unfold VisibilityCheckBox_setChecked
  split
  · rename_i heq
    exact ⟨w, a, rfl, refreshing_same 2 w0 w d c a0 a h heq⟩
  · dsimp only
    have hslot : onVisibilityChanged { w with panel.VisibilityCheckBox := a.Visibility } a.Visibility =
        World.modifyDisplay { w with panel.VisibilityCheckBox := a.Visibility } d
          (fun x => { x with Visibility := a.Visibility }) := by
      simp [onVisibilityChanged, h.selected.1]
    rw [hslot]
    refine widget_step 2 (by omega) r m d c hr w0 w
      { w with panel.VisibilityCheckBox := a.Visibility } a0 a hm h
      ⟨h.selected.1, h.selected.2.1, h.selected.2.2⟩
      (kept_panel w { w.panel with VisibilityCheckBox := a.Visibility } rfl rfl rfl rfl rfl) ?_ rfl
      (fun x => { x with Visibility := a.Visibility }) (fun hf => absurd rfl hf) (attrsKept_refl _ a)
    intro i hi
    interval_cases i <;> exact id

theorem ROICropCheckBox_setChecked_refreshing (r : World → Except Fault World) (m : Nat)
    (d : NodeID) (c : String) (hr : CompletesBelow r m d c) (w0 w : World) (a0 a : DisplayAttrs)
    (hm : writeBackCount w0 a0 ≤ m) (h : Refreshing 3 w0 w d c a0 a) :
    ∃ w' a', ROICropCheckBox_setChecked r w a.CroppingEnabled = Except.ok w' ∧
      Refreshing 4 w0 w' d c a0 a' := by
  unfold ROICropCheckBox_setChecked
  split
  · rename_i heq
    exact ⟨w, a, rfl, refreshing_same 3 w0 w d c a0 a h heq⟩
  · dsimp only
    have hslot : onCropToggled { w with panel.ROICropCheckBox := a.CroppingEnabled } a.CroppingEnabled =
        World.modifyDisplay { w with panel.ROICropCheckBox := a.CroppingEnabled } d
          (fun x => { x with CroppingEnabled := a.CroppingEnabled }) := by
      simp [onCropToggled, h.selected.1]
    rw [hslot]
    refine widget_step 3 (by omega) r m d c hr w0 w
      { w with panel.ROICropCheckBox := a.CroppingEnabled } a0 a hm h
      ⟨h.selected.1, h.selected.2.1, h.selected.2.2⟩
      (kept_panel w { w.panel with ROICropCheckBox := a.CroppingEnabled } rfl rfl rfl rfl rfl) ?_ rfl
      (fun x => { x with CroppingEnabled := a.CroppingEnabled }) (fun hf => absurd rfl hf) (attrsKept_refl _ a)
    intro i hi
    interval_cases i <;> exact id

theorem itemData_neg_one {α : Type} (c : ComboBox α) : c.itemData (-1) = none := by
  simp [ComboBox.itemData]

theorem RenderingMethodComboBox_setCurrentIndex_refreshing (r : World → Except Fault World)
    (d : NodeID) (c : String) (w0 w : World) (a0 a : DisplayAttrs)
    (h : Refreshing 4 w0 w d c a0 a) :
    ∃ w', RenderingMethodComboBox_setCurrentIndex r w (w.panel.RenderingMethodComboBox.findData c) =
        Except.ok w' ∧ Refreshing 5 w0 w' d c a0 a := by
  unfold RenderingMethodComboBox_setCurrentIndex
  split
  · rename_i heq
    exact ⟨w, rfl, refreshing_same 4 w0 w d c a0 a h heq⟩
  · have hcls : (w.panel.RenderingMethodComboBox.itemData
          (w.panel.RenderingMethodComboBox.findData c)).getD "" = "" ∨
        (w.panel.RenderingMethodComboBox.itemData
          (w.panel.RenderingMethodComboBox.findData c)).getD "" = c := by
      by_cases hf : w.panel.RenderingMethodComboBox.findData c = -1
      · left
        rw [hf, itemData_neg_one]
        rfl
      · right
        rw [itemData_findData _ _ hf]
        rfl
    have hitem : ∀ i, (w.panel.RenderingMethodComboBox.setCurrentIndex
        (w.panel.RenderingMethodComboBox.findData c)).itemData i =
        w.panel.RenderingMethodComboBox.itemData i := fun _ => rfl
    have hres : onCurrentRenderingMethodChangedWithSignals r
        { w with panel.RenderingMethodComboBox := w.panel.RenderingMethodComboBox.setCurrentIndex (w.panel.RenderingMethodComboBox.findData c) }
        (w.panel.RenderingMethodComboBox.findData c) =
        Except.ok { w with panel.RenderingMethodComboBox := w.panel.RenderingMethodComboBox.setCurrentIndex (w.panel.RenderingMethodComboBox.findData c) } := by
      unfold onCurrentRenderingMethodChangedWithSignals
      simp only [h.selected.1, h.selected.2.2, hitem, Node.GetClassName]
      have he : ("" : String).isEmpty = true := by decide
      rcases hcls with hc | hc
      · simp [hc, he]
      · simp [hc]
    rw [hres]
    refine ⟨_, rfl, ⟨h.selected.1, h.selected.2.1, h.selected.2.2⟩,
      kept_trans h.kept (kept_panel w { w.panel with RenderingMethodComboBox := w.panel.RenderingMethodComboBox.setCurrentIndex (w.panel.RenderingMethodComboBox.findData c) } rfl rfl rfl rfl rfl),
      h.count, ?_, h.attrs⟩
    refine showsUpTo_succ 4 w _ d c a h.shows ?_ rfl
    intro i hi
    interval_cases i <;> exact id

theorem writtenMemorySize_zero (c : ComboBox (Option Int)) : writtenMemorySize c 0 = 0 := by
  unfold writtenMemorySize
  by_cases hg : c.findData (some 0) = -1
  · rw [hg, itemData_neg_one]
    rfl
  · rw [itemData_findData _ _ hg]
    rfl

theorem writtenMemorySize_idem (c : ComboBox (Option Int)) (s : Int) :
    writtenMemorySize c (writtenMemorySize c s) = writtenMemorySize c s := by
  by_cases hf : c.findData (some s) = -1
  · have h0 : writtenMemorySize c s = 0 := by
      unfold writtenMemorySize
      rw [hf, itemData_neg_one]
      rfl
    rw [h0]
    exact writtenMemorySize_zero c
  · have hs : writtenMemorySize c s = s := by
      unfold writtenMemorySize
      rw [itemData_findData _ _ hf]
      rfl
    rw [hs, hs]

theorem writtenMemorySize_or (c : ComboBox (Option Int)) (s : Int) :
    writtenMemorySize c s = s ∨ (c.findData (some s) = -1 ∧ writtenMemorySize c s = 0) := by
  by_cases hf : c.findData (some s) = -1
  · right
    refine ⟨hf, ?_⟩
    unfold writtenMemorySize
    rw [hf, itemData_neg_one]
    rfl
  · left
    unfold writtenMemorySize
    rw [itemData_findData _ _ hf]
    rfl

theorem flag_or (x : Int) :
    (if decide (x ≠ 0) then (1 : Int) else 0) = x ∨
      (x ≠ 0 ∧ (if decide (x ≠ 0) then (1 : Int) else 0) = 1) := by
  by_cases h : x = 0
  · left
    simp [h]
  · right
    exact ⟨h, by simp [h]⟩

theorem SafeDownCast_or (isT : Node → Bool) (nodes : Nodes) (p : Option NodeID) :
    SafeDownCast isT nodes p = p ∨ SafeDownCast isT nodes p = none := by
  cases p with
  | none => exact Or.inl rfl
  | some i =>
    by_cases h : isT (nodes i) = true
    · left
      simp [SafeDownCast, Option.filter, h]
    · right
      simp [SafeDownCast, Option.filter, h]

theorem writeBackCount_memory (w : World) (a : DisplayAttrs)
    (hne : { a with GPUMemorySize := writtenMemorySize w.panel.MemorySizeComboBox a.GPUMemorySize } ≠ a) :
    writeBackCount w { a with GPUMemorySize := writtenMemorySize w.panel.MemorySizeComboBox a.GPUMemorySize } <
      writeBackCount w a := by
  have hold : ¬ writtenMemorySize w.panel.MemorySizeComboBox a.GPUMemorySize = a.GPUMemorySize := by
    intro heq
    apply hne
    rw [heq]
  unfold writeBackCount
  simp only [writtenMemorySize_idem, hold, if_true, if_false]
  omega

theorem writeBackCount_follow (w : World) (a : DisplayAttrs)
    (hne : { a with FollowVolumeDisplayNode := if decide (a.FollowVolumeDisplayNode ≠ 0) then 1 else 0 } ≠ a) :
    writeBackCount w { a with FollowVolumeDisplayNode := if decide (a.FollowVolumeDisplayNode ≠ 0) then 1 else 0 } <
      writeBackCount w a := by
  have hold : ¬ (a.FollowVolumeDisplayNode = 0 ∨ a.FollowVolumeDisplayNode = 1) := by
    intro h
    apply hne
    rcases h with h | h
    · simp [h]
      cases a
      simp_all
    · simp [h]
      cases a
      simp_all
  have hnew : ((if decide (a.FollowVolumeDisplayNode ≠ 0) then (1 : Int) else 0) = 0 ∨
      (if decide (a.FollowVolumeDisplayNode ≠ 0) then (1 : Int) else 0) = 1) := by
    split
    · exact Or.inr rfl
    · exact Or.inl rfl
  unfold writeBackCount
  simp only [hold, hnew, if_true, if_false]
  omega

theorem writeBackCount_ignore (w : World) (a : DisplayAttrs)
    (hne : { a with IgnoreVolumeDisplayNodeThreshold := if decide (a.IgnoreVolumeDisplayNodeThreshold ≠ 0) then 1 else 0 } ≠ a) :
    writeBackCount w { a with IgnoreVolumeDisplayNodeThreshold := if decide (a.IgnoreVolumeDisplayNodeThreshold ≠ 0) then 1 else 0 } <
      writeBackCount w a := by
  have hold : ¬ (a.IgnoreVolumeDisplayNodeThreshold = 0 ∨ a.IgnoreVolumeDisplayNodeThreshold = 1) := by
    intro h
    apply hne
    rcases h with h | h
    · simp [h]
      cases a
      simp_all
    · simp [h]
      cases a
      simp_all
  have hnew : ((if decide (a.IgnoreVolumeDisplayNodeThreshold ≠ 0) then (1 : Int) else 0) = 0 ∨
      (if decide (a.IgnoreVolumeDisplayNodeThreshold ≠ 0) then (1 : Int) else 0) = 1) := by
    split
    · exact Or.inr rfl
    · exact Or.inl rfl
  unfold writeBackCount
  simp only [hold, hnew, if_true, if_false]
  omega

theorem writeBackCount_roi (w : World) (a : DisplayAttrs)
    (hne : { a with ROINodeID := SafeDownCast Node.isAnnotationROINode w.nodes a.ROINodeID } ≠ a) :
    writeBackCount w { a with ROINodeID := SafeDownCast Node.isAnnotationROINode w.nodes a.ROINodeID } <
      writeBackCount w a := by
  have hold : ¬ SafeDownCast Node.isAnnotationROINode w.nodes a.ROINodeID = a.ROINodeID := by
    intro heq
    apply hne
    rw [heq]
  unfold writeBackCount
  simp only [SafeDownCast_idem, hold, if_true, if_false]
  omega

theorem MemorySizeComboBox_setCurrentIndex_refreshing (r : World → Except Fault World) (m : Nat)
    (d : NodeID) (c : String) (hr : CompletesBelow r m d c) (w0 w : World) (a0 a : DisplayAttrs)
    (hm : writeBackCount w0 a0 ≤ m) (h : Refreshing 5 w0 w d c a0 a) :
    ∃ w' a', MemorySizeComboBox_setCurrentIndex r w
        (w.panel.MemorySizeComboBox.findData (some a.GPUMemorySize)) = Except.ok w' ∧
      Refreshing 6 w0 w' d c a0 a' := by
  unfold MemorySizeComboBox_setCurrentIndex
  split
  · rename_i heq
    exact ⟨w, a, rfl, refreshing_same 5 w0 w d c a0 a h heq⟩
  · dsimp only
    have hslot : onCurrentMemorySizeChanged
        { w with panel.MemorySizeComboBox := w.panel.MemorySizeComboBox.setCurrentIndex (w.panel.MemorySizeComboBox.findData (some a.GPUMemorySize)) }
        (w.panel.MemorySizeComboBox.findData (some a.GPUMemorySize)) =
        World.modifyDisplay
          { w with panel.MemorySizeComboBox := w.panel.MemorySizeComboBox.setCurrentIndex (w.panel.MemorySizeComboBox.findData (some a.GPUMemorySize)) } d
          (fun x => { x with GPUMemorySize := writtenMemorySize w.panel.MemorySizeComboBox a.GPUMemorySize }) := by
      simp [onCurrentMemorySizeChanged, h.selected.1]
      rfl
    rw [hslot]
    refine widget_step 5 (by omega) r m d c hr w0 w
      { w with panel.MemorySizeComboBox := w.panel.MemorySizeComboBox.setCurrentIndex (w.panel.MemorySizeComboBox.findData (some a.GPUMemorySize)) }
      a0 a hm h ⟨h.selected.1, h.selected.2.1, h.selected.2.2⟩
      (kept_panel w { w.panel with MemorySizeComboBox := w.panel.MemorySizeComboBox.setCurrentIndex (w.panel.MemorySizeComboBox.findData (some a.GPUMemorySize)) } rfl rfl rfl rfl rfl) ?_ rfl
      (fun x => { x with GPUMemorySize := writtenMemorySize w.panel.MemorySizeComboBox a.GPUMemorySize })
      (fun hf => writeBackCount_memory _ a hf)
      ⟨rfl, rfl, rfl, rfl, rfl, rfl, writtenMemorySize_or _ _, Or.inl rfl, Or.inl rfl, Or.inl rfl⟩
    intro i hi
    interval_cases i <;> exact id

theorem mrmlDisplayNode_selected (w : World) (d : NodeID) (c : String) (a : DisplayAttrs)
    (h : Selected w d c a) : w.mrmlDisplayNode = some d := by
  simp [World.mrmlDisplayNode, SafeDownCast, Option.filter, h.2.1, h.2.2,
    Node.isVolumeRenderingDisplayNode]

theorem QualityControlComboBox_setCurrentIndex_refreshing (r : World → Except Fault World) (m : Nat)
    (d : NodeID) (c : String) (hr : CompletesBelow r m d c) (w0 w : World) (a0 a : DisplayAttrs)
    (hm : writeBackCount w0 a0 ≤ m) (h : Refreshing 6 w0 w d c a0 a) :
    ∃ w' a', QualityControlComboBox_setCurrentIndex r w a.PerformanceControl = Except.ok w' ∧
      Refreshing 7 w0 w' d c a0 a' := by
  unfold QualityControlComboBox_setCurrentIndex
  split
  · rename_i heq
    exact ⟨w, a, rfl, refreshing_same 6 w0 w d c a0 a h heq⟩
  · dsimp only
    have hsel1 : Selected { w with panel.QualityControlComboBox := a.PerformanceControl } d c a :=
      ⟨h.selected.1, h.selected.2.1, h.selected.2.2⟩
    have hslot : onCurrentQualityControlChanged
        { w with panel.QualityControlComboBox := a.PerformanceControl } a.PerformanceControl =
        World.modifyDisplay { w with panel.QualityControlComboBox := a.PerformanceControl } d
          (fun x => { x with PerformanceControl := a.PerformanceControl }) := by
      unfold onCurrentQualityControlChanged
      rw [mrmlDisplayNode_selected _ d c a hsel1]
    rw [hslot]
    refine widget_step 6 (by omega) r m d c hr w0 w
      { w with panel.QualityControlComboBox := a.PerformanceControl } a0 a hm h hsel1
      (kept_panel w { w.panel with QualityControlComboBox := a.PerformanceControl } rfl rfl rfl rfl rfl) ?_ rfl
      (fun x => { x with PerformanceControl := a.PerformanceControl }) (fun hf => absurd rfl hf) (attrsKept_refl _ a)
    intro i hi
    interval_cases i <;> exact id

theorem FramerateSliderWidget_setValue_refreshing (r : World → Except Fault World) (m : Nat)
    (d : NodeID) (c : String) (hr : CompletesBelow r m d c) (w0 w : World) (a0 a : DisplayAttrs)
    (hm : writeBackCount w0 a0 ≤ m) (h : Refreshing 7 w0 w d c a0 a) :
    ∃ w' a', FramerateSliderWidget_setValue r w a.ExpectedFPS = Except.ok w' ∧
      Refreshing 8 w0 w' d c a0 a' := by
  unfold FramerateSliderWidget_setValue
  split
  · rename_i heq
    exact ⟨w, a, rfl, refreshing_same 7 w0 w d c a0 a h heq⟩
  · dsimp only
    have hslot : onCurrentFramerateChanged { w with panel.FramerateSliderWidget := a.ExpectedFPS } a.ExpectedFPS =
        World.modifyDisplay { w with panel.FramerateSliderWidget := a.ExpectedFPS } d
          (fun x => { x with ExpectedFPS := a.ExpectedFPS }) := by
      simp [onCurrentFramerateChanged, h.selected.1]
    rw [hslot]
    refine widget_step 7 (by omega) r m d c hr w0 w
      { w with panel.FramerateSliderWidget := a.ExpectedFPS } a0 a hm h
      ⟨h.selected.1, h.selected.2.1, h.selected.2.2⟩
      (kept_panel w { w.panel with FramerateSliderWidget := a.ExpectedFPS } rfl rfl rfl rfl rfl) ?_ rfl
      (fun x => { x with ExpectedFPS := a.ExpectedFPS }) (fun hf => absurd rfl hf) (attrsKept_refl _ a)
    intro i hi
    interval_cases i <;> exact id

theorem SynchronizeScalarDisplayNodeButton_setChecked_refreshing (r : World → Except Fault World)
    (m : Nat) (d : NodeID) (c : String) (hr : CompletesBelow r m d c) (w0 w : World)
    (a0 a : DisplayAttrs) (hm : writeBackCount w0 a0 ≤ m) (h : Refreshing 8 w0 w d c a0 a) :
    ∃ w' a', SynchronizeScalarDisplayNodeButton_setChecked r w
        (decide (a.FollowVolumeDisplayNode ≠ 0)) = Except.ok w' ∧
      Refreshing 9 w0 w' d c a0 a' := by
  unfold SynchronizeScalarDisplayNodeButton_setChecked
  split
  · rename_i heq
    exact ⟨w, a, rfl, refreshing_same 8 w0 w d c a0 a h heq⟩
  · dsimp only
    have hslot : setFollowVolumeDisplayNode
        { w with panel.SynchronizeScalarDisplayNodeButton := decide (a.FollowVolumeDisplayNode ≠ 0) }
        (decide (a.FollowVolumeDisplayNode ≠ 0)) =
        World.modifyDisplay
          { w with panel.SynchronizeScalarDisplayNodeButton := decide (a.FollowVolumeDisplayNode ≠ 0) } d
          (fun x => { x with FollowVolumeDisplayNode := if decide (a.FollowVolumeDisplayNode ≠ 0) then 1 else 0 }) := by
      simp [setFollowVolumeDisplayNode, h.selected.1]
    rw [hslot]
    refine widget_step 8 (by omega) r m d c hr w0 w
      { w with panel.SynchronizeScalarDisplayNodeButton := decide (a.FollowVolumeDisplayNode ≠ 0) }
      a0 a hm h ⟨h.selected.1, h.selected.2.1, h.selected.2.2⟩
      (kept_panel w { w.panel with SynchronizeScalarDisplayNodeButton := decide (a.FollowVolumeDisplayNode ≠ 0) } rfl rfl rfl rfl rfl) ?_ rfl
      (fun x => { x with FollowVolumeDisplayNode := if decide (a.FollowVolumeDisplayNode ≠ 0) then 1 else 0 })
      (fun hf => writeBackCount_follow _ a hf)
      ⟨rfl, rfl, rfl, rfl, rfl, rfl, Or.inl rfl, flag_or _, Or.inl rfl, Or.inl rfl⟩
    intro i hi
    interval_cases i <;> exact id

theorem IgnoreVolumesThresholdCheckBox_setChecked_refreshing (r : World → Except Fault World)
    (m : Nat) (d : NodeID) (c : String) (hr : CompletesBelow r m d c) (w0 w : World)
    (a0 a : DisplayAttrs) (hm : writeBackCount w0 a0 ≤ m) (h : Refreshing 9 w0 w d c a0 a) :
    ∃ w' a', IgnoreVolumesThresholdCheckBox_setChecked r w
        (decide (a.IgnoreVolumeDisplayNodeThreshold ≠ 0)) = Except.ok w' ∧
      Refreshing 10 w0 w' d c a0 a' := by
  unfold IgnoreVolumesThresholdCheckBox_setChecked
  split
  · rename_i heq
    exact ⟨w, a, rfl, refreshing_same 9 w0 w d c a0 a h heq⟩
  · dsimp only
    have hslot : setIgnoreVolumesThreshold
        { w with panel.IgnoreVolumesThresholdCheckBox := decide (a.IgnoreVolumeDisplayNodeThreshold ≠ 0) }
        (decide (a.IgnoreVolumeDisplayNodeThreshold ≠ 0)) =
        some (World.modifyDisplay
          { w with panel.IgnoreVolumesThresholdCheckBox := decide (a.IgnoreVolumeDisplayNodeThreshold ≠ 0) } d
          (fun x => { x with IgnoreVolumeDisplayNodeThreshold := if decide (a.IgnoreVolumeDisplayNodeThreshold ≠ 0) then 1 else 0 })) := by
      simp [setIgnoreVolumesThreshold, h.selected.1]
    rw [hslot]
    dsimp only
    refine widget_step 9 (by omega) r m d c hr w0 w
      { w with panel.IgnoreVolumesThresholdCheckBox := decide (a.IgnoreVolumeDisplayNodeThreshold ≠ 0) }
      a0 a hm h ⟨h.selected.1, h.selected.2.1, h.selected.2.2⟩
      (kept_panel w { w.panel with IgnoreVolumesThresholdCheckBox := decide (a.IgnoreVolumeDisplayNodeThreshold ≠ 0) } rfl rfl rfl rfl rfl) ?_ rfl
      (fun x => { x with IgnoreVolumeDisplayNodeThreshold := if decide (a.IgnoreVolumeDisplayNodeThreshold ≠ 0) then 1 else 0 })
      (fun hf => writeBackCount_ignore _ a hf)
      ⟨rfl, rfl, rfl, rfl, rfl, rfl, Or.inl rfl, Or.inl rfl, flag_or _, Or.inl rfl⟩
    intro i hi
    interval_cases i <;> exact id

theorem kept_of_frame (w w' : World) (hf : RefreshFrame w w')
    (hform : formState w'.panel = formState w.panel) (hsteps : w'.steps = w.steps) : Kept w w' := by
  obtain ⟨a1, a2, a3, a4, a5, a6, a7, -, -, a10, a11⟩ := hf
  simp only [formState, Prod.mk.injEq] at hform
  obtain ⟨f1, f2, f3, f4, -, -⟩ := hform
  exact ⟨a1, a2, a3, a4, a5, hsteps, a6, a7, a10, fun n => classOnly_of_skeleton (a11 n),
    by rw [f1], by rw [f2], fun _ => by rw [f3], fun _ _ h => by rw [f3] at h; exact h, f4⟩

theorem onEffectiveRangeModified_selectors (w : World) :
    (onEffectiveRangeModified w).panel.VolumePropertyNodeComboBox = w.panel.VolumePropertyNodeComboBox ∧
      (onEffectiveRangeModified w).panel.ROINodeComboBox = w.panel.ROINodeComboBox := by
  unfold onEffectiveRangeModified
  split
  · exact ⟨rfl, rfl⟩
  · split
    · split
      · dsimp only
        split
        · exact ⟨rfl, rfl⟩
        · exact ⟨rfl, rfl⟩
      · exact ⟨rfl, rfl⟩
    · exact ⟨rfl, rfl⟩

theorem onEffectiveRangeModified_display (w : World) (d : NodeID) (c : String) (a : DisplayAttrs)
    (h : w.nodes d = Node.renderDisplay c a) :
    (onEffectiveRangeModified w).nodes d = Node.renderDisplay c a := by
  unfold onEffectiveRangeModified
  split
  · exact h
  · rename_i vp _
    split
    · rename_i data hdata
      have hne : d ≠ vp := by
        intro heq
        rw [heq, hdata] at h
        cases h
      split
      · dsimp only
        split
        · show Function.update w.nodes vp _ d = _
          rw [Function.update_noteq hne]
          exact h
        · show Function.update w.nodes vp _ d = _
          rw [Function.update_noteq hne]
          exact h
      · exact h
    · exact h

theorem deliverModified_self (r : World → Except Fault World) (w : World) :
    deliverModified r w w = Except.ok w := by
  unfold deliverModified
  split
  · rfl
  · simp

theorem SafeDownCast_eq_some (isT : Node → Bool) (nodes : Nodes) (p : Option NodeID) (i : NodeID)
    (h : SafeDownCast isT nodes p = some i) : p = some i := by
  cases p with
  | none => simp [SafeDownCast] at h
  | some j =>
    simp only [SafeDownCast, Option.filter] at h
    split at h
    · exact h
    · cases h

theorem GetVolumePropertyNode_selected (w : World) (d : NodeID) (c : String) (a : DisplayAttrs)
    (h : w.nodes d = Node.renderDisplay c a) :
    w.GetVolumePropertyNode d = SafeDownCast Node.isVolumePropertyNode w.nodes a.VolumePropertyNodeID := by
  simp [World.GetVolumePropertyNode, h, Node.displayAttrs]

theorem GetROINode_selected (w : World) (d : NodeID) (c : String) (a : DisplayAttrs)
    (h : w.nodes d = Node.renderDisplay c a) :
    w.GetROINode d = SafeDownCast Node.isAnnotationROINode w.nodes a.ROINodeID := by
  simp [World.GetROINode, h, Node.displayAttrs]

theorem setMRMLVolumePropertyNodeWithSignals_selected (r : World → Except Fault World)
    (w : World) (d : NodeID) (c : String) (a : DisplayAttrs) (hs : Selected w d c a) :
    setMRMLVolumePropertyNodeWithSignals r w (w.GetVolumePropertyNode d) =
      Except.ok (setMRMLVolumePropertyNode w (w.GetVolumePropertyNode d)) := by
  obtain ⟨hd, hsel, hn⟩ := hs
  have ht := GetVolumePropertyNode_selected w d c a hn
  unfold setMRMLVolumePropertyNodeWithSignals setMRMLVolumePropertyNode
  split
  · rfl
  · dsimp only
    unfold onCurrentMRMLVolumePropertyNodeChangedWithSignals onCurrentMRMLVolumePropertyNodeChanged
    cases hvp : SafeDownCast Node.isVolumePropertyNode w.nodes (w.GetVolumePropertyNode d) with
    | none => simp only [hd, hvp]
    | some vp =>
      have hvp2 : SafeDownCast Node.isVolumePropertyNode w.nodes a.VolumePropertyNodeID = some vp := by
        rw [ht, SafeDownCast_idem] at hvp
        exact hvp
      have ha : a.VolumePropertyNodeID = some vp := SafeDownCast_eq_some _ _ _ _ hvp2
      simp only [hd, hvp]
      have hself : ∀ w1 : World, w1.nodes = w.nodes →
          w1.modifyDisplay d (fun x => { x with VolumePropertyNodeID := some vp }) = w1 := by
        intro w1 h1
        refine modifyDisplay_eq_self w1 d c a _ (by rw [h1]; exact hn) ?_
        rw [← ha]
      simp only [hself, deliverModified_self]

theorem setMRMLVolumePropertyNode_selected (w : World) (d : NodeID) (c : String)
    (a : DisplayAttrs) (hs : Selected w d c a) :
    (setMRMLVolumePropertyNode w (w.GetVolumePropertyNode d)).nodes d = Node.renderDisplay c a ∧
      (setMRMLVolumePropertyNode w (w.GetVolumePropertyNode d)).panel.VolumePropertyNodeComboBox =
        w.GetVolumePropertyNode d := by
  obtain ⟨hd, hsel, hn⟩ := hs
  have ht := GetVolumePropertyNode_selected w d c a hn
  unfold setMRMLVolumePropertyNode
  split
  · rename_i heq
    exact ⟨hn, heq⟩
  · dsimp only
    unfold onCurrentMRMLVolumePropertyNodeChanged
    cases hvp : SafeDownCast Node.isVolumePropertyNode w.nodes (w.GetVolumePropertyNode d) with
    | none =>
      simp only [hd, hvp]
      exact ⟨hn, trivial⟩
    | some vp =>
      have hvp2 : SafeDownCast Node.isVolumePropertyNode w.nodes a.VolumePropertyNodeID = some vp := by
        rw [ht, SafeDownCast_idem] at hvp
        exact hvp
      have ha : a.VolumePropertyNodeID = some vp := SafeDownCast_eq_some _ _ _ _ hvp2
      have hself : ∀ w1 : World, w1.nodes = w.nodes →
          w1.modifyDisplay d (fun x => { x with VolumePropertyNodeID := some vp }) = w1 := by
        intro w1 h1
        refine modifyDisplay_eq_self w1 d c a _ (by rw [h1]; exact hn) ?_
        rw [← ha]
      simp only [hd, hvp, hself]
      constructor
      · show (onEffectiveRangeModified _).nodes d = _
        exact onEffectiveRangeModified_display _ d c a hn
      · show (onEffectiveRangeModified _).panel.VolumePropertyNodeComboBox = _
        rw [(onEffectiveRangeModified_selectors _).1]

theorem GetVolumePropertyNode_kept (w w' : World) (hk : Kept w w') (d : NodeID)
    (h : w'.nodes d = w.nodes d) : w'.GetVolumePropertyNode d = w.GetVolumePropertyNode d := by
  unfold World.GetVolumePropertyNode
  rw [h]
  exact SafeDownCast_classOnly _ _ _ _ (fun n => isVolumePropertyNode_of_classOnly (hk.classOnly n))

theorem GetROINode_kept (w w' : World) (hk : Kept w w') (d : NodeID)
    (h : w'.nodes d = w.nodes d) : w'.GetROINode d = w.GetROINode d := by
  unfold World.GetROINode
  rw [h]
  exact SafeDownCast_classOnly _ _ _ _ (fun n => isAnnotationROINode_of_classOnly (hk.classOnly n))

theorem setMRMLVolumePropertyNodeWithSignals_refreshing (r : World → Except Fault World)
    (d : NodeID) (c : String) (w0 w : World) (a0 a : DisplayAttrs)
    (h : Refreshing 0 w0 w d c a0 a) :
    ∃ w', setMRMLVolumePropertyNodeWithSignals r w (w.GetVolumePropertyNode d) = Except.ok w' ∧
      Refreshing 1 w0 w' d c a0 a := by
  refine ⟨_, setMRMLVolumePropertyNodeWithSignals_selected r w d c a h.selected, ?_⟩
  have hf := setMRMLVolumePropertyNode_frame w (w.GetVolumePropertyNode d)
  have hk : Kept w (setMRMLVolumePropertyNode w (w.GetVolumePropertyNode d)) :=
    kept_of_frame _ _ hf (setMRMLVolumePropertyNode_formState _ _) (setMRMLVolumePropertyNode_steps _ _)
  obtain ⟨hn, hv⟩ := setMRMLVolumePropertyNode_selected w d c a h.selected
  obtain ⟨-, -, -, -, -, -, -, f8, f9, -, -⟩ := hf
  refine ⟨⟨f8.trans h.selected.1, f9.trans h.selected.2.1, hn⟩, kept_trans h.kept hk, ?_, ?_,
    h.attrs⟩
  · rw [writeBackCount_kept w _ hk]
    exact h.count
  · intro i hi
    interval_cases i
    show _ = World.GetVolumePropertyNode _ d
    rw [hv, GetVolumePropertyNode_kept w _ hk d (hn.trans h.selected.2.2.symm)]

theorem showsAt_panel (i : Nat) (w : World) (p : Panel) (d : NodeID) (c : String)
    (a : DisplayAttrs)
    (h0 : p.VolumePropertyNodeComboBox = w.panel.VolumePropertyNodeComboBox)
    (h1 : p.ROINodeComboBox = w.panel.ROINodeComboBox)
    (h2 : p.VisibilityCheckBox = w.panel.VisibilityCheckBox)
    (h3 : p.ROICropCheckBox = w.panel.ROICropCheckBox)
    (h4 : p.RenderingMethodComboBox = w.panel.RenderingMethodComboBox)
    (h5 : p.MemorySizeComboBox = w.panel.MemorySizeComboBox)
    (h6 : p.QualityControlComboBox = w.panel.QualityControlComboBox)
    (h7 : p.FramerateSliderWidget = w.panel.FramerateSliderWidget)
    (h8 : p.SynchronizeScalarDisplayNodeButton = w.panel.SynchronizeScalarDisplayNodeButton)
    (h9 : p.IgnoreVolumesThresholdCheckBox = w.panel.IgnoreVolumesThresholdCheckBox)
    (h : showsAt i w d c a) : showsAt i (w.withPanel p) d c a := by
  unfold showsAt at h ⊢
  split
  · show p.VolumePropertyNodeComboBox = World.GetVolumePropertyNode w d
    rw [h0]; exact h
  · show p.ROINodeComboBox = World.GetROINode w d
    rw [h1]; exact h
  · show p.VisibilityCheckBox = _
    rw [h2]; exact h
  · show p.ROICropCheckBox = _
    rw [h3]; exact h
  · show p.RenderingMethodComboBox.currentIndex = p.RenderingMethodComboBox.findData c
    rw [h4]; exact h
  · show p.MemorySizeComboBox.currentIndex = p.MemorySizeComboBox.findData _
    rw [h5]; exact h
  · show p.QualityControlComboBox = _
    rw [h6]; exact h
  · show p.FramerateSliderWidget = _
    rw [h7]; exact h
  · show p.SynchronizeScalarDisplayNodeButton = _
    rw [h8]; exact h
  · show p.IgnoreVolumesThresholdCheckBox = _
    rw [h9]; exact h
  · trivial

theorem refreshing_panel (k : Nat) (w0 w : World) (p : Panel) (d : NodeID) (c : String)
    (a0 a : DisplayAttrs) (h : Refreshing k w0 w d c a0 a)
    (hd : p.DisplayNode = w.panel.DisplayNode)
    (hs : p.DisplayNodeComboBox = w.panel.DisplayNodeComboBox)
    (hv : p.VolumeNodeComboBox = w.panel.VolumeNodeComboBox)
    (hw : p.RenderingMethodWidgets = w.panel.RenderingMethodWidgets)
    (hc : p.RenderingMethodStackedWidgetCount = w.panel.RenderingMethodStackedWidgetCount)
    (h0 : p.VolumePropertyNodeComboBox = w.panel.VolumePropertyNodeComboBox)
    (h1 : p.ROINodeComboBox = w.panel.ROINodeComboBox)
    (h2 : p.VisibilityCheckBox = w.panel.VisibilityCheckBox)
    (h3 : p.ROICropCheckBox = w.panel.ROICropCheckBox)
    (h4 : p.RenderingMethodComboBox = w.panel.RenderingMethodComboBox)
    (h5 : p.MemorySizeComboBox = w.panel.MemorySizeComboBox)
    (h6 : p.QualityControlComboBox = w.panel.QualityControlComboBox)
    (h7 : p.FramerateSliderWidget = w.panel.FramerateSliderWidget)
    (h8 : p.SynchronizeScalarDisplayNodeButton = w.panel.SynchronizeScalarDisplayNodeButton)
    (h9 : p.IgnoreVolumesThresholdCheckBox = w.panel.IgnoreVolumesThresholdCheckBox) :
    Refreshing k w0 (w.withPanel p) d c a0 a := by
  have hk : Kept w (w.withPanel p) := kept_panel w p hv (by rw [h5]) (by rw [h4]) hw hc
  refine ⟨⟨hd.trans h.selected.1, hs.trans h.selected.2.1, h.selected.2.2⟩, kept_trans h.kept hk,
    ?_, fun i hi => showsAt_panel i w p d c a h0 h1 h2 h3 h4 h5 h6 h7 h8 h9 (h.shows i hi),
    h.attrs⟩
  rw [writeBackCount_kept w _ hk]
  exact h.count

theorem refreshing_updateFromMRMLDisplayROINode (k : Nat) (w0 w : World) (d : NodeID)
    (c : String) (a0 a : DisplayAttrs) (h : Refreshing k w0 w d c a0 a) :
    Refreshing k w0 (updateFromMRMLDisplayROINode w) d c a0 a := by
  unfold updateFromMRMLDisplayROINode
  split
  · exact h
  · split
    · exact refreshing_panel k w0 w _ d c a0 a h rfl rfl rfl rfl rfl rfl rfl rfl rfl rfl rfl rfl rfl
        rfl rfl
    · exact h

theorem except_match_ok (x : Except Fault World) (w2 : World) (g : World → World) :
    x = Except.ok w2 →
    (match x with
      | Except.error e => Except.error e
      | Except.ok w => Except.ok (g w)) = Except.ok (g w2) := by
  intro h
  subst h
  rfl

theorem setMRMLROINodeWithSignals_refreshing (r : World → Except Fault World) (m : Nat)
    (d : NodeID) (c : String) (hr : CompletesBelow r m d c) (w0 w : World) (a0 a : DisplayAttrs)
    (hm : writeBackCount w0 a0 ≤ m) (h : Refreshing 1 w0 w d c a0 a) :
    ∃ w' a', setMRMLROINodeWithSignals r w (w.GetROINode d) = Except.ok w' ∧
      Refreshing 2 w0 w' d c a0 a' := by
  have ht := GetROINode_selected w d c a h.selected.2.2
  unfold setMRMLROINodeWithSignals
  split
  · rename_i heq
    exact ⟨w, a, rfl, refreshing_same 1 w0 w d c a0 a h heq⟩
  · unfold onCurrentMRMLROINodeChangedWithSignals
    split
    · rename_i hnone
      have hd := h.selected.1
      have hnone' : w.panel.DisplayNode = none := hnone
      rw [hd] at hnone'
      cases hnone'
    · rename_i d' hd'
      have hd'' : w.panel.DisplayNode = some d' := hd'
      have hdd : d' = d := Option.some.inj (hd''.symm.trans h.selected.1)
      subst hdd
      have hroi : SafeDownCast Node.isAnnotationROINode w.nodes (w.GetROINode d') =
          SafeDownCast Node.isAnnotationROINode w.nodes a.ROINodeID := by
        rw [ht, SafeDownCast_idem]
      dsimp only
      rw [hroi]
      obtain ⟨w2, a2, hok, hR⟩ := widget_step 1 (by omega) r m d' c hr w0 w
        { w with
          panel.ROINodeComboBox := w.GetROINode d'
          panel.DisplayModifiedConnections := qvtkReconnect w.panel.DisplayModifiedConnections (w.GetROINode d') (SafeDownCast Node.isAnnotationROINode w.nodes a.ROINodeID) }
        a0 a hm h ⟨h.selected.1, h.selected.2.1, h.selected.2.2⟩
        (kept_panel w { w.panel with ROINodeComboBox := w.GetROINode d', DisplayModifiedConnections := qvtkReconnect w.panel.DisplayModifiedConnections (w.GetROINode d') (SafeDownCast Node.isAnnotationROINode w.nodes a.ROINodeID) } rfl rfl rfl rfl rfl)
        (by intro i hi; interval_cases i; exact id) rfl
        (fun x => { x with ROINodeID := SafeDownCast Node.isAnnotationROINode w.nodes a.ROINodeID })
        (fun hf => writeBackCount_roi _ a hf)
        ⟨rfl, rfl, rfl, rfl, rfl, rfl, Or.inl rfl, Or.inl rfl, Or.inl rfl, SafeDownCast_or _ _ _⟩
      exact ⟨updateFromMRMLDisplayROINode w2, a2, except_match_ok _ w2 _ hok,
        refreshing_updateFromMRMLDisplayROINode 2 w0 w2 d' c a0 a2 hR⟩

theorem displayNodeAttrs_selected (w : World) (d : NodeID) (c : String) (a : DisplayAttrs)
    (h : Selected w d c a) : w.displayNodeAttrs = some a := by
  simp [World.displayNodeAttrs, h.1, h.2.2, Node.displayAttrs]

theorem currentVolumeMapper_selected (w : World) (d : NodeID) (c : String) (a : DisplayAttrs)
    (h : Selected w d c a) : currentVolumeMapper w = c := by
  simp [currentVolumeMapper, h.1, h.2.2, Node.GetClassName]

theorem lookup_RenderingMethodWidgets_index (m : List (String × Option Nat)) (key k : String) :
    ((RenderingMethodWidgets_index m key).2.lookup k).join = (m.lookup k).join := by
  unfold RenderingMethodWidgets_index
  cases hl : m.lookup key with
  | some v => rfl
  | none =>
    show ((m ++ [(key, none)]).lookup k).join = _
    induction m with
    | nil =>
      simp only [List.nil_append, List.lookup]
      split <;> rfl
    | cons x rest ih =>
      obtain ⟨k2, v2⟩ := x
      simp only [List.cons_append, List.lookup] at hl ⊢
      split
      · rfl
      · rename_i hne
        apply ih
        cases hk : (key == k2) with
        | true => simp [hk] at hl
        | false => simpa [hk] using hl

theorem showRenderingMethodWidget_refreshed (w0 w : World) (d : NodeID) (c : String)
    (a0 a : DisplayAttrs) (h : Refreshing 10 w0 w d c a0 a) :
    Refreshed w0 (showRenderingMethodWidget w c) d c a0 a := by
  have hk : Kept w (showRenderingMethodWidget w c) :=
    ⟨rfl, rfl, rfl, rfl, rfl, rfl, rfl, rfl, rfl, fun _ => rfl, rfl, rfl,
      fun k => lookup_RenderingMethodWidgets_index _ c k,
      fun k p hmem => mem_RenderingMethodWidgets_index _ c k p hmem, rfl⟩
  refine ⟨⟨h.selected.1, h.selected.2.1, h.selected.2.2⟩, kept_trans h.kept hk, ?_, ?_, ?_,
    h.attrs⟩
  · rw [writeBackCount_kept w _ hk]
    exact h.count
  · intro i hi
    exact showsAt_panel i w (showRenderingMethodWidget w c).panel d c a rfl rfl rfl rfl rfl rfl rfl
      rfl rfl rfl (h.shows i hi)
  · show (match (RenderingMethodWidgets_index w.panel.RenderingMethodWidgets c).1 with
      | some page => (page : Int)
      | none => 0) = pageOf w0.panel.RenderingMethodWidgets c
    rw [RenderingMethodWidgets_index_fst, h.kept.pages c]
    rfl

theorem except_bind_ok (x : Except Fault World) (w2 : World) (g : World → Except Fault World) :
    x = Except.ok w2 →
    (match x with
      | Except.error e => Except.error e
      | Except.ok w => g w) = g w2 := by
  intro h
  subst h
  rfl

theorem writeValueWidgets_refreshing (r : World → Except Fault World) (m : Nat)
    (d : NodeID) (c : String) (hr : CompletesBelow r m d c) (w0 w : World) (a0 a : DisplayAttrs)
    (hm : writeBackCount w0 a0 ≤ m) (h : Refreshing 2 w0 w d c a0 a) :
    ∃ w' a', writeValueWidgets r w = Except.ok w' ∧ Refreshed w0 w' d c a0 a' := by
  obtain ⟨w3, a3, e3, R3⟩ := VisibilityCheckBox_setChecked_refreshing r m d c hr w0 w a0 a hm h
  obtain ⟨w4, a4, e4, R4⟩ := ROICropCheckBox_setChecked_refreshing r m d c hr w0 w3 a0 a3 hm R3
  obtain ⟨w5, e5, R5⟩ := RenderingMethodComboBox_setCurrentIndex_refreshing r d c w0 w4 a0 a4 R4
  obtain ⟨w6, a6, e6, R6⟩ := MemorySizeComboBox_setCurrentIndex_refreshing r m d c hr w0 w5 a0 a4 hm R5
  obtain ⟨w7, a7, e7, R7⟩ := QualityControlComboBox_setCurrentIndex_refreshing r m d c hr w0 w6 a0 a6 hm R6
  obtain ⟨w8, a8, e8, R8⟩ := FramerateSliderWidget_setValue_refreshing r m d c hr w0 w7 a0 a7 hm R7
  have R9 : Refreshing 8 w0 { w8 with panel.FramerateSliderWidgetEnabled := decide (a8.PerformanceControl = w8.Adaptative) } d c a0 a8 :=
    refreshing_panel 8 w0 w8 { w8.panel with FramerateSliderWidgetEnabled := decide (a8.PerformanceControl = w8.Adaptative) } d c a0 a8 R8
      rfl rfl rfl rfl rfl rfl rfl rfl rfl rfl rfl rfl rfl rfl rfl
  have R10 : Refreshing 8 w0
      (if decide (a8.FollowVolumeDisplayNode ≠ 0) = true then
        { w8 with panel.FramerateSliderWidgetEnabled := decide (a8.PerformanceControl = w8.Adaptative), panel.SynchronizeScalarDisplayNodeCheckState := true }
      else { w8 with panel.FramerateSliderWidgetEnabled := decide (a8.PerformanceControl = w8.Adaptative) }) d c a0 a8 := by
    split
    · exact refreshing_panel 8 w0 w8 { w8.panel with FramerateSliderWidgetEnabled := decide (a8.PerformanceControl = w8.Adaptative), SynchronizeScalarDisplayNodeCheckState := true } d c a0 a8 R8
        rfl rfl rfl rfl rfl rfl rfl rfl rfl rfl rfl rfl rfl rfl rfl
    · exact R9
  obtain ⟨w11, a11, e11, R11⟩ := SynchronizeScalarDisplayNodeButton_setChecked_refreshing r m d c hr w0 _ a0 a8 hm R10
  obtain ⟨w12, a12, e12, R12⟩ := IgnoreVolumesThresholdCheckBox_setChecked_refreshing r m d c hr w0 w11 a0 a11 hm R11
  refine ⟨showRenderingMethodWidget w12 c, a12, ?_, showRenderingMethodWidget_refreshed w0 w12 d c a0 a12 R12⟩
  have t2 := displayNodeAttrs_selected w d c a h.selected
  have t3 := displayNodeAttrs_selected w3 d c a3 R3.selected
  have t4 := currentVolumeMapper_selected w4 d c a4 R4.selected
  have t5 := displayNodeAttrs_selected w5 d c a4 R5.selected
  have t6 := displayNodeAttrs_selected w6 d c a6 R6.selected
  have t7 := displayNodeAttrs_selected w7 d c a7 R7.selected
  have t8 := displayNodeAttrs_selected w8 d c a8 R8.selected
  have t8' : Option.bind w8.panel.DisplayNode (fun n => (w8.nodes n).displayAttrs) = some a8 := t8
  have t11 : Option.bind w11.panel.DisplayNode (fun n => (w11.nodes n).displayAttrs) = some a11 :=
    displayNodeAttrs_selected w11 d c a11 R11.selected
  unfold writeValueWidgets
  simp only [bind, Except.bind, pure, Except.pure, t2, e3, t3, e4, t4, e5, t5, e6, t6, e7, t7, e8, t8]
  simp only [World.displayNodeAttrs, t8']
  split
  · rename_i e heq
    exact absurd (heq.symm.trans e11) (by simp)
  · rename_i v heq
    have hv : v = w11 := Except.ok.inj (heq.symm.trans e11)
    subst hv
    simp only [t11, e12]

theorem updateFromMRMLDisplayNodeWithSignals_completes (d : NodeID) (c : String) :
    ∀ n, CompletesBelow (updateFromMRMLDisplayNodeWithSignals n) n d c := by
  intro n
  induction n with
  | zero =>
    intro w a _ hlt
    omega
  | succ n ih =>
    intro w a hs hlt
    have hm : writeBackCount w a ≤ n := by omega
    have R0 : Refreshing 0 w w d c a a :=
      ⟨hs, kept_refl w, Nat.le_refl _, fun i hi => absurd hi (Nat.not_lt_zero i),
        attrsKept_refl _ a⟩
    obtain ⟨w1, e1, R1⟩ := setMRMLVolumePropertyNodeWithSignals_refreshing
      (updateFromMRMLDisplayNodeWithSignals n) d c w w a a R0
    obtain ⟨w2, a2, e2, R2⟩ := setMRMLROINodeWithSignals_refreshing
      (updateFromMRMLDisplayNodeWithSignals n) n d c ih w w1 a a hm R1
    obtain ⟨w', a', e3, R3⟩ := writeValueWidgets_refreshing
      (updateFromMRMLDisplayNodeWithSignals n) n d c ih w w2 a a2 hm R2
    refine ⟨w', a', ?_, R3⟩
    rw [updateFromMRMLDisplayNodeWithSignals]
    simp only [bind, Except.bind, hs.1, e1, R1.selected.1, e2, e3]

theorem writeBackCount_le (w : World) (a : DisplayAttrs) : writeBackCount w a ≤ 4 := by
  unfold writeBackCount
  split <;> split <;> split <;> split <;> omega

theorem updateFromMRMLDisplayNodeWithSignals_selected (w : World) (d : NodeID) (c : String)
    (a : DisplayAttrs) (hs : Selected w d c a) (fuel : Nat) :
    ∃ w' a', updateFromMRMLDisplayNodeWithSignals (fuel + 5) w = Except.ok w' ∧
      Refreshed w w' d c a a' :=
  updateFromMRMLDisplayNodeWithSignals_completes d c (fuel + 5) w a hs
    (by have := writeBackCount_le w a; omega)

theorem decide_flag_kept (x y : Int) (h : y = x ∨ (x ≠ 0 ∧ y = 1)) :
    decide (y ≠ 0) = decide (x ≠ 0) := by
  rcases h with h | ⟨hx, hy⟩
  · rw [h]
  · rw [hy]
    simp [hx]

theorem updateFromMRMLDisplayNodeWithSignals_shows (w : World) (d : NodeID) (c : String)
    (a : DisplayAttrs) (hs : Selected w d c a) (fuel : Nat) :
    ∃ w' a', updateFromMRMLDisplayNodeWithSignals (fuel + 5) w = Except.ok w' ∧
      Selected w' d c a' ∧ AttrsKept w.panel.MemorySizeComboBox a a' ∧
      w'.panel.VisibilityCheckBox = a.Visibility ∧
      w'.panel.ROICropCheckBox = a.CroppingEnabled ∧
      w'.panel.QualityControlComboBox = a.PerformanceControl ∧
      w'.panel.FramerateSliderWidget = a.ExpectedFPS ∧
      w'.panel.SynchronizeScalarDisplayNodeButton = decide (a.FollowVolumeDisplayNode ≠ 0) ∧
      w'.panel.IgnoreVolumesThresholdCheckBox =
        decide (a.IgnoreVolumeDisplayNodeThreshold ≠ 0) ∧
      w'.panel.RenderingMethodComboBox.currentIndex =
        w.panel.RenderingMethodComboBox.findData c ∧
      w'.panel.MemorySizeComboBox.currentIndex =
        w.panel.MemorySizeComboBox.findData (some a'.GPUMemorySize) := by
  obtain ⟨w', a', hok, hR⟩ := updateFromMRMLDisplayNodeWithSignals_selected w d c a hs fuel
  obtain ⟨p1, p2, p3, p4, _, _, _, p8, p9, _⟩ := hR.attrs
  have s2 : showsAt 2 w' d c a' := hR.shows 2 (by omega)
  have s3 : showsAt 3 w' d c a' := hR.shows 3 (by omega)
  have s4 : showsAt 4 w' d c a' := hR.shows 4 (by omega)
  have s5 : showsAt 5 w' d c a' := hR.shows 5 (by omega)
  have s6 : showsAt 6 w' d c a' := hR.shows 6 (by omega)
  have s7 : showsAt 7 w' d c a' := hR.shows 7 (by omega)
  have s8 : showsAt 8 w' d c a' := hR.shows 8 (by omega)
  have s9 : showsAt 9 w' d c a' := hR.shows 9 (by omega)
  refine ⟨w', a', hok, hR.selected, hR.attrs, s2.trans p1, s3.trans p2, s6.trans p3, s7.trans p4,
    s8.trans (decide_flag_kept _ _ p8), s9.trans (decide_flag_kept _ _ p9),
    s4.trans (findData_items _ _ hR.kept.methodItems c),
    s5.trans (findData_items _ _ hR.kept.memoryItems _)⟩

theorem updateFromMRMLDisplayNodeWithSignals_page (w : World) (d : NodeID) (c : String)
    (a : DisplayAttrs) (hs : Selected w d c a) (fuel : Nat) :
    ∃ w', updateFromMRMLDisplayNodeWithSignals (fuel + 5) w = Except.ok w' ∧
      (∀ page, w.panel.RenderingMethodWidgets.lookup c = some (some page) →
        w'.panel.RenderingMethodStackedWidget = page) ∧
      ((∀ page, w.panel.RenderingMethodWidgets.lookup c ≠ some (some page)) →
        w'.panel.RenderingMethodStackedWidget = 0) ∧
      (PagesRegistered w.panel → PagesRegistered w'.panel) := by
  obtain ⟨w', a', hok, hR⟩ := updateFromMRMLDisplayNodeWithSignals_selected w d c a hs fuel
  refine ⟨w', hok, ?_, ?_, ?_⟩
  · intro page hl
    rw [hR.page, pageOf, hl]
    rfl
  · intro hno
    rw [hR.page, pageOf]
    cases hl : w.panel.RenderingMethodWidgets.lookup c with
    | none => rfl
    | some v =>
      cases v with
      | none => rfl
      | some page => exact absurd hl (hno page)
  · intro hp
    refine ⟨by rw [hR.kept.pageCount]; exact hp.1, ?_⟩
    intro key page hmem
    rw [hR.kept.pageCount]
    exact hp.2 key page (hR.kept.registered key page hmem)

theorem exampleReady_selected :
    Selected exampleReady 2 "vtkMRMLCPURayCastVolumeRenderingDisplayNode" exampleAttrs :=
  ⟨rfl, rfl, rfl⟩

theorem onCurrentMRMLDisplayNodeChangedWithSignals_selects (w : World) (d : NodeID) (c : String)
    (a : DisplayAttrs) (L : Logic) (fuel : Nat) (hl : w.logic = some L)
    (hsel : w.panel.DisplayNodeComboBox = some d) (hn : w.nodes d = Node.renderDisplay c a) :
    ∃ w' a', onCurrentMRMLDisplayNodeChangedWithSignals
          (updateFromMRMLDisplayNodeWithSignals (fuel + 5)) w (some d) = Except.ok w' ∧
      Selected w' d c a' ∧ AttrsKept w.panel.MemorySizeComboBox a a' ∧
      w'.scene = w.scene ∧ w'.nextID = w.nextID ∧ w'.ModifiedCalls = w.ModifiedCalls ∧
      w'.steps = w.steps ++ [Step.DisplayNode (some d)] ∧
      ∀ n, (w'.nodes n).classOnly = (w.nodes n).classOnly := by
  have hcast : SafeDownCast Node.isVolumeRenderingDisplayNode w.nodes (some d) = some d := by
    simp [SafeDownCast, Option.filter, hn, Node.isVolumeRenderingDisplayNode]
  have hsome := addDisplayNodeReference_isSome w (some d) (by rw [hl]; rfl)
  obtain ⟨w1, h1⟩ := Option.isSome_iff_exists.1 hsome
  obtain ⟨hf, hp, -⟩ := addDisplayNodeReference_frame w w1 (some d) h1
  have hn1 : w1.nodes d = Node.renderDisplay c a :=
    (addDisplayNodeReference_displayNodes w w1 (some d) h1 d
      (by rw [hn]; rfl)).trans hn
  have hS : Selected (observeDisplayNode w1 (some d)) d c a :=
    ⟨rfl, (congrArg Panel.DisplayNodeComboBox hp).trans hsel, hn1⟩
  obtain ⟨w4, a', hok, hR⟩ :=
    updateFromMRMLDisplayNodeWithSignals_selected _ d c a hS fuel
  refine ⟨{ w4 with emitted := w4.emitted ++
      [Signal.currentVolumeRenderingDisplayNodeChanged (some d)] }, a', ?_,
    ⟨hR.selected.1, hR.selected.2.1, hR.selected.2.2⟩, ?_, ?_, ?_, ?_, ?_, ?_⟩
  · unfold onCurrentMRMLDisplayNodeChangedWithSignals
    simp only [hcast, h1, hok]
  · have hm : (observeDisplayNode w1 (some d)).panel.MemorySizeComboBox =
        w.panel.MemorySizeComboBox := by
      show w1.panel.MemorySizeComboBox = _
      rw [hp]
    rw [← hm]
    exact hR.attrs
  · exact hR.kept.scene.trans hf.scene
  · exact hR.kept.nextID.trans hf.nextID
  · exact hR.kept.ModifiedCalls.trans hf.ModifiedCalls
  · have h0 : (observeDisplayNode w1 (some d)).steps = w.steps ++ [Step.DisplayNode (some d)] := by
      show w1.steps ++ _ = _
      rw [addDisplayNodeReference_steps w w1 (some d) h1]
    exact hR.kept.steps.trans h0
  · intro n
    exact (hR.kept.classOnly n).trans (hf.classOnly n)

theorem onCurrentMRMLVolumeNodeChangedWithSignals_closing_selects (w : World) (fuel : Nat)
    (node : Option NodeID) (sc : Scene) (L : Logic) (V d : NodeID)
    (hs : w.scene = some sc) (hc : sc.IsClosing = true) (hl : w.logic = some L)
    (hV : SafeDownCast Node.isScalarVolumeNode w.nodes node = some V)
    (hd : GetFirstVolumeRenderingDisplayNode w.nodes V = some d) :
    ∃ w', onCurrentMRMLVolumeNodeChangedWithSignals (fuel + 5) w node = Except.ok w' ∧
      w'.scene = w.scene ∧ w'.nextID = w.nextID ∧ w'.ModifiedCalls = w.ModifiedCalls ∧
      w'.panel.DisplayNodeComboBox = some d ∧
      (w.panel.DisplayNodeComboBox = some d →
        w'.nodes = w.nodes ∧ w'.panel.DisplayNode = w.panel.DisplayNode) ∧
      (w.panel.DisplayNodeComboBox ≠ some d →
        ∃ c a a', w.nodes d = Node.renderDisplay c a ∧ Selected w' d c a' ∧
          AttrsKept w.panel.MemorySizeComboBox a a') := by
  have hch : chooseDisplayNodeWithSignals (updateFromMRMLDisplayNodeWithSignals (fuel + 5)) w sc V =
      Except.ok (some d, w) := by
    simp [chooseDisplayNodeWithSignals, hc, hd]
  unfold onCurrentMRMLVolumeNodeChangedWithSignals
  simp only [hV, hl, hs, hch]
  by_cases hsel : w.panel.DisplayNodeComboBox = some d
  · have hset : setMRMLDisplayNodeWithSignals (updateFromMRMLDisplayNodeWithSignals (fuel + 5)) w
        (some d) = Except.ok w := by
      unfold setMRMLDisplayNodeWithSignals
      rw [if_pos hsel]
    simp only [hset]
    exact ⟨_, rfl, hs, rfl, rfl, hsel, fun _ => ⟨rfl, rfl⟩, fun h => absurd hsel h⟩
  · have hdisp := GetFirstVolumeRenderingDisplayNode_isDisplay w.nodes V d hd
    obtain ⟨c, a, hn⟩ : ∃ c a, w.nodes d = Node.renderDisplay c a := by
      revert hdisp
      cases hx : w.nodes d <;> simp [Node.isVolumeRenderingDisplayNode]
    obtain ⟨w2, a', hok, hS, hA, e1, e2, e3, -, -⟩ :=
      onCurrentMRMLDisplayNodeChangedWithSignals_selects
        { w with panel.DisplayNodeComboBox := some d } d c a L fuel hl rfl hn
    have hset : setMRMLDisplayNodeWithSignals (updateFromMRMLDisplayNodeWithSignals (fuel + 5)) w
        (some d) = Except.ok w2 := by
      unfold setMRMLDisplayNodeWithSignals
      rw [if_neg hsel]
      exact hok
    simp only [hset]
    exact ⟨_, rfl, e1.trans hs, e2, e3, hS.2.1, fun h => absurd h hsel,
      fun _ => ⟨c, a, a', hn, ⟨hS.1, hS.2.1, hS.2.2⟩, hA⟩⟩

theorem onCurrentMRMLVolumeNodeChangedWithSignals_closing_idle (w : World) (fuel : Nat)
    (node : Option NodeID) (sc : Scene) (L : Logic)
    (hs : w.scene = some sc) (hc : sc.IsClosing = true) (hl : w.logic = some L)
    (hv : ∀ v, SafeDownCast Node.isScalarVolumeNode w.nodes node = some v →
      GetFirstVolumeRenderingDisplayNode w.nodes v = none)
    (hsel : w.panel.DisplayNodeComboBox = none) :
    ∃ w', onCurrentMRMLVolumeNodeChangedWithSignals fuel w node = Except.ok w' ∧
      w'.scene = w.scene ∧ w'.nextID = w.nextID ∧ w'.ModifiedCalls = w.ModifiedCalls ∧
      w'.nodes = w.nodes ∧ w'.panel = w.panel := by
  have hset : setMRMLDisplayNodeWithSignals (updateFromMRMLDisplayNodeWithSignals fuel) w none =
      Except.ok w := by
    unfold setMRMLDisplayNodeWithSignals
    rw [if_pos hsel]
  unfold onCurrentMRMLVolumeNodeChangedWithSignals
  cases hV : SafeDownCast Node.isScalarVolumeNode w.nodes node with
  | none =>
    simp only [hset]
    exact ⟨_, rfl, rfl, rfl, rfl, rfl, rfl⟩
  | some V =>
    have hch : chooseDisplayNodeWithSignals (updateFromMRMLDisplayNodeWithSignals fuel) w sc V =
        Except.ok (none, w) := by
      simp [chooseDisplayNodeWithSignals, hc, hv V hV]
    simp only [hl, hs, hch, hset]
    exact ⟨_, rfl, rfl, rfl, rfl, rfl, rfl⟩

theorem onCurrentRenderingMethodChangedWithSignals_switch (w : World) (index : Int)
    (old : NodeID) (A B : String) (a : DisplayAttrs) (L : Logic) (sc : Scene) (fuel : Nat)
    (hd : w.panel.DisplayNode = some old) (hinv : HandleInv w) (hun : Unallocated w)
    (hold : w.nodes old = Node.renderDisplay A a)
    (hB : w.panel.RenderingMethodComboBox.itemData index = some B)
    (hBne : B ≠ "") (hAB : B ≠ A) (hl : w.logic = some L) (hs : w.scene = some sc) :
    ∃ w', onCurrentRenderingMethodChangedWithSignals
          (updateFromMRMLDisplayNodeWithSignals (fuel + 5)) w index = Except.ok w' ∧
      w'.steps = w.steps ++ [Step.AddNode w.nextID, Step.DisplayNode (some w.nextID),
        Step.RemoveNode old] ∧
      w'.panel.DisplayNode = some w.nextID ∧
      w'.scene = some { sc with Nodes := (sc.Nodes ++ [w.nextID]).filter (fun m => m != old) } := by
  have hne : old ≠ w.nextID := by
    intro heq
    rw [heq, hun w.nextID (Nat.le_refl _)] at hold
    exact absurd hold (by simp)
  have hadd : (w.CreateVolumeRenderingDisplayNode L (some B)).2.AddNode w.nextID =
      some (afterCopy w sc B L.DefaultAttrs) := by
    simp [World.AddNode, World.CreateVolumeRenderingDisplayNode, hs, afterCopy]
  have hcopy : (afterCopy w sc B L.DefaultAttrs).modifyDisplay w.nextID
      (fun x => (((afterCopy w sc B L.DefaultAttrs).nodes old).displayAttrs).getD x) =
      afterCopy w sc B a := by
    simp [afterCopy, World.modifyDisplay, Function.update_noteq hne, hold, Node.displayAttrs,
      Node.mapDisplayAttrs]
  have hcombo : (afterCopy w sc B a).panel.DisplayNodeComboBox ≠ some w.nextID := by
    show w.panel.DisplayNodeComboBox ≠ some w.nextID
    rw [← hinv.1, hd]
    intro heq
    exact hne (Option.some.inj heq)
  obtain ⟨w3, a', hok, hS, -, e1, -, -, e4, e5⟩ :=
    onCurrentMRMLDisplayNodeChangedWithSignals_selects
      { afterCopy w sc B a with panel.DisplayNodeComboBox := some w.nextID } w.nextID B a L fuel
      hl rfl (by simp [afterCopy])
  have hset : setMRMLDisplayNodeWithSignals (updateFromMRMLDisplayNodeWithSignals (fuel + 5))
      (afterCopy w sc B a) (some w.nextID) = Except.ok w3 := by
    unfold setMRMLDisplayNodeWithSignals
    rw [if_neg hcombo]
    exact hok
  have hscene : w3.scene = some { sc with Nodes := sc.Nodes ++ [w.nextID] } := e1
  have hsteps : w3.steps =
      w.steps ++ [Step.AddNode w.nextID, Step.DisplayNode (some w.nextID)] := by
    rw [e4]
    show (w.steps ++ [Step.AddNode w.nextID]) ++ _ = _
    simp
  have hlive : (w3.nodes old).isVolumeRenderingDisplayNode = true := by
    rw [isVolumeRenderingDisplayNode_of_classOnly (e5 old)]
    simp [afterCopy, Function.update_noteq hne, hold, Node.isVolumeRenderingDisplayNode]
  obtain ⟨w4, hrem, r1, r2, r3⟩ : ∃ w4, removeOldDisplayNode w3 (some old) = some w4 ∧
      w4.steps = w3.steps ++ [Step.RemoveNode old] ∧ w4.panel = w3.panel ∧
      w4.scene = some { sc with Nodes := (sc.Nodes ++ [w.nextID]).filter (fun m => m != old) } :=
    ⟨_, (removeOldDisplayNode_alive w3 old hlive).trans (RemoveNode_eq w3 _ old hscene),
      rfl, rfl, rfl⟩
  have hempty : B.isEmpty = false := by
    cases he : B.isEmpty with
    | false => rfl
    | true => exact absurd ((String.isEmpty_iff B).mp he) hBne
  have hcls : B ≠ (w.nodes old).GetClassName := by
    rw [hold]
    exact hAB
  refine ⟨{ w4 with emitted := w4.emitted ++
      [Signal.currentVolumeRenderingDisplayNodeChanged (some w.nextID)] }, ?_, ?_, ?_, r3⟩
  · unfold onCurrentRenderingMethodChangedWithSignals
    rw [hd]
    dsimp only
    rw [hB]
    simp only [Option.getD_some, hempty, Bool.false_or, beq_iff_eq, hcls, if_false]
    rw [hl]
    dsimp only
    have h1 : (w.CreateVolumeRenderingDisplayNode L (some B)).1 = w.nextID := rfl
    rw [h1, hadd]
    dsimp only
    rw [hcopy, hset]
    dsimp only
    have hp : (afterCopy w sc B L.DefaultAttrs).panel.DisplayNode = some old := hd
    rw [hp, hrem]
  · show w4.steps = _
    rw [r1, hsteps]
    simp
  · show w4.panel.DisplayNode = _
    rw [r2]
    exact hS.1

/-- C14, at the failing inputs and in general. (1) Display node 2 is selected, its GPU
memory size of 100 MB is carried by no entry of the memory selector, and the selector
is on index 4: for every depth of nesting of at least two the refresh returns with
node 2 still selected, the memory selector on index 0 rather than -1, and the GPU
memory size of node 2 overwritten with 0. (2) No display node is selected and the
ignore-threshold box is checked: the refresh dereferences the null handle. In
general, with no display node selected and the selector of display nodes empty, the
refresh dereferences the null handle when the ignore-threshold box is checked, and
otherwise returns with every node as it was, the four check boxes unchecked and the
memory and quality selectors at -1. And with a display node of class `c` and
attributes `a` selected, every refresh that may nest five deep returns with the node
still selected; of its attributes it has kept all but those of `AttrsKept`, where the
GPU memory size has become 0 only if no entry of the memory selector carries it; the
visibility and crop boxes, the quality selector and the frame rate show `a`, the
follow and ignore-threshold boxes are checked exactly when the flags of `a` are not 0,
the method selector is on the entry of `c`, and the memory selector is on the entry
that carries the GPU memory size the node has now, or on -1 if none carries it. -/
theorem refresh_writes_back_or_faults :
    (exampleOffList.panel.DisplayNode = some 2 ∧
      (exampleOffList.nodes 2).displayAttrs.map (fun a => a.GPUMemorySize) = some 100 ∧
      exampleOffList.panel.MemorySizeComboBox.findData (some 100) = -1 ∧
      exampleOffList.panel.MemorySizeComboBox.currentIndex = 4 ∧
      ∀ fuel, (updateFromMRMLDisplayNodeWithSignals (fuel + 2) exampleOffList).toOption.map
          (fun w => (w.panel.DisplayNode, w.panel.MemorySizeComboBox.currentIndex,
            (w.nodes 2).displayAttrs.map (fun a => a.GPUMemorySize))) =
        some (some 2, 0, some 0)) ∧
    (exampleCheckedUnselected.panel.DisplayNode = none ∧
      exampleCheckedUnselected.panel.IgnoreVolumesThresholdCheckBox = true ∧
      ∀ fuel, updateFromMRMLDisplayNodeWithSignals (fuel + 1) exampleCheckedUnselected =
        Except.error Fault.nullDereference) ∧
    (∀ (w : World) (fuel : Nat),
      w.panel.DisplayNode = none → w.panel.DisplayNodeComboBox = none →
      (w.panel.IgnoreVolumesThresholdCheckBox = true →
        updateFromMRMLDisplayNodeWithSignals (fuel + 1) w = Except.error Fault.nullDereference) ∧
      (w.panel.IgnoreVolumesThresholdCheckBox = false →
        ∃ w', updateFromMRMLDisplayNodeWithSignals (fuel + 1) w = Except.ok w' ∧
          w'.nodes = w.nodes ∧
          w'.panel.VisibilityCheckBox = false ∧ w'.panel.ROICropCheckBox = false ∧
          w'.panel.SynchronizeScalarDisplayNodeButton = false ∧
          w'.panel.IgnoreVolumesThresholdCheckBox = false ∧
          w'.panel.MemorySizeComboBox.currentIndex = -1 ∧
          w'.panel.QualityControlComboBox = -1)) ∧
    (∀ (w : World) (d : NodeID) (c : String) (a : DisplayAttrs) (fuel : Nat),
      Selected w d c a →
      ∃ w' a', updateFromMRMLDisplayNodeWithSignals (fuel + 5) w = Except.ok w' ∧
        Selected w' d c a' ∧ AttrsKept w.panel.MemorySizeComboBox a a' ∧
        w'.panel.VisibilityCheckBox = a.Visibility ∧
        w'.panel.ROICropCheckBox = a.CroppingEnabled ∧
        w'.panel.QualityControlComboBox = a.PerformanceControl ∧
        w'.panel.FramerateSliderWidget = a.ExpectedFPS ∧
        w'.panel.SynchronizeScalarDisplayNodeButton = decide (a.FollowVolumeDisplayNode ≠ 0) ∧
        w'.panel.IgnoreVolumesThresholdCheckBox =
          decide (a.IgnoreVolumeDisplayNodeThreshold ≠ 0) ∧
        w'.panel.RenderingMethodComboBox.currentIndex =
          w.panel.RenderingMethodComboBox.findData c ∧
        w'.panel.MemorySizeComboBox.currentIndex =
          w.panel.MemorySizeComboBox.findData (some a'.GPUMemorySize)) := by
  refine ⟨⟨rfl, rfl, by decide, rfl, fun _ => rfl⟩, ⟨rfl, rfl, fun _ => rfl⟩, ?_,
    fun w d c a fuel hs => updateFromMRMLDisplayNodeWithSignals_shows w d c a hs fuel⟩
  intro w fuel hd hsel
  have hr := updateFromMRMLDisplayNodeWithSignals_unselected fuel w hd hsel
  constructor
  · intro hb
    rw [hr, hb]
    rfl
  · intro hb
    rw [hr, if_pos hb]
    refine ⟨_, rfl, updateFromMRMLDisplayNode_unselected_nodes w hd, ?_⟩
    obtain ⟨w2, he, hf, -⟩ := updateFromMRMLDisplayNode_eq w
    obtain ⟨-, -, -, -, -, -, -, hd2, -, -, -⟩ := hf
    rw [hd] at hd2
    have hattrs : w2.displayNodeAttrs = none := by
      simp [World.displayNodeAttrs, hd2]
    rw [he]
    simp [World.withPanel, refreshedPanel, hattrs, ComboBox.setCurrentIndex]

/-- C14 on the example scenes. With nothing selected the refresh with the signals
delivered returns, and shows the check boxes unchecked and the two selectors at -1.
With display node 2 selected, the widgets still at their initial values, the refresh
returns and shows the visibility, the quality and the frame rate of node 2. -/
theorem refresh_writes_back_or_faults_witness :
    (∃ w', updateFromMRMLDisplayNodeWithSignals 1 exampleWorld = Except.ok w' ∧
      w'.nodes = exampleWorld.nodes ∧
      w'.panel.VisibilityCheckBox = false ∧ w'.panel.ROICropCheckBox = false ∧
      w'.panel.SynchronizeScalarDisplayNodeButton = false ∧
      w'.panel.IgnoreVolumesThresholdCheckBox = false ∧
      w'.panel.MemorySizeComboBox.currentIndex = -1 ∧
      w'.panel.QualityControlComboBox = -1) ∧
    (Selected exampleReady 2 "vtkMRMLCPURayCastVolumeRenderingDisplayNode" exampleAttrs ∧
      ∃ w', updateFromMRMLDisplayNodeWithSignals 5 exampleReady = Except.ok w' ∧
        w'.panel.DisplayNode = some 2 ∧
        w'.panel.VisibilityCheckBox = exampleAttrs.Visibility ∧
        w'.panel.QualityControlComboBox = exampleAttrs.PerformanceControl ∧
        w'.panel.FramerateSliderWidget = exampleAttrs.ExpectedFPS) := by
  refine ⟨(refresh_writes_back_or_faults.2.2.1 exampleWorld 0 rfl rfl).2 rfl,
    exampleReady_selected, ?_⟩
  obtain ⟨w', a', hok, hsel, -, h1, -, h3, h4, -⟩ :=
    refresh_writes_back_or_faults.2.2.2 exampleReady 2 _ exampleAttrs 0 exampleReady_selected
  exact ⟨w', hok, hsel.1, h1, h3, h4⟩

/-- C6, at the failing inputs and in general. While the scene is closing, with a
display node in the selector of display nodes, the volume selector moves to a node
that is no scalar volume, or to a scalar volume without a render-display node: when
the ignore-threshold box is checked the slot dereferences the null handle; when it is
unchecked the slot returns with the scene, the allocation, the log of `Modified()`
calls and every node as they were and no display node selected. So it is for display
node 2 selected with the box checked and the selector moved to volume 7 or to no
volume. And with no display node selected, selecting volume 1, whose display node 2
has a GPU memory size of 100 MB that no entry of the memory selector carries, adds no
node to the scene and selects node 2, but overwrites its GPU memory size with 0. In
the remaining cases the slot returns, with the scene, the allocation and the log of
`Modified()` calls as they were: when the selector of display nodes is empty and the
volume has no render-display node, nothing changes; when the volume has a first
render-display node `d` that the selector holds already, no node and no handle
changes; when the selector does not hold `d` yet, `d` becomes the selected node, and
of its attributes it has kept all but those of `AttrsKept`. -/
theorem closing_scene_selection_faults :
    (∀ (w : World) (fuel : Nat) (node : Option NodeID) (sc : Scene) (L : Logic),
      w.scene = some sc → sc.IsClosing = true → w.logic = some L →
      (∀ v, SafeDownCast Node.isScalarVolumeNode w.nodes node = some v →
        GetFirstVolumeRenderingDisplayNode w.nodes v = none) →
      w.panel.DisplayNodeComboBox ≠ none →
      (w.panel.IgnoreVolumesThresholdCheckBox = true →
        onCurrentMRMLVolumeNodeChangedWithSignals (fuel + 1) w node =
          Except.error Fault.nullDereference) ∧
      (w.panel.IgnoreVolumesThresholdCheckBox = false →
        ∃ w', onCurrentMRMLVolumeNodeChangedWithSignals (fuel + 1) w node = Except.ok w' ∧
          w'.scene = w.scene ∧ w'.nextID = w.nextID ∧ w'.ModifiedCalls = w.ModifiedCalls ∧
          w'.nodes = w.nodes ∧ w'.panel.DisplayNode = none ∧
          w'.panel.DisplayNodeComboBox = none)) ∧
    (exampleCheckedClosing.scene = some { Nodes := [1, 2, 3, 4, 5, 7], IsClosing := true } ∧
      exampleCheckedClosing.panel.DisplayNode = some 2 ∧
      exampleCheckedClosing.panel.IgnoreVolumesThresholdCheckBox = true ∧
      exampleCheckedClosing.nodes 7 = Node.scalarVolume [] ∧
      (∀ fuel, onCurrentMRMLVolumeNodeChangedWithSignals (fuel + 1) exampleCheckedClosing (some 7) =
        Except.error Fault.nullDereference) ∧
      (∀ fuel, onCurrentMRMLVolumeNodeChangedWithSignals (fuel + 1) exampleCheckedClosing none =
        Except.error Fault.nullDereference)) ∧
    (exampleOffListClosing.scene = some { Nodes := [1, 2, 3, 4, 5], IsClosing := true } ∧
      exampleOffListClosing.panel.DisplayNode = none ∧
      GetFirstVolumeRenderingDisplayNode exampleOffListClosing.nodes 1 = some 2 ∧
      (exampleOffListClosing.nodes 2).displayAttrs.map (fun a => a.GPUMemorySize) = some 100 ∧
      ∀ fuel, (onCurrentMRMLVolumeNodeChangedWithSignals (fuel + 2) exampleOffListClosing (some 1)).toOption.map
          (fun w => (w.scene.map (fun s => s.Nodes), w.panel.DisplayNode,
            (w.nodes 2).displayAttrs.map (fun a => a.GPUMemorySize))) =
        some (some [1, 2, 3, 4, 5], some 2, some 0)) ∧
    (∀ (w : World) (fuel : Nat) (node : Option NodeID) (sc : Scene) (L : Logic),
      w.scene = some sc → sc.IsClosing = true → w.logic = some L →
      (∀ v, SafeDownCast Node.isScalarVolumeNode w.nodes node = some v →
        GetFirstVolumeRenderingDisplayNode w.nodes v = none) →
      w.panel.DisplayNodeComboBox = none →
      ∃ w', onCurrentMRMLVolumeNodeChangedWithSignals fuel w node = Except.ok w' ∧
        w'.scene = w.scene ∧ w'.nextID = w.nextID ∧ w'.ModifiedCalls = w.ModifiedCalls ∧
        w'.nodes = w.nodes ∧ w'.panel = w.panel) ∧
    (∀ (w : World) (fuel : Nat) (node : Option NodeID) (sc : Scene) (L : Logic) (V d : NodeID),
      w.scene = some sc → sc.IsClosing = true → w.logic = some L →
      SafeDownCast Node.isScalarVolumeNode w.nodes node = some V →
      GetFirstVolumeRenderingDisplayNode w.nodes V = some d →
      ∃ w', onCurrentMRMLVolumeNodeChangedWithSignals (fuel + 5) w node = Except.ok w' ∧
        w'.scene = w.scene ∧ w'.nextID = w.nextID ∧ w'.ModifiedCalls = w.ModifiedCalls ∧
        w'.panel.DisplayNodeComboBox = some d ∧
        (w.panel.DisplayNodeComboBox = some d →
          w'.nodes = w.nodes ∧ w'.panel.DisplayNode = w.panel.DisplayNode) ∧
        (w.panel.DisplayNodeComboBox ≠ some d →
          ∃ c a a', w.nodes d = Node.renderDisplay c a ∧ Selected w' d c a' ∧
            AttrsKept w.panel.MemorySizeComboBox a a')) := by
  refine ⟨?_, ⟨rfl, rfl, rfl, rfl, fun _ => rfl, fun _ => rfl⟩,
    ⟨rfl, rfl, by decide, rfl, fun _ => rfl⟩,
    fun w fuel node sc L hs hc hl hv hsel =>
      onCurrentMRMLVolumeNodeChangedWithSignals_closing_idle w fuel node sc L hs hc hl hv hsel,
    fun w fuel node sc L V d hs hc hl hV hd =>
      onCurrentMRMLVolumeNodeChangedWithSignals_closing_selects w fuel node sc L V d hs hc hl hV hd⟩
  intro w fuel node sc L hs hc hl hv hsel
  exact ⟨fun hb => onCurrentMRMLVolumeNodeChangedWithSignals_closing w fuel node sc L hs hc hl hv hsel hb,
    fun hb => onCurrentMRMLVolumeNodeChangedWithSignals_closing_unchecked w fuel node sc L hs hc hl hv
      hsel hb⟩

/-- C6 on the closing example scenes: with display node 2 selected and the
ignore-threshold box checked, moving the volume selector to volume 7 dereferences the
null handle; with no display node selected, selecting volume 1 returns with the scene
as it was and display node 2 in the selector. -/
theorem closing_scene_selection_faults_witness :
    onCurrentMRMLVolumeNodeChangedWithSignals 1 exampleCheckedClosing (some 7) =
        Except.error Fault.nullDereference ∧
      ∃ w', onCurrentMRMLVolumeNodeChangedWithSignals 5 exampleOffListClosing (some 1) =
          Except.ok w' ∧
        w'.scene = exampleOffListClosing.scene ∧ w'.panel.DisplayNodeComboBox = some 2 := by
  refine ⟨(closing_scene_selection_faults.1 exampleCheckedClosing 0 (some 7)
    { Nodes := [1, 2, 3, 4, 5, 7], IsClosing := true } {} rfl rfl rfl (by decide) (by decide)).1 rfl,
    ?_⟩
  obtain ⟨w', hok, h1, -, -, h4, -⟩ :=
    closing_scene_selection_faults.2.2.2.2 exampleOffListClosing 0 (some 1)
      { Nodes := [1, 2, 3, 4, 5], IsClosing := true } {} 1 2 rfl rfl rfl (by decide) (by decide)
  exact ⟨w', hok, h1, h4⟩

/-! ### The page of the rendering method -/

/-- C11, as stated, fails: with the GPU ray-cast class stored as the default rendering
method and no display node selected, a refresh after `setupUi` shows page 2, the GPU
properties widget, not the placeholder at index 0. -/
theorem rendering_method_page_counterexample :
    (setupUi exampleFresh).map (fun w =>
        (w.panel.DisplayNode, w.panel.RenderingMethodWidgets,
          (updateFromMRMLDisplayNode w).panel.RenderingMethodStackedWidget)) =
      some (none,
        [("vtkMRMLCPURayCastVolumeRenderingDisplayNode", some 1),
          ("vtkMRMLGPURayCastVolumeRenderingDisplayNode", some 2)], 2) := by
  decide

/-- C11, amended: `setupUi` on an empty stacked widget puts the placeholder on page 0
and registers the CPU and GPU ray-cast classes on pages 1 and 2; every registration
with `addRenderingMethodWidget` keeps all registered pages at an index >= 1 and maps
the class name to such a page; a refresh, with a display node selected or with the
ignore-threshold box unchecked, shows the page registered under the current method
class, and page 0 when none is registered under it, where the current method class
is the class of the selected display node, or, when no display node is selected, the
stored default rendering method (with the built-in fallback); the refresh keeps the
registered pages. With no display node selected, the selector of display nodes empty
and the ignore-threshold box unchecked, the refresh with the signals of the widgets
delivered returns that same state. With a display node of class `c` selected, every
refresh with the signals delivered that may nest five deep returns, shows the page
registered under `c`, or page 0 when none is registered under it, and keeps the
registered pages. -/
theorem rendering_method_page (w : World) :
    (∀ L, w.logic = some L → w.panel.RenderingMethodStackedWidgetCount = 0 →
        w.panel.RenderingMethodWidgets = [] →
      ∃ w', setupUi w = some w' ∧
        w'.panel.RenderingMethodWidgets =
          [("vtkMRMLCPURayCastVolumeRenderingDisplayNode", some 1),
            ("vtkMRMLGPURayCastVolumeRenderingDisplayNode", some 2)] ∧
        w'.panel.RenderingMethodStackedWidgetCount = 3 ∧ PagesRegistered w'.panel) ∧
    (∀ name, PagesRegistered w.panel →
      PagesRegistered (addRenderingMethodWidget w name).panel ∧
      ∃ page, 1 ≤ page ∧
        (addRenderingMethodWidget w name).panel.RenderingMethodWidgets.lookup name =
          some (some page)) ∧
    ((w.panel.DisplayNode = none → w.panel.IgnoreVolumesThresholdCheckBox = false) →
      ∀ page, w.panel.RenderingMethodWidgets.lookup (currentVolumeMapper w) = some (some page) →
      (updateFromMRMLDisplayNode w).panel.RenderingMethodStackedWidget = page) ∧
    ((w.panel.DisplayNode = none → w.panel.IgnoreVolumesThresholdCheckBox = false) →
      (∀ page, w.panel.RenderingMethodWidgets.lookup (currentVolumeMapper w) ≠ some (some page)) →
      (updateFromMRMLDisplayNode w).panel.RenderingMethodStackedWidget = 0) ∧
    (∀ N c a, w.panel.DisplayNode = some N → w.nodes N = Node.renderDisplay c a →
      currentVolumeMapper w = c) ∧
    (w.panel.DisplayNode = none →
      currentVolumeMapper w = w.RenderingMethodSetting.getD defaultRenderingMethodFallback) ∧
    ((w.panel.DisplayNode = none → w.panel.IgnoreVolumesThresholdCheckBox = false) →
      PagesRegistered w.panel → PagesRegistered (updateFromMRMLDisplayNode w).panel) ∧
    (w.panel.DisplayNode = none → w.panel.DisplayNodeComboBox = none →
      w.panel.IgnoreVolumesThresholdCheckBox = false →
      ∀ fuel, updateFromMRMLDisplayNodeWithSignals (fuel + 1) w =
        Except.ok (updateFromMRMLDisplayNode w)) ∧
    (∀ (d : NodeID) (c : String) (a : DisplayAttrs) (fuel : Nat), Selected w d c a →
      ∃ w', updateFromMRMLDisplayNodeWithSignals (fuel + 5) w = Except.ok w' ∧
        (∀ page, w.panel.RenderingMethodWidgets.lookup c = some (some page) →
          w'.panel.RenderingMethodStackedWidget = page) ∧
        ((∀ page, w.panel.RenderingMethodWidgets.lookup c ≠ some (some page)) →
          w'.panel.RenderingMethodStackedWidget = 0) ∧
        (PagesRegistered w.panel → PagesRegistered w'.panel)) := by
  obtain ⟨w2, he, hf, hform⟩ := updateFromMRMLDisplayNode_eq w
  have hmap := currentVolumeMapper_frame w w2 hf
  simp only [formState, Prod.mk.injEq] at hform
  obtain ⟨_, _, hwidgets, hcount, _, _⟩ := hform
  obtain ⟨hpage, hreg, hcnt⟩ := refreshedPanel_page w2
  rw [hmap, hwidgets] at hpage hreg
  rw [hcount] at hcnt
  refine ⟨?_, ?_, ?_, ?_, ?_, ?_, ?_, ?_,
    fun d c a fuel hs => updateFromMRMLDisplayNodeWithSignals_page w d c a hs fuel⟩
  · intro L hl h0 hm
    obtain ⟨w', hw'⟩ := setupUi_isSome w L hl
    obtain ⟨e1, e2, _, _, _⟩ := setupUi_panel w w' hw'
    rw [hm, h0] at e1
    rw [h0] at e2
    have e1' : w'.panel.RenderingMethodWidgets =
        [("vtkMRMLCPURayCastVolumeRenderingDisplayNode", some 1),
          ("vtkMRMLGPURayCastVolumeRenderingDisplayNode", some 2)] := by
      rw [e1]; decide
    refine ⟨w', hw', e1', e2, ?_, ?_⟩
    · rw [e2]; omega
    · intro key page hmem
      rw [e1'] at hmem
      rw [e2]
      simp only [List.mem_cons, Prod.mk.injEq, Option.some.injEq, List.mem_nil_iff,
        or_false] at hmem
      omega
  · intro name hp
    refine ⟨addRenderingMethodWidget_registered w name hp, w.panel.RenderingMethodStackedWidgetCount,
      hp.1, ?_⟩
    rw [(addRenderingMethodWidget_panel w name).1]
    exact lookup_RenderingMethodWidgets_assign _ _ _
  · intro _ page hl
    rw [he]
    show (refreshedPanel w2).RenderingMethodStackedWidget = _
    rw [hpage, hl]
    rfl
  · intro _ hno
    rw [he]
    show (refreshedPanel w2).RenderingMethodStackedWidget = _
    rw [hpage]
    cases hl : w.panel.RenderingMethodWidgets.lookup (currentVolumeMapper w) with
    | none => rfl
    | some v =>
      cases v with
      | none => rfl
      | some page => exact absurd hl (hno page)
  · intro N c a hd hN
    simp [currentVolumeMapper, hd, hN, Node.GetClassName]
  · intro hd
    simp [currentVolumeMapper, hd]
  · intro _ hp
    rw [he]
    show PagesRegistered (refreshedPanel w2)
    refine ⟨by rw [hcnt]; exact hp.1, ?_⟩
    intro key page hmem
    rw [hreg] at hmem
    rw [hcnt]
    exact hp.2 key page (mem_RenderingMethodWidgets_index _ _ _ _ hmem)
  · intro hd hsel hb fuel
    rw [updateFromMRMLDisplayNodeWithSignals_unselected fuel w hd hsel, if_pos hb]

/-- C11 on the example scene: `setupUi` builds three pages, and with them a refresh
with display node 2 (of the CPU ray-cast class) in the handle shows page 1, also with
the signals of the widgets delivered. -/
theorem rendering_method_page_witness :
    (∃ w', setupUi exampleFresh = some w' ∧ w'.panel.RenderingMethodStackedWidgetCount = 3 ∧
        PagesRegistered w'.panel) ∧
      (updateFromMRMLDisplayNode exampleReady).panel.RenderingMethodStackedWidget = 1 ∧
      (Selected exampleReady 2 "vtkMRMLCPURayCastVolumeRenderingDisplayNode" exampleAttrs ∧
        ∃ w', updateFromMRMLDisplayNodeWithSignals 5 exampleReady = Except.ok w' ∧
          w'.panel.RenderingMethodStackedWidget = 1) := by
  refine ⟨?_, ?_, exampleReady_selected, ?_⟩
  · obtain ⟨w', h1, _, h3, h4⟩ := (rendering_method_page exampleFresh).1 _ rfl rfl rfl
    exact ⟨w', h1, h3, h4⟩
  · have hc := (rendering_method_page exampleReady).2.2.2.2.1 2 _ exampleAttrs rfl rfl
    refine (rendering_method_page exampleReady).2.2.1 (fun h => by cases h) 1 ?_
    rw [hc]
    decide
  · obtain ⟨w', hok, hp, -, -⟩ :=
      (rendering_method_page exampleReady).2.2.2.2.2.2.2.2 2 _ exampleAttrs 0
        exampleReady_selected
    exact ⟨w', hok, hp 1 (by decide)⟩

/-! ### The order of the steps of a rendering-method switch -/

theorem handleInv_afterCopy (w : World) (sc : Scene) (B : String) (a : DisplayAttrs)
    (old : NodeID) (hd : w.panel.DisplayNode = some old) (hne : old ≠ w.nextID)
    (hinv : HandleInv w) : HandleInv (afterCopy w sc B a) := by
  obtain ⟨h1, h2⟩ := hinv
  refine ⟨h1, ?_⟩
  have hc : w.panel.DisplayNodeComboBox = some old := by rw [← h1, hd]
  show SafeDownCast Node.isVolumeRenderingDisplayNode (afterCopy w sc B a).nodes
    w.panel.DisplayNodeComboBox = w.panel.DisplayNodeComboBox
  have h2' : SafeDownCast Node.isVolumeRenderingDisplayNode w.nodes
      w.panel.DisplayNodeComboBox = w.panel.DisplayNodeComboBox := h2
  rw [hc] at h2' ⊢
  simpa [SafeDownCast, Option.filter, afterCopy, Function.update_noteq hne] using h2'

/-- C19: the steps of a rendering-method switch, in order. First the new node is
added to the scene and takes the attributes of the old one, while the handle still
refers to the old node; then the display-node selector takes the new node, after
which the handle is the new node, no longer the old one, and the old node has not
left the scene yet; then the old node, which the weak pointer still designates, is
removed, in a state whose selected display node is the new node; the slot returns
that state with the signal appended, and the steps it has made are, in this order,
the addition of the new node, the assignment of the handle, the removal of the old
node. When the weak pointer to the old node is null, the removal step changes nothing
and makes no step. With the signals of the widgets delivered to their slots the slot
returns as well, for every depth of nesting of at least five, and has made the same
steps in the same order, the new node in the handle and the old node out of the scene. -/
theorem rendering_method_switch_order (w : World) (index : Int) (old : NodeID) (A B : String)
    (a : DisplayAttrs) (L : Logic) (sc : Scene)
    (hd : w.panel.DisplayNode = some old) (hinv : HandleInv w) (hun : Unallocated w)
    (hold : w.nodes old = Node.renderDisplay A a)
    (hB : w.panel.RenderingMethodComboBox.itemData index = some B)
    (hBne : B ≠ "") (hAB : B ≠ A) (hl : w.logic = some L) (hs : w.scene = some sc) :
    (w.CreateVolumeRenderingDisplayNode L (some B)).2.AddNode w.nextID =
        some (afterCopy w sc B L.DefaultAttrs) ∧
      (afterCopy w sc B L.DefaultAttrs).modifyDisplay w.nextID
          (fun x => (((afterCopy w sc B L.DefaultAttrs).nodes old).displayAttrs).getD x) =
        afterCopy w sc B a ∧
      (afterCopy w sc B a).nodes w.nextID = Node.renderDisplay B a ∧
      (afterCopy w sc B a).scene = some { sc with Nodes := sc.Nodes ++ [w.nextID] } ∧
      (afterCopy w sc B a).panel.DisplayNode = some old ∧
      (afterCopy w sc B a).steps = w.steps ++ [Step.AddNode w.nextID] ∧
      (∃ w3 w4,
        setMRMLDisplayNode (afterCopy w sc B a) (some w.nextID) = some w3 ∧
        w3.panel.DisplayNode = some w.nextID ∧ w3.panel.DisplayNode ≠ some old ∧
        w3.scene = some { sc with Nodes := sc.Nodes ++ [w.nextID] } ∧
        w3.steps = w.steps ++ [Step.AddNode w.nextID, Step.DisplayNode (some w.nextID)] ∧
        weakPointer w3 (some old) = some old ∧
        removeOldDisplayNode w3 (some old) = some w4 ∧
        w4.panel.DisplayNode = some w.nextID ∧
        w4.scene = some { sc with Nodes := (sc.Nodes ++ [w.nextID]).filter (fun m => m != old) } ∧
        onCurrentRenderingMethodChanged w index =
          some { w4 with emitted := w4.emitted ++ [Signal.currentVolumeRenderingDisplayNodeChanged (some w.nextID)] }) ∧
      (∃ w', onCurrentRenderingMethodChanged w index = some w' ∧
        w'.steps = w.steps ++ [Step.AddNode w.nextID, Step.DisplayNode (some w.nextID),
          Step.RemoveNode old]) ∧
      (∀ w0 o, weakPointer w0 (some o) = none → removeOldDisplayNode w0 (some o) = some w0) ∧
      (∀ fuel, ∃ w', onCurrentRenderingMethodChangedWithSignals
            (updateFromMRMLDisplayNodeWithSignals (fuel + 5)) w index = Except.ok w' ∧
        w'.steps = w.steps ++ [Step.AddNode w.nextID, Step.DisplayNode (some w.nextID),
          Step.RemoveNode old] ∧
        w'.panel.DisplayNode = some w.nextID ∧
        w'.scene = some { sc with Nodes := (sc.Nodes ++ [w.nextID]).filter (fun m => m != old) }) := by
  have hne : old ≠ w.nextID := by
    intro heq
    rw [heq, hun w.nextID (Nat.le_refl _)] at hold
    exact absurd hold (by simp)
  have hadd : (w.CreateVolumeRenderingDisplayNode L (some B)).2.AddNode w.nextID =
      some (afterCopy w sc B L.DefaultAttrs) := by
    simp [World.AddNode, World.CreateVolumeRenderingDisplayNode, hs, afterCopy]
  have hcopy : (afterCopy w sc B L.DefaultAttrs).modifyDisplay w.nextID
      (fun x => (((afterCopy w sc B L.DefaultAttrs).nodes old).displayAttrs).getD x) =
      afterCopy w sc B a := by
    simp [afterCopy, World.modifyDisplay, Function.update_noteq hne, hold, Node.displayAttrs,
      Node.mapDisplayAttrs]
  have hnewc : (afterCopy w sc B a).nodes w.nextID = Node.renderDisplay B a := by
    simp [afterCopy]
  have hdc : SafeDownCast Node.isVolumeRenderingDisplayNode (afterCopy w sc B a).nodes
      (some w.nextID) = some w.nextID := by
    simp [SafeDownCast, Option.filter, hnewc, Node.isVolumeRenderingDisplayNode]
  have hcombo : (afterCopy w sc B a).panel.DisplayNodeComboBox ≠ some w.nextID := by
    show w.panel.DisplayNodeComboBox ≠ some w.nextID
    rw [← hinv.1, hd]
    intro heq
    exact hne (Option.some.inj heq)
  obtain ⟨w3, hsel⟩ := Option.isSome_iff_exists.mp
    (setMRMLDisplayNode_isSome (afterCopy w sc B a) (some w.nextID)
      (by show w.logic.isSome = true; simp [hl]))
  obtain ⟨fr, _, hhandle⟩ := setMRMLDisplayNode_frame _ w3 _ hsel
  have h3 : w3.panel.DisplayNode = some w.nextID := by
    rw [hhandle (handleInv_afterCopy w sc B a old hd hne hinv), hdc]
  have hscene : w3.scene = some { sc with Nodes := sc.Nodes ++ [w.nextID] } := by
    rw [fr.scene]
    rfl
  have hsteps : w3.steps =
      w.steps ++ [Step.AddNode w.nextID, Step.DisplayNode (some w.nextID)] := by
    rw [setMRMLDisplayNode_steps _ w3 _ hsel hcombo, hdc]
    show (w.steps ++ [Step.AddNode w.nextID]) ++ _ = _
    simp
  have hlive : (w3.nodes old).isVolumeRenderingDisplayNode = true := by
    rw [isVolumeRenderingDisplayNode_of_classOnly (fr.classOnly old)]
    simp [afterCopy, Function.update_noteq hne, hold, Node.isVolumeRenderingDisplayNode]
  have hweak : weakPointer w3 (some old) = some old := by
    simp [weakPointer, SafeDownCast, Option.filter, hlive]
  have hrem := RemoveNode_eq w3 _ old hscene
  have hrem2 : removeOldDisplayNode w3 (some old) = _ :=
    (removeOldDisplayNode_alive w3 old hlive).trans hrem
  have hfinal := onCurrentRenderingMethodChanged_eq w index old B L _ _ _ hd hB hBne
    (by rw [hold]; exact hAB) hl hadd hd (by rw [hcopy]; exact hsel) hlive hrem
  refine ⟨hadd, hcopy, hnewc, rfl, hd, rfl,
    ⟨w3, _, hsel, h3, ?_, hscene, hsteps, hweak, hrem2, h3, rfl, hfinal⟩, ⟨_, hfinal, ?_⟩, ?_,
    fun fuel => onCurrentRenderingMethodChangedWithSignals_switch w index old A B a L sc fuel hd hinv
      hun hold hB hBne hAB hl hs⟩
  · rw [h3]
    intro heq
    exact hne (Option.some.inj heq).symm
  · show w3.steps ++ [Step.RemoveNode old] = _
    rw [hsteps]
    simp
  · intro w0 o h
    unfold removeOldDisplayNode
    rw [h]

/-- C19 on the example scene: switching node 2 to the GPU class, the display-node
selector takes node 6 while node 2 is still in the scene, node 2 is removed in a
state whose handle is node 6, and the slot has added node 6, assigned the handle and
removed node 2, in this order, also with the signals of the widgets delivered. -/
theorem rendering_method_switch_order_witness :
    (∃ w3 w4,
      setMRMLDisplayNode (afterCopy exampleSelected { Nodes := [1, 2, 3, 4, 5] }
          "vtkMRMLGPURayCastVolumeRenderingDisplayNode" exampleAttrs) (some 6) = some w3 ∧
        w3.panel.DisplayNode = some 6 ∧
        w3.scene = some { Nodes := [1, 2, 3, 4, 5, 6] } ∧
        removeOldDisplayNode w3 (some 2) = some w4 ∧
        w4.panel.DisplayNode = some 6 ∧
        w4.scene = some { Nodes := [1, 3, 4, 5, 6] }) ∧
      (∃ w', onCurrentRenderingMethodChanged exampleSelected 1 = some w' ∧
        w'.steps = [Step.AddNode 6, Step.DisplayNode (some 6), Step.RemoveNode 2]) ∧
      ∃ w', onCurrentRenderingMethodChangedWithSignals
            (updateFromMRMLDisplayNodeWithSignals 5) exampleSelected 1 = Except.ok w' ∧
        w'.steps = [Step.AddNode 6, Step.DisplayNode (some 6), Step.RemoveNode 2] := by
  obtain ⟨_, _, _, _, _, _, ⟨w3, w4, h1, h2, _, h4, _, _, h5, h6, h7, _⟩, ⟨w', h8, h9⟩, _, hdel⟩ :=
    rendering_method_switch_order exampleSelected 1 2 "vtkMRMLCPURayCastVolumeRenderingDisplayNode"
      "vtkMRMLGPURayCastVolumeRenderingDisplayNode" exampleAttrs {} { Nodes := [1, 2, 3, 4, 5] }
      rfl ⟨rfl, rfl⟩ exampleNodes_unallocated rfl (by decide) (by decide) (by decide) rfl rfl
  obtain ⟨w5, h10, h11, _, _⟩ := hdel 0
  exact ⟨⟨w3, w4, h1, h2, h4, h5, h6, h7⟩, ⟨w', h8, h9⟩, w5, h10, h11⟩

/-! ### The scene model -/

theorem foldl_max_ge (l : List Int) (a : Int) : a ≤ l.foldl max a := by
  induction l generalizing a with
  | nil => exact le_refl a
  | cons x xs ih => exact le_trans (le_max_left a x) (ih (max a x))

theorem foldl_max_ge_of_mem (l : List Int) (a c : Int) (h : c ∈ l) : c ≤ l.foldl max a := by
  induction l generalizing a with
  | nil => cases h
  | cons x xs ih =>
    rcases List.mem_cons.1 h with h1 | h1
    · subst h1
      exact le_trans (le_max_right a c) (foldl_max_ge xs (max a c))
    · exact ih (max a x) h1

theorem foldl_max_attained (l : List Int) (a : Int) : l.foldl max a = a ∨ l.foldl max a ∈ l := by
  induction l generalizing a with
  | nil => exact Or.inl rfl
  | cons x xs ih =>
    rcases ih (max a x) with h | h
    · rcases max_choice a x with h1 | h1
      · exact Or.inl (by rw [List.foldl_cons, h, h1])
      · exact Or.inr (by rw [List.foldl_cons, h, h1]; exact List.mem_cons_self _ _)
    · exact Or.inr (List.mem_cons_of_mem _ h)

theorem maxColumnId_nonneg (m : SceneModel) : 0 ≤ maxColumnId m :=
  le_trans (le_max_left 0 _) (foldl_max_ge _ _)

theorem maxRoleColumn_le_maxColumnId (m : SceneModel) : maxRoleColumn m ≤ maxColumnId m :=
  le_trans (le_max_right 0 _) (foldl_max_ge _ _)

theorem updateColumnCount_ok (m : SceneModel) : ColumnCountOk (updateColumnCount m) := by
  have h0 := maxColumnId_nonneg m
  have h1 := maxRoleColumn_le_maxColumnId m
  have hsub : ∀ c ∈ m.subclassColumns, c ≤ maxColumnId m :=
    fun c hc => foldl_max_ge_of_mem _ _ c hc
  have hatt := foldl_max_attained m.subclassColumns (max 0 (maxRoleColumn m))
  have hcount : (updateColumnCount m).columnCount = 1 + maxColumnId m := by
    show 1 + max (maxRoleColumn m) (maxColumnId m) = _
    rw [max_eq_right h1]
  have hid : maxColumnId (updateColumnCount m) = maxColumnId m := rfl
  unfold maxRoleColumn at h1 hatt
  refine ⟨?_, ?_, ⟨?_, ?_, ?_, ?_, ?_, ?_, ?_⟩, ?_⟩
  · rw [hcount, hid]
    show 1 + maxColumnId m = 1 + max (max m.nameColumn (max m.idColumn (max m.checkableColumn
      (max m.visibilityColumn (max m.toolTipNameColumn m.extraItemColumn))))) (maxColumnId m)
    rw [max_eq_right h1]
  · rw [hcount]; omega
  · rw [hcount]; show m.nameColumn < _; omega
  · rw [hcount]; show m.idColumn < _; omega
  · rw [hcount]; show m.checkableColumn < _; omega
  · rw [hcount]; show m.visibilityColumn < _; omega
  · rw [hcount]; show m.toolTipNameColumn < _; omega
  · rw [hcount]; show m.extraItemColumn < _; omega
  · intro c hc
    rw [hcount]
    have := hsub c hc
    omega
  · rw [hcount]
    show 1 + maxColumnId m = 1 ∨ 1 + maxColumnId m - 1 = m.nameColumn ∨
      1 + maxColumnId m - 1 = m.idColumn ∨ 1 + maxColumnId m - 1 = m.checkableColumn ∨
      1 + maxColumnId m - 1 = m.visibilityColumn ∨ 1 + maxColumnId m - 1 = m.toolTipNameColumn ∨
      1 + maxColumnId m - 1 = m.extraItemColumn ∨ 1 + maxColumnId m - 1 ∈ m.subclassColumns
    have e : 1 + maxColumnId m - 1 = maxColumnId m := by omega
    rw [e]
    rcases hatt with h | h
    · have h' : maxColumnId m = max 0 (max m.nameColumn (max m.idColumn (max m.checkableColumn
          (max m.visibilityColumn (max m.toolTipNameColumn m.extraItemColumn))))) := h
      omega
    · exact Or.inr (Or.inr (Or.inr (Or.inr (Or.inr (Or.inr (Or.inr h))))))

/-- C15: after each of the six column setters the role has the column given and the
column count is `1 + max(role columns, maxColumnId())`, the six role columns written
out: it is at least 1, exceeds every assigned role column and every subclass column,
and is 1 or one more than one of them. With every role column set to -1 the count is
1 plus the largest subclass column, at least 1, and exactly 1 when no subclass adds a
column. On the model with the default columns: the identifier in column 3 gives 4
columns, the name in column 7 on top of that gives 8, and hiding the identifier again
gives 1. -/
theorem column_count_after_setter (m : SceneModel) (column : Int) :
    ((setNameColumn m column).nameColumn = column ∧ ColumnCountOk (setNameColumn m column)) ∧
    ((setIDColumn m column).idColumn = column ∧ ColumnCountOk (setIDColumn m column)) ∧
    ((setCheckableColumn m column).checkableColumn = column ∧
      ColumnCountOk (setCheckableColumn m column)) ∧
    ((setVisibilityColumn m column).visibilityColumn = column ∧
      ColumnCountOk (setVisibilityColumn m column)) ∧
    ((setToolTipNameColumn m column).toolTipNameColumn = column ∧
      ColumnCountOk (setToolTipNameColumn m column)) ∧
    ((setExtraItemColumn m column).extraItemColumn = column ∧
      ColumnCountOk (setExtraItemColumn m column)) ∧
    (hideAllColumns m).columnCount = 1 + m.subclassColumns.foldl max 0 ∧
    1 ≤ (hideAllColumns m).columnCount ∧
    (hideAllColumns { m with subclassColumns := [] }).columnCount = 1 ∧
    (setIDColumn {} 3).columnCount = 4 ∧
    (setNameColumn (setIDColumn {} 3) 7).columnCount = 8 ∧
    (setIDColumn (setIDColumn {} 3) (-1)).columnCount = 1 ∧
    (setToolTipNameColumn { subclassColumns := [5, 2] } 1).columnCount = 6 := by
  refine ⟨⟨rfl, updateColumnCount_ok _⟩, ⟨rfl, updateColumnCount_ok _⟩,
    ⟨rfl, updateColumnCount_ok _⟩, ⟨rfl, updateColumnCount_ok _⟩, ⟨rfl, updateColumnCount_ok _⟩,
    ⟨rfl, updateColumnCount_ok _⟩, ?_, (updateColumnCount_ok _).2.1, ?_, ?_, ?_, ?_, ?_⟩
  · show 1 + max (-1 : Int) (m.subclassColumns.foldl max (max 0 (-1))) = _
    have h := foldl_max_ge m.subclassColumns (max 0 (-1))
    have e : max (0 : Int) (-1) = 0 := by decide
    rw [e] at h ⊢
    rw [max_eq_right (by omega)]
  · show 1 + max (-1 : Int) (max 0 (-1)) = 1
    decide
  · decide
  · decide
  · decide
  · decide

/-- C17: the hooks of the base scene model: no parent node, no node can be a parent,
`reparent` returns false and leaves model and scene as they are, no drop action is
supported, and `dropMimeData` returns false and leaves the model as it is. -/
theorem base_model_hooks (m : SceneModel) (node : NodeID) :
    parentNode m node = none ∧ canBeAParent m node = false ∧
    (∀ newParent, (reparent m node newParent).1 = false ∧ (reparent m node newParent).2 = m) ∧
    (∀ action, action ∉ supportedDropActions m) ∧
    (∀ data action row column parent,
      (dropMimeData m data action row column parent).1 = false ∧
      (dropMimeData m data action row column parent).2 = m) := by
  refine ⟨rfl, rfl, fun _ => ⟨rfl, rfl⟩, ?_, fun _ _ _ _ _ => ⟨rfl, rfl⟩⟩
  intro action h
  simp [supportedDropActions] at h

theorem itemFromIndex_child (m : SceneModel) (row : Nat) (column : Int) (it : Item)
    (h : itemFromIndex m (ModelIndex.child row column) = some it) : m.rows.get? row = some it := by
  unfold itemFromIndex at h
  dsimp only at h
  split at h
  · exact h
  · cases h

theorem populatedRows_extra (m : SceneModel) (row : Nat)
    (h : row < m.preItems.length ∨ m.preItems.length + m.sceneNodes.length ≤ row) (n : NodeID) :
    (populatedRows m).get? row ≠ some (Item.node n) := by
  intro hget
  rw [List.get?_eq_getElem?] at hget
  unfold populatedRows at hget
  rcases h with h | h
  · rw [List.append_assoc, List.getElem?_append_left (by simpa using h)] at hget
    simp at hget
  · rw [List.getElem?_append_right (by simp; omega)] at hget
    simp at hget

/-- C16: `mrmlNodeFromIndex(index)` is `mrmlNodeFromItem(itemFromIndex(index))`; it
returns no node for an invalid index, for the cells of the scene item, for the cells
of every extra item, which in a populated model are the rows before and after the
block of the node rows; and for a node that has a row (as every node of the scene
has in a populated model) and an active column, it returns the node at the index
`indexFromNode` gives. -/
theorem mrmlNodeFromIndex_spec (m : SceneModel) :
    (∀ index, mrmlNodeFromIndex m index = mrmlNodeFromItem m (itemFromIndex m index)) ∧
    mrmlNodeFromIndex m ModelIndex.invalid = none ∧
    (∀ column, mrmlNodeFromIndex m (ModelIndex.top column) = none) ∧
    (∀ row column text, m.rows.get? row = some (Item.extra text) →
      mrmlNodeFromIndex m (ModelIndex.child row column) = none) ∧
    (m.rows = populatedRows m → ∀ row column,
      row < m.preItems.length ∨ m.preItems.length + m.sceneNodes.length ≤ row →
      mrmlNodeFromIndex m (ModelIndex.child row column) = none) ∧
    (∀ n column, Item.node n ∈ m.rows → 0 ≤ column → column < m.columnCount →
      mrmlNodeFromIndex m (indexFromNode m n column) = some n) ∧
    (m.rows = populatedRows m → ∀ n, n ∈ m.sceneNodes → Item.node n ∈ m.rows) := by
  refine ⟨fun _ => rfl, rfl, ?_, ?_, ?_, ?_, ?_⟩
  · intro column
    unfold mrmlNodeFromIndex itemFromIndex
    dsimp only
    split <;> rfl
  · intro row column text h
    unfold mrmlNodeFromIndex itemFromIndex
    dsimp only
    split
    · rw [h]; rfl
    · rfl
  · intro hp row column hrow
    cases hit : itemFromIndex m (ModelIndex.child row column) with
    | none => unfold mrmlNodeFromIndex; rw [hit]; rfl
    | some it =>
      have hget := itemFromIndex_child m row column it hit
      unfold mrmlNodeFromIndex
      rw [hit]
      cases it with
      | node n =>
        rw [hp] at hget
        exact absurd hget (populatedRows_extra m row hrow n)
      | scene => rfl
      | extra text => rfl
  · intro n column hmem h0 h1
    have hlt : m.rows.indexOf (Item.node n) < m.rows.length := List.indexOf_lt_length.2 hmem
    unfold indexFromNode
    rw [if_pos ⟨hlt, h0, h1⟩]
    unfold mrmlNodeFromIndex itemFromIndex
    dsimp only
    rw [if_pos ⟨h0, h1⟩, List.get?_eq_getElem?, List.getElem?_eq_getElem hlt]
    have hget : m.rows[m.rows.indexOf (Item.node n)] = Item.node n := List.indexOf_get hlt
    rw [hget]
    rfl
  · intro hp n hn
    rw [hp]
    unfold populatedRows
    simp [hn]

/-- C16 on the example model: the cell of node 2 in the identifier column maps back to
node 2, and the row of the post-item maps to no node. -/
theorem mrmlNodeFromIndex_spec_witness :
    mrmlNodeFromIndex exampleSceneModel (indexFromNode exampleSceneModel 2 1) = some 2 ∧
      mrmlNodeFromIndex exampleSceneModel (ModelIndex.child 2 0) = none :=
  ⟨(mrmlNodeFromIndex_spec exampleSceneModel).2.2.2.2.2.1 2 1 (by decide) (by decide) (by decide),
   (mrmlNodeFromIndex_spec exampleSceneModel).2.2.2.1 2 0 "Add new node" (by decide)⟩

theorem sceneAddNode_lazy (m : SceneModel) (n : NodeID) (hl : m.lazyUpdate = true)
    (hb : m.batchState ≠ BatchState.idle) :
    sceneAddNode m n = { m with sceneNodes := m.sceneNodes ++ [n] } := by
  unfold sceneAddNode onMRMLSceneNodeAdded
  rw [if_pos ⟨hl, hb⟩]

theorem foldl_sceneAddNode_lazy (nodes : List NodeID) (m : SceneModel)
    (hl : m.lazyUpdate = true) (hb : m.batchState ≠ BatchState.idle) :
    nodes.foldl sceneAddNode m = { m with sceneNodes := m.sceneNodes ++ nodes } := by
  induction nodes generalizing m with
  | nil => simp
  | cons n rest ih =>
    have h := ih { m with sceneNodes := m.sceneNodes ++ [n] } hl hb
    rw [List.foldl_cons, sceneAddNode_lazy m n hl hb, h]
    simp

theorem insertNode_populated (m : SceneModel) (n : NodeID) (nodes : List NodeID)
    (hs : m.sceneNodes = nodes ++ [n]) (hn : n ∉ nodes)
    (hr : m.rows = m.preItems.map Item.extra ++ nodes.map Item.node ++ m.postItems.map Item.extra) :
    (insertNode m n).rows = populatedRows (insertNode m n) := by
  have hidx : nodeIndex m n = nodes.length := by
    unfold nodeIndex
    rw [hs, List.indexOf_append_of_not_mem hn]
    simp
  have hlen : (m.preItems.map Item.extra ++ nodes.map Item.node).length =
      nodeIndex m n + m.preItems.length := by
    rw [hidx]; simp; omega
  show m.rows.take (nodeIndex m n + m.preItems.length) ++ [Item.node n] ++
      m.rows.drop (nodeIndex m n + m.preItems.length) =
    m.preItems.map Item.extra ++ m.sceneNodes.map Item.node ++ m.postItems.map Item.extra
  rw [hr, ← hlen, List.take_left, List.drop_left, hs]
  simp

/-- C18: with lazy update on, after the begin event of an import or a restore, any
number of node-added events leaves the rows of the model as they were and inserts no
row, and the end event leaves the model with the rows a populate of the scene
builds; with lazy update off, each node-added event inserts exactly one row, the row
of the node, and a populated model stays populated. -/
theorem lazy_update_batch (m : SceneModel) :
    (m.lazyUpdate = true → ∀ b, b ≠ BatchState.idle → ∀ nodes : List NodeID,
      (nodes.foldl sceneAddNode (sceneStartState m b)).rows = m.rows ∧
      (nodes.foldl sceneAddNode (sceneStartState m b)).insertedRows = m.insertedRows ∧
      (nodes.foldl sceneAddNode (sceneStartState m b)).sceneNodes = m.sceneNodes ++ nodes ∧
      (sceneEndState (nodes.foldl sceneAddNode (sceneStartState m b))).rows =
        (populateScene { m with sceneNodes := m.sceneNodes ++ nodes }).rows ∧
      (sceneEndState (nodes.foldl sceneAddNode (sceneStartState m b))).sceneNodes =
        m.sceneNodes ++ nodes ∧
      (sceneEndState (nodes.foldl sceneAddNode (sceneStartState m b))).batchState =
        BatchState.idle) ∧
    (m.lazyUpdate = false → ∀ n,
      (sceneAddNode m n).rows.length = m.rows.length + 1 ∧
      (sceneAddNode m n).insertedRows = m.insertedRows + 1 ∧
      Item.node n ∈ (sceneAddNode m n).rows ∧
      (m.rows = populatedRows m → n ∉ m.sceneNodes →
        (sceneAddNode m n).rows = populatedRows (sceneAddNode m n))) := by
  constructor
  · intro hl b hb nodes
    have h := foldl_sceneAddNode_lazy nodes (sceneStartState m b) hl hb
    rw [h]
    refine ⟨rfl, rfl, rfl, ?_, ?_, ?_⟩
    · unfold sceneEndState onMRMLSceneImported
      rw [if_pos (by exact hl)]
      rfl
    · unfold sceneEndState onMRMLSceneImported
      rw [if_pos (by exact hl)]
      rfl
    · unfold sceneEndState onMRMLSceneImported
      rw [if_pos (by exact hl)]
      rfl
  · intro hl n
    have hadd : sceneAddNode m n = insertNode { m with sceneNodes := m.sceneNodes ++ [n] } n := by
      unfold sceneAddNode onMRMLSceneNodeAdded
      rw [if_neg]
      intro h
      rw [show ({ m with sceneNodes := m.sceneNodes ++ [n] } : SceneModel).lazyUpdate =
        m.lazyUpdate from rfl, hl] at h
      exact absurd h.1 (by simp)
    rw [hadd]
    refine ⟨?_, rfl, ?_, ?_⟩
    · simp only [insertNode, List.length_append, List.length_take, List.length_drop,
        List.length_singleton]
      omega
    · simp [insertNode]
    · intro hp hn
      exact insertNode_populated _ n m.sceneNodes rfl hn hp

/-- C18 on the example model: with lazy update on, an import that adds nodes 3 and 4
inserts nothing before its end, and at the end the model has the four node rows and
the post-item; with lazy update off, adding node 3 inserts its row at once. -/
theorem lazy_update_batch_witness :
    ([3, 4].foldl sceneAddNode
        (sceneStartState { exampleSceneModel with lazyUpdate := true } BatchState.importing)).rows =
        [Item.node 1, Item.node 2, Item.extra "Add new node"] ∧
      (sceneEndState ([3, 4].foldl sceneAddNode
        (sceneStartState { exampleSceneModel with lazyUpdate := true } BatchState.importing))).rows =
        [Item.node 1, Item.node 2, Item.node 3, Item.node 4, Item.extra "Add new node"] ∧
      (sceneAddNode exampleSceneModel 3).rows =
        [Item.node 1, Item.node 2, Item.node 3, Item.extra "Add new node"] := by
  obtain ⟨h1, _, _, h4, _, _⟩ :=
    (lazy_update_batch { exampleSceneModel with lazyUpdate := true }).1 rfl
      BatchState.importing (by decide) [3, 4]
  obtain ⟨_, _, _, h8⟩ := (lazy_update_batch exampleSceneModel).2 rfl 3
  refine ⟨h1, ?_, ?_⟩
  · rw [h4]; rfl
  · rw [h8 rfl (by decide)]; rfl

/-! ### The fallback rendering method -/

/-- C22, at the failing input: with no display node selected and no default rendering
method stored, the class name the refresh falls back to is not the CPU ray-cast class
and is not registered by `setupUi`; the refresh after `setupUi` shows page 0, the
placeholder, selects no entry of the method selector, and leaves the registry with a
third key, the fallback name, bound to no widget. -/
theorem fallback_method_not_registered :
    defaultRenderingMethodFallback ≠ "vtkMRMLCPURayCastVolumeRenderingDisplayNode" ∧
    (setupUi exampleUnset).map (fun w =>
        (w.panel.DisplayNode, w.RenderingMethodSetting, currentVolumeMapper w)) =
      some (none, none, "vtkMRMLCPURayCastVolumeRenderinDisplayNode") ∧
    (setupUi exampleUnset).map (fun w =>
        (w.panel.RenderingMethodWidgets.lookup (currentVolumeMapper w),
          (updateFromMRMLDisplayNode w).panel.RenderingMethodStackedWidget,
          (updateFromMRMLDisplayNode w).panel.RenderingMethodComboBox.currentIndex)) =
      some (none, 0, -1) ∧
    (setupUi exampleUnset).map (fun w =>
        (w.panel.RenderingMethodWidgets,
          (updateFromMRMLDisplayNode w).panel.RenderingMethodWidgets)) =
      some ([("vtkMRMLCPURayCastVolumeRenderingDisplayNode", some 1),
          ("vtkMRMLGPURayCastVolumeRenderingDisplayNode", some 2)],
        [("vtkMRMLCPURayCastVolumeRenderingDisplayNode", some 1),
          ("vtkMRMLGPURayCastVolumeRenderingDisplayNode", some 2),
          ("vtkMRMLCPURayCastVolumeRenderinDisplayNode", none)]) := by
  refine ⟨?_, ?_, ?_, ?_⟩
  · decide
  · decide
  · decide
  · decide

/-! ### The extent of the ROI widget -/

/-- C23: `fitROIToVolume` changes nothing when no display node is selected. With a
display node selected and the logic available, the logic fits the ROI, and when the
ROI widget has an ROI node whose centre is then `(x, y, z)` and whose radii are
`(rx, ry, rz)`, the extent of the widget becomes
`(x - rx, x + rx, y - ry, y + ry, z - rz, z + rz)` and nothing else of the panel
changes; on every axis the lower bound is at most the upper bound when the radius
is not negative. -/
theorem fitROIToVolume_extent (w : World) :
    (w.panel.DisplayNode = none → fitROIToVolume w = some w) ∧
    (∀ d L roi r, w.panel.DisplayNode = some d → w.logic = some L →
      w.panel.ROIWidget = some roi → L.FitROIToVolume w.nodes d roi = Node.annotationROI r →
      ∃ w', fitROIToVolume w = some w' ∧
        w'.panel.ROIWidgetExtent =
          some (r.XYZ.1 - r.RadiusXYZ.1, r.XYZ.1 + r.RadiusXYZ.1,
            r.XYZ.2.1 - r.RadiusXYZ.2.1, r.XYZ.2.1 + r.RadiusXYZ.2.1,
            r.XYZ.2.2 - r.RadiusXYZ.2.2, r.XYZ.2.2 + r.RadiusXYZ.2.2) ∧
        w'.panel = { w.panel with ROIWidgetExtent := w'.panel.ROIWidgetExtent } ∧
        w'.nodes = L.FitROIToVolume w.nodes d ∧
        (0 ≤ r.RadiusXYZ.1 → r.XYZ.1 - r.RadiusXYZ.1 ≤ r.XYZ.1 + r.RadiusXYZ.1) ∧
        (0 ≤ r.RadiusXYZ.2.1 → r.XYZ.2.1 - r.RadiusXYZ.2.1 ≤ r.XYZ.2.1 + r.RadiusXYZ.2.1) ∧
        (0 ≤ r.RadiusXYZ.2.2 → r.XYZ.2.2 - r.RadiusXYZ.2.2 ≤ r.XYZ.2.2 + r.RadiusXYZ.2.2)) := by
  constructor
  · intro hd
    unfold fitROIToVolume
    rw [hd]
  · intro d L roi r hd hl hroi hr
    have h : fitROIToVolume w = some { ({ w with nodes := L.FitROIToVolume w.nodes d } : World) with panel.ROIWidgetExtent := some (r.XYZ.1 - r.RadiusXYZ.1, r.XYZ.1 + r.RadiusXYZ.1, r.XYZ.2.1 - r.RadiusXYZ.2.1, r.XYZ.2.1 + r.RadiusXYZ.2.1, r.XYZ.2.2 - r.RadiusXYZ.2.2, r.XYZ.2.2 + r.RadiusXYZ.2.2) } := by
      unfold fitROIToVolume
      rw [hd]
      dsimp only
      rw [hl]
      dsimp only
      rw [hroi]
      dsimp only
      rw [hr]
    exact ⟨_, h, rfl, rfl, rfl, fun h => by linarith, fun h => by linarith,
      fun h => by linarith⟩

/-- C23 on the example scene: the ROI of centre (10, 20, 30) and radii (1, 2, 3)
gives the extent (9, 11, 18, 22, 27, 33). -/
theorem fitROIToVolume_extent_witness :
    ∃ w', fitROIToVolume exampleROI = some w' ∧
      w'.panel.ROIWidgetExtent = some (9, 11, 18, 22, 27, 33) := by
  obtain ⟨w', h1, h2, _⟩ := (fitROIToVolume_extent exampleROI).2 2 {} 4
    { XYZ := (10, 20, 30), RadiusXYZ := (1, 2, 3) } rfl rfl rfl (by simp [exampleROI])
  refine ⟨w', h1, ?_⟩
  rw [h2]
  norm_num

/-! ### The round trip of the memory size -/

theorem findData_of_itemData {α : Type} [DecidableEq α] (c : ComboBox α) (i : Int) (v : α)
    (hi : c.itemData i = some v) (hnd : (c.items.map Prod.snd).Nodup) : c.findData v = i := by
  unfold ComboBox.itemData at hi
  split at hi
  · cases hi
  · rename_i hneg
    rw [List.get?_eq_getElem?] at hi
    obtain ⟨it, hit, hv⟩ := Option.map_eq_some'.1 hi
    obtain ⟨hn, hget⟩ := List.getElem?_eq_some_iff.1 hit
    have hidx : c.items.findIdx (fun it => decide (it.2 = v)) = i.toNat := by
      rw [List.findIdx_eq hn]
      refine ⟨by rw [hget]; simpa using hv, ?_⟩
      intro j hj
      have hjn : j < c.items.length := Nat.lt_trans hj hn
      have hjm : j < (c.items.map Prod.snd).length := by simpa using hjn
      have hnm : i.toNat < (c.items.map Prod.snd).length := by simpa using hn
      simp only [decide_eq_false_iff_not]
      intro hjv
      have h1 : (c.items.map Prod.snd)[j] = (c.items.map Prod.snd)[i.toNat] := by
        simp only [List.getElem_map]
        rw [hjv, hget, hv]
      have h2 := (hnd.getElem_inj_iff).1 h1
      omega
    unfold ComboBox.findData
    rw [hidx, if_pos hn]
    omega

theorem memorySizeItems_nodup (d : Int) : ((memorySizeItems d).map Prod.snd).Nodup := by
  simp [memorySizeItems]

theorem setupUi_memorySize (w w' : World) (h : setupUi w = some w')
    (hempty : w.panel.MemorySizeComboBox.items = []) :
    w'.panel.MemorySizeComboBox.items = memorySizeItems (w.GPUMemorySizeSetting.getD 0) := by
  have hm : w'.panel.MemorySizeComboBox =
      setupMemorySizeComboBox w.panel.MemorySizeComboBox (w.GPUMemorySizeSetting.getD 0) := by
    unfold setupUi at h
    cases hl : w.logic with
    | none => rw [hl] at h; cases h
    | some L =>
      rw [hl] at h
      have h2 := (Option.some.inj h).symm
      rw [h2]
      rfl
  rw [hm]
  cases hc : w.panel.MemorySizeComboBox with
  | mk items idx =>
    rw [hc] at hempty
    simp only at hempty
    subst hempty
    rfl

theorem refresh_memory_index (w : World) (N : NodeID) (c : String) (a : DisplayAttrs)
    (hd : w.panel.DisplayNode = some N) (hN : w.nodes N = Node.renderDisplay c a) :
    (updateFromMRMLDisplayNode w).panel.MemorySizeComboBox.items =
        w.panel.MemorySizeComboBox.items ∧
      (updateFromMRMLDisplayNode w).panel.MemorySizeComboBox.currentIndex =
        w.panel.MemorySizeComboBox.findData (some a.GPUMemorySize) ∧
      (updateFromMRMLDisplayNode w).panel.DisplayNode = some N ∧
      ∃ a2, (updateFromMRMLDisplayNode w).nodes N = Node.renderDisplay c a2 ∧
        a2.GPUMemorySize = a.GPUMemorySize := by
  obtain ⟨w2, he, hf, hform⟩ := updateFromMRMLDisplayNode_eq w
  obtain ⟨_, _, _, _, _, _, _, hd2, _, _, hsk⟩ := hf
  simp only [formState, Prod.mk.injEq] at hform
  obtain ⟨hmem, _, _, _, _, _⟩ := hform
  rw [he]
  rw [hd] at hd2
  have hs := hsk N
  rw [hN] at hs
  obtain ⟨a2, hx, _, _, h3, _, _, _, _⟩ := renderDisplay_of_skeleton _ c a hs
  have hattrs : w2.displayNodeAttrs = some a2 := by
    simp [World.displayNodeAttrs, hd2, hx, Node.displayAttrs]
  refine ⟨?_, ?_, hd2, a2, hx, h3⟩
  · simp [World.withPanel, refreshedPanel, ComboBox.setCurrentIndex, hmem]
  · simp [World.withPanel, refreshedPanel, hattrs, ComboBox.setCurrentIndex, hmem, h3]

theorem onCurrentMemorySizeChanged_eq (w : World) (N : NodeID) (c : String) (a : DisplayAttrs)
    (i : Int) (v : Int) (hd : w.panel.DisplayNode = some N)
    (hN : w.nodes N = Node.renderDisplay c a)
    (hi : w.panel.MemorySizeComboBox.itemData i = some (some v)) :
    onCurrentMemorySizeChanged w i =
      w.withNode N (Node.renderDisplay c { a with GPUMemorySize := v }) := by
  simp [onCurrentMemorySizeChanged, hd, World.withNode, World.modifyDisplay, hN,
    Node.mapDisplayAttrs, hi]

theorem itemData_of_items {α : Type} (c1 c2 : ComboBox α) (h : c1.items = c2.items)
    (i : Int) : c1.itemData i = c2.itemData i := by
  unfold ComboBox.itemData
  rw [h]

/-- C21: with display node `N` selected and the memory-size selector holding the
entries `setupUi` gives it, the data of the entries are pairwise distinct; for every
entry that carries a value (every entry but the separator), writing the value to `N`
with `onCurrentMemorySizeChanged` and refreshing the panel from `N` leaves the
selector on that entry; and when the GPU memory size of `N` is one of the offered
values, the refresh followed by the write-back of the entry it selects changes
nothing, so `N` keeps its GPU memory size. -/
theorem memory_size_round_trip (w : World) (N : NodeID) (c : String) (a : DisplayAttrs)
    (d : Int) (hd : w.panel.DisplayNode = some N) (hN : w.nodes N = Node.renderDisplay c a)
    (hitems : w.panel.MemorySizeComboBox.items = memorySizeItems d) :
    ((memorySizeItems d).map Prod.snd).Nodup ∧
    (∀ (i : Int) (v : Int), w.panel.MemorySizeComboBox.itemData i = some (some v) →
      (onCurrentMemorySizeChanged w i).nodes N =
          Node.renderDisplay c { a with GPUMemorySize := v } ∧
        (updateFromMRMLDisplayNode
          (onCurrentMemorySizeChanged w i)).panel.MemorySizeComboBox.currentIndex = i) ∧
    ((∃ t, (t, some a.GPUMemorySize) ∈ memorySizeItems d) →
      onCurrentMemorySizeChanged (updateFromMRMLDisplayNode w)
          (updateFromMRMLDisplayNode w).panel.MemorySizeComboBox.currentIndex =
        updateFromMRMLDisplayNode w ∧
      ((updateFromMRMLDisplayNode w).nodes N).displayAttrs.map (fun x => x.GPUMemorySize) =
        some a.GPUMemorySize) := by
  have hnd : (w.panel.MemorySizeComboBox.items.map Prod.snd).Nodup := by
    rw [hitems]; exact memorySizeItems_nodup d
  refine ⟨memorySizeItems_nodup d, ?_, ?_⟩
  · intro i v hi
    have hw := onCurrentMemorySizeChanged_eq w N c a i v hd hN hi
    have hn1 : (onCurrentMemorySizeChanged w i).nodes N =
        Node.renderDisplay c { a with GPUMemorySize := v } := by
      rw [hw]; simp [World.withNode]
    have hd1 : (onCurrentMemorySizeChanged w i).panel.DisplayNode = some N := by
      rw [hw]; exact hd
    obtain ⟨_, hidx, _, _⟩ := refresh_memory_index _ N c _ hd1 hn1
    refine ⟨hn1, ?_⟩
    rw [hidx, hw]
    exact findData_of_itemData w.panel.MemorySizeComboBox i (some v) hi hnd
  · intro hoff
    obtain ⟨hit, hidx, hd2, a2, hx, h3⟩ := refresh_memory_index w N c a hd hN
    have hne : w.panel.MemorySizeComboBox.findData (some a.GPUMemorySize) ≠ -1 := by
      intro h
      rw [findData_eq_neg_one_iff, hitems] at h
      obtain ⟨t, ht⟩ := hoff
      exact h (t, some a.GPUMemorySize) ht rfl
    have hdata := itemData_findData _ _ hne
    rw [← itemData_of_items _ _ hit, ← hidx, ← h3] at hdata
    have hw := onCurrentMemorySizeChanged_eq (updateFromMRMLDisplayNode w) N c a2 _ _ hd2 hx hdata
    refine ⟨?_, ?_⟩
    · rw [hw]
      unfold World.withNode
      have hup : Function.update (updateFromMRMLDisplayNode w).nodes N
          (Node.renderDisplay c { a2 with GPUMemorySize := a2.GPUMemorySize }) =
          (updateFromMRMLDisplayNode w).nodes := by
        rw [show Node.renderDisplay c { a2 with GPUMemorySize := a2.GPUMemorySize } =
          (updateFromMRMLDisplayNode w).nodes N from hx.symm]
        exact Function.update_eq_self _ _
      rw [hup]
    · rw [hx, ← h3]
      rfl

/-- C21 on the example scene: picking "256 MB" (index 3) and refreshing leaves the
selector on index 3, and refreshing from node 2 (512 MB) and writing the selected
entry back changes nothing. -/
theorem memory_size_round_trip_witness :
    (updateFromMRMLDisplayNode
        (onCurrentMemorySizeChanged exampleSelected 3)).panel.MemorySizeComboBox.currentIndex = 3 ∧
      onCurrentMemorySizeChanged (updateFromMRMLDisplayNode exampleSelected)
          (updateFromMRMLDisplayNode exampleSelected).panel.MemorySizeComboBox.currentIndex =
        updateFromMRMLDisplayNode exampleSelected :=
  ⟨((memory_size_round_trip exampleSelected 2 "vtkMRMLCPURayCastVolumeRenderingDisplayNode"
      exampleAttrs 256 rfl rfl rfl).2.1 3 256 (by decide)).2,
   ((memory_size_round_trip exampleSelected 2 "vtkMRMLCPURayCastVolumeRenderingDisplayNode"
      exampleAttrs 256 rfl rfl rfl).2.2 ⟨"512 MB", by decide⟩).1⟩

end Slicer
